import Mathlib

/-! Defake-It: account and reset-token flow of `server/controllers/authController.js`, the
detection flow of `server/controllers/detectController.js` with `server/utils/r2Storage.js`,
the history routes of `server/controllers/historyController.js` and the CORS origin callback
of `server/server.js`.

A shallow embedding of the request handlers of the three controllers.

* The user collection is a list of documents in insertion order; `findOne` returns the
  first document that matches a filter and `save` rewrites the first document that carries
  the `_id` of the saved one.
* Request body fields are strings that may be absent (`Option String`).
* Everything the handlers obtain from outside the controller is explicit: library functions
  (`String.prototype.toLowerCase`, SHA-256, the password hash, `jwt.sign`) are fields of `Lib`,
  and what one request observes of its surroundings (clock, environment variables, the random
  reset token, whether a write or a mail delivery is rejected) is a field of `Env`.
* Reads of the collection answer; writes (`save`, `create`, `findByIdAndUpdate`) may be
  rejected, which takes the handler to its `catch` branch.
* A handler returns the collection after the request, the HTTP response and the console lines.

* The detection and history handlers work on the upload directory, the R2 bucket and the
  `Detection` collection (`Sys`), observe their surroundings through `DetectEnv`, and also
  return the external calls they made, in order.
* The numbers of `getHistory` are doubles (`Double`): `NaN`, the infinities and the finite
  doubles of integer value, with the rounding of `parseInt`, `-`, `*` and `/`.

`models/User.js`, `models/Detection.js` and `utils/detector.js` are not among the sources: what
is taken from them is modelled from the specification and marked as such.
-/

namespace DefakeIt

/-! ## Data model -/

/-- One document of the `User` collection. `password` holds the stored hash. -/
structure User where
  _id : Nat
  name : String
  email : String
  password : String
  lastLogin : Option Int
  resetPasswordToken : Option String
  resetPasswordExpire : Option Int
  deriving DecidableEq, Repr

/-- The `User` collection, in insertion order. -/
abbrev Store := List User

/-- Library functions used by the controller. -/
structure Lib where
  /-- `String.prototype.toLowerCase`. -/
  toLowerCase : String → String
  /-- `crypto.createHash('sha256').update(t).digest('hex')`. -/
  sha256hex : String → String
  /-- The one-way password hash applied when a password is written. -/
  hashPassword : String → String
  /-- `user.comparePassword(candidate)`: candidate first, stored hash second. -/
  comparePassword : String → String → Bool
  /-- `jwt.sign(\x7b id \x7d, JWT_SECRET, ...)` for an id at an issue time. -/
  jwtSign : Nat → Int → String

/-- Result of `User.create`, as the `catch` branch of `signup` distinguishes it. -/
inductive CreateOutcome where
  | ok
  | validationError (messages : List String)
  | duplicateKey
  | otherError
  deriving DecidableEq, Repr

/-- What one request observes of its surroundings. -/
structure Env where
  /-- `Date.now()` in milliseconds. -/
  now : Int
  /-- `process.env.NODE_ENV`. -/
  nodeEnv : Option String
  /-- `process.env.FRONTEND_URL`. -/
  frontendUrl : Option String
  /-- The `_id` the database gives to a created document. -/
  newId : Nat
  /-- The random token drawn by `getResetPasswordToken`. -/
  randomToken : String
  /-- Whether `user.save` / `findByIdAndUpdate` is rejected. -/
  saveRejects : Bool
  /-- How `User.create` ends. -/
  createOutcome : CreateOutcome
  /-- Whether `sendPasswordResetEmail` is rejected. -/
  resetEmailFails : Bool
  /-- Whether `sendWelcomeEmail` is rejected. -/
  welcomeEmailFails : Bool

/-- Public view of a user, as sent to clients. -/
structure PublicUser where
  id : Nat
  name : String
  email : String
  deriving DecidableEq, Repr

/-- The cookie set by `sendTokenResponse`. -/
structure Cookie where
  name : String
  value : String
  expires : Int
  httpOnly : Bool
  secure : Bool
  sameSite : String
  deriving DecidableEq, Repr

/-- JSON body of a response: every key the auth controller ever writes. -/
structure Body where
  success : Bool
  error : Option String
  message : Option String
  token : Option String
  user : Option PublicUser
  resetToken : Option String
  resetUrl : Option String
  deriving DecidableEq, Repr

/-- An HTTP response. -/
structure Response where
  status : Nat
  cookie : Option Cookie
  body : Body
  deriving DecidableEq, Repr

/-- What a handler leaves behind. -/
structure Outcome where
  store : Store
  res : Response
  log : List String
  deriving DecidableEq, Repr

/-! ## JavaScript primitives -/

/-- JavaScript truthiness of a field that is a string or absent: `!x` is `!truthy x`. -/
def truthy : Option String → Bool
  | some s => s != ""
  | none => false

/-- JavaScript `s.length`: the number of UTF-16 code units of `s`. -/
def jsLength (s : String) : Nat :=
  (s.data.map (fun c => if c.val.toNat < 65536 then 1 else 2)).sum

/-- `res.status(code).json(\x7b success: false, error \x7d)`. -/
def errorResponse (code : Nat) (msg : String) : Response :=
  { status := code, cookie := none,
    body := { success := false, error := some msg, message := none, token := none,
              user := none, resetToken := none, resetUrl := none } }

/-- `res.status(code).json(\x7b success: true, message \x7d)`. -/
def messageResponse (code : Nat) (msg : String) : Response :=
  { status := code, cookie := none,
    body := { success := true, error := none, message := some msg, token := none,
              user := none, resetToken := none, resetUrl := none } }

/-! ## Document store -/

/-- `User.findOne(filter)`: the first document matching the filter. -/
def findOne (filter : User → Bool) (s : Store) : Option User :=
  s.find? filter

/-- Filter `\x7b email \x7d`. -/
def byEmail (email : String) (u : User) : Bool :=
  u.email == email

/-- Filter `\x7b resetPasswordToken, resetPasswordExpire: \x7b $gt: now \x7d \x7d`: a document
without an expiry does not match. -/
def byResetToken (hash : String) (now : Int) (u : User) : Bool :=
  u.resetPasswordToken == some hash &&
    (match u.resetPasswordExpire with
     | some t => decide (now < t)
     | none => false)

/-- `user.save()`: rewrites the first document carrying the `_id` of `u`. -/
def save (u : User) : Store → Store
  | [] => []
  | v :: rest => if v._id = u._id then u :: rest else v :: save u rest

/-! ## User model -/

/-- Modelled from the spec: `toPublicJSON` of `models/User.js`, which is missing; identity
fields only, the password hash is never returned to clients. -/
def toPublicJSON (u : User) : PublicUser :=
  { id := u._id, name := u.name, email := u.email }

/-- Modelled from the spec: `getResetPasswordToken` of `models/User.js`, which is missing;
draws a random token, stores only its hash and an expiry 10 minutes from issuance on the
user, and returns the plaintext token. -/
def getResetPasswordToken (lib : Lib) (env : Env) (u : User) : String × User :=
  (env.randomToken,
   { u with resetPasswordToken := some (lib.sha256hex env.randomToken),
            resetPasswordExpire := some (env.now + 10 * 60 * 1000) })

/-- Modelled from the spec: `User.create` of the missing model on success; persists a user
with the given name and email and a one-way hashed password, reset fields unset. -/
def createdUser (lib : Lib) (env : Env) (name email password : String) : User :=
  { _id := env.newId, name := name, email := email, password := lib.hashPassword password,
    lastLogin := none, resetPasswordToken := none, resetPasswordExpire := none }

/-! ## Controller -/

/-- `generateToken`. -/
def generateToken (lib : Lib) (env : Env) (id : Nat) : String :=
  lib.jwtSign id env.now

/-- `sendTokenResponse`. -/
def sendTokenResponse (lib : Lib) (env : Env) (user : User) (statusCode : Nat) : Response :=
  let token := generateToken lib env user._id
  { status := statusCode,
    cookie := some { name := "token", value := token,
                     expires := env.now + 7 * 24 * 60 * 60 * 1000,
                     httpOnly := true,
                     secure := env.nodeEnv == some "production",
                     sameSite := "strict" },
    body := { success := true, error := none, message := none, token := some token,
              user := some (toPublicJSON user), resetToken := none, resetUrl := none } }

/-- Body of `POST /api/auth/signup`. -/
structure SignupBody where
  name : Option String
  email : Option String
  password : Option String
  confirmPassword : Option String
  deriving DecidableEq, Repr

/-- The `catch` branch of `signup` for a rejected `User.create`. -/
def signupCatch (s : Store) : CreateOutcome → Outcome
  | .validationError messages =>
      { store := s, res := errorResponse 400 (", ".intercalate messages),
        log := ["Signup error:"] }
  | .duplicateKey =>
      { store := s, res := errorResponse 400 "An account with this email already exists",
        log := ["Signup error:"] }
  | _ =>
      { store := s, res := errorResponse 500 "Server error during registration",
        log := ["Signup error:"] }

/-- `signup`. -/
def signup (lib : Lib) (env : Env) (body : SignupBody) (s : Store) : Outcome :=
  if !truthy body.name || !truthy body.email || !truthy body.password then
    { store := s, res := errorResponse 400 "Please provide name, email and password", log := [] }
  else if body.password ≠ body.confirmPassword then
    { store := s, res := errorResponse 400 "Passwords do not match", log := [] }
  else if jsLength (body.password.getD "") < 6 then
    { store := s, res := errorResponse 400 "Password must be at least 6 characters", log := [] }
  else
    match findOne (byEmail (lib.toLowerCase (body.email.getD ""))) s with
    | some _ =>
        { store := s, res := errorResponse 400 "An account with this email already exists",
          log := [] }
    | none =>
        match env.createOutcome with
        | .ok =>
            let user := createdUser lib env (body.name.getD "")
              (lib.toLowerCase (body.email.getD "")) (body.password.getD "")
            { store := s ++ [user],
              res := sendTokenResponse lib env user 201,
              log := ["✅ New user registered: " ++ user.email] ++
                (if env.welcomeEmailFails then ["⚠️ Welcome email failed:"] else []) }
        | failure => signupCatch s failure

/-- Body of `POST /api/auth/login`. -/
structure LoginBody where
  email : Option String
  password : Option String
  deriving DecidableEq, Repr

/-- `login`. -/
def login (lib : Lib) (env : Env) (body : LoginBody) (s : Store) : Outcome :=
  if !truthy body.email || !truthy body.password then
    { store := s, res := errorResponse 400 "Please provide email and password", log := [] }
  else
    match findOne (byEmail (lib.toLowerCase (body.email.getD ""))) s with
    | none => { store := s, res := errorResponse 401 "Invalid credentials", log := [] }
    | some user =>
        if !lib.comparePassword (body.password.getD "") user.password then
          { store := s, res := errorResponse 401 "Invalid credentials", log := [] }
        else
          let user1 := { user with lastLogin := some env.now }
          if env.saveRejects then
            { store := s, res := errorResponse 500 "Server error during login",
              log := ["Login error:"] }
          else
            { store := save user1 s,
              res := sendTokenResponse lib env user1 200,
              log := ["✅ User logged in: " ++ user1.email] }

/-- Body of `PUT /api/auth/profile`. -/
structure ProfileBody where
  name : Option String
  email : Option String
  deriving DecidableEq, Repr

/-- Modelled from the spec: the unique index on `email` of the missing `models/User.js`;
a write of `email` to the document `userId` is refused with a duplicate key error (code 11000)
when another document already holds that email. -/
def duplicateEmail (userId : Nat) (email : Option String) (s : Store) : Bool :=
  s.any (fun v => v._id != userId && email == some v.email)

/-- `updateProfile`, for the authenticated user `userId` (`req.user.id`). -/
def updateProfile (lib : Lib) (env : Env) (userId : Nat) (body : ProfileBody) (s : Store) :
    Outcome :=
  let fName : Option String := if truthy body.name then body.name else none
  let fEmail : Option String :=
    if truthy body.email then some (lib.toLowerCase (body.email.getD "")) else none
  match findOne (fun u => u._id == userId) s with
  | none =>
      { store := s, res := errorResponse 500 "Server error", log := ["Update profile error:"] }
  | some user =>
      let user1 := { user with name := fName.getD user.name, email := fEmail.getD user.email }
      if duplicateEmail userId fEmail s then
        { store := s, res := errorResponse 400 "Email already in use",
          log := ["Update profile error:"] }
      else if env.saveRejects then
        { store := s, res := errorResponse 500 "Server error",
          log := ["Update profile error:"] }
      else
        { store := save user1 s,
          res := { status := 200, cookie := none,
                   body := { success := true, error := none, message := none, token := none,
                             user := some (toPublicJSON user1), resetToken := none,
                             resetUrl := none } },
          log := [] }

/-- The message `forgotPassword` answers with when it does not say that a mail was sent. -/
def genericResetMessage : String :=
  "If an account with that email exists, a password reset link has been sent"

/-- `forgotPassword`. A rejected `save` carries no `user` property, so the `catch` branch
clears nothing. -/
def forgotPassword (lib : Lib) (env : Env) (email : Option String) (s : Store) : Outcome :=
  if !truthy email then
    { store := s, res := errorResponse 400 "Please provide an email address", log := [] }
  else
    match findOne (byEmail (lib.toLowerCase (email.getD ""))) s with
    | none => { store := s, res := messageResponse 200 genericResetMessage, log := [] }
    | some user =>
        let (resetToken, user1) := getResetPasswordToken lib env user
        if env.saveRejects then
          { store := s, res := errorResponse 500 "Server error. Please try again later.",
            log := ["Forgot password error:"] }
        else
          let resetUrl :=
            (if truthy env.frontendUrl then env.frontendUrl.getD "" else "http://localhost:5173")
              ++ "/reset-password/" ++ resetToken
          let emailSent := !env.resetEmailFails
          let reveal := env.nodeEnv == some "development" && !emailSent
          { store := save user1 s,
            res := { status := 200, cookie := none,
                     body := { success := true, error := none,
                               message := some (if emailSent then
                                 "Password reset email has been sent to your email address"
                                 else genericResetMessage),
                               token := none, user := none,
                               resetToken := if reveal then some resetToken else none,
                               resetUrl := if reveal then some resetUrl else none } },
            log := ["🔐 Password reset requested for: " ++ user1.email] ++
              (if emailSent then ["📧 Password reset email sent to: " ++ user1.email]
               else ["⚠️ Email sending failed:"]) }

/-- Body of `PUT /api/auth/reset-password/:token`. -/
structure ResetBody where
  password : Option String
  confirmPassword : Option String
  deriving DecidableEq, Repr

/-- `resetPassword`. The password written by `save` is hashed by the model. -/
def resetPassword (lib : Lib) (env : Env) (token : String) (body : ResetBody) (s : Store) :
    Outcome :=
  if !truthy body.password || !truthy body.confirmPassword then
    { store := s, res := errorResponse 400 "Please provide password and confirm password",
      log := [] }
  else if body.password ≠ body.confirmPassword then
    { store := s, res := errorResponse 400 "Passwords do not match", log := [] }
  else if jsLength (body.password.getD "") < 6 then
    { store := s, res := errorResponse 400 "Password must be at least 6 characters", log := [] }
  else
    match findOne (byResetToken (lib.sha256hex token) env.now) s with
    | none => { store := s, res := errorResponse 400 "Invalid or expired reset token", log := [] }
    | some user =>
        let user1 := { user with password := lib.hashPassword (body.password.getD ""),
                                 resetPasswordToken := none,
                                 resetPasswordExpire := none }
        if env.saveRejects then
          { store := s, res := errorResponse 500 "Server error",
            log := ["Reset password error:"] }
        else
          { store := save user1 s,
            res := sendTokenResponse lib env user1 200,
            log := ["✅ Password reset successful for: " ++ user1.email] }

/-- `verifyResetToken`. -/
def verifyResetToken (lib : Lib) (env : Env) (token : String) (s : Store) : Outcome :=
  match findOne (byResetToken (lib.sha256hex token) env.now) s with
  | none => { store := s, res := errorResponse 400 "Invalid or expired reset token", log := [] }
  | some _ => { store := s, res := messageResponse 200 "Token is valid", log := [] }

/-- Body of `PUT /api/auth/password`. -/
structure PasswordBody where
  currentPassword : Option String
  newPassword : Option String
  deriving DecidableEq, Repr

/-- `updatePassword`, for the authenticated user `userId` (`req.user.id`). When `findById`
finds no document, `user.comparePassword` throws and the `catch` branch answers 500. The
password written by `save` is hashed by the model. -/
def updatePassword (lib : Lib) (env : Env) (userId : Nat) (body : PasswordBody) (s : Store) :
    Outcome :=
  if !truthy body.currentPassword || !truthy body.newPassword then
    { store := s, res := errorResponse 400 "Please provide current and new password", log := [] }
  else
    match findOne (fun u => u._id == userId) s with
    | none =>
        { store := s, res := errorResponse 500 "Server error",
          log := ["Update password error:"] }
    | some user =>
        if !lib.comparePassword (body.currentPassword.getD "") user.password then
          { store := s, res := errorResponse 401 "Current password is incorrect", log := [] }
        else
          let user1 := { user with password := lib.hashPassword (body.newPassword.getD "") }
          if env.saveRejects then
            { store := s, res := errorResponse 500 "Server error",
              log := ["Update password error:"] }
          else
            { store := save user1 s,
              res := sendTokenResponse lib env user1 200,
              log := [] }

/-- `getMe`, for the authenticated user `userId`. -/
def getMe (userId : Nat) (s : Store) : Outcome :=
  match findOne (fun u => u._id == userId) s with
  | none => { store := s, res := errorResponse 500 "Server error", log := ["Get me error:"] }
  | some user =>
      { store := s,
        res := { status := 200, cookie := none,
                 body := { success := true, error := none, message := none, token := none,
                           user := some (toPublicJSON user), resetToken := none,
                           resetUrl := none } },
        log := [] }

/-- A request to one of the routes of `routes/auth.js` that use the `User` collection. -/
inductive Request where
  | signup (body : SignupBody)
  | login (body : LoginBody)
  | getMe (userId : Nat)
  | updateProfile (userId : Nat) (body : ProfileBody)
  | updatePassword (userId : Nat) (body : PasswordBody)
  | forgotPassword (email : Option String)
  | resetPassword (token : String) (body : ResetBody)
  | verifyResetToken (token : String)
  deriving DecidableEq, Repr

/-- The router: the handler of a request. -/
def handle (lib : Lib) (env : Env) : Request → Store → Outcome
  | .signup body, s => signup lib env body s
  | .login body, s => login lib env body s
  | .getMe userId, s => getMe userId s
  | .updateProfile userId body, s => updateProfile lib env userId body s
  | .updatePassword userId body, s => updatePassword lib env userId body s
  | .forgotPassword email, s => forgotPassword lib env email s
  | .resetPassword token body, s => resetPassword lib env token body s
  | .verifyResetToken token, s => verifyResetToken lib env token s

/-- The collection after a sequence of requests, each served in its own surroundings. -/
def run (lib : Lib) : List (Env × Request) → Store → Store
  | [], s => s
  | (env, r) :: rest, s => run lib rest (handle lib env r s).store

/-! ## Detection: data model

`models/Detection.js`, `utils/detector.js` and `middleware/upload.js` are not among the
sources. The state of the detection routes is the upload directory, the R2 bucket and the
`Detection` collection; numbers are only passed through by the controller. -/

/-- A JavaScript number that the controller passes through unchanged. -/
abbrev JsNumber := ℚ

/-- Modelled from the spec: a document of the `Detection` collection of `models/Detection.js`,
which is missing; the fields are those `detectImage` gives to `new Detection`, with the
generated id and the creation timestamp of the specification. -/
structure Detection where
  _id : Nat
  filename : String
  originalName : String
  prediction : String
  confidence : JsNumber
  rawScore : JsNumber
  imagePath : Option String
  imageUrl : String
  r2Key : Option String
  storageType : String
  imageSize : Nat
  processingTime : JsNumber
  modelUsed : String
  createdAt : Int
  deriving DecidableEq, Repr

/-- Modelled from the spec: what `runDetection` of `utils/detector.js`, which is missing,
resolves to; the fields are those `detectImage` reads. -/
structure ModelResult where
  prediction : String
  confidence : JsNumber
  raw_score : JsNumber
  processingTime : JsNumber
  model : Option String
  deriving DecidableEq, Repr

/-- The file object `req.file` set by the upload middleware. -/
structure UploadedFile where
  path : String
  filename : String
  originalname : String
  size : Nat
  deriving DecidableEq, Repr

/-- State of the detection routes: paths of the files on local disk, keys of the objects in
the R2 bucket, and the `Detection` collection in insertion order. -/
structure Sys where
  files : List String
  bucket : List String
  detections : List Detection
  deriving DecidableEq, Repr

/-- What one detection request observes of its surroundings. -/
structure DetectEnv where
  /-- `Date.now()` in milliseconds. -/
  now : Int
  /-- `process.env.R2_ENDPOINT`. -/
  r2Endpoint : Option String
  /-- `process.env.R2_ACCESS_KEY_ID`. -/
  r2AccessKeyId : Option String
  /-- `process.env.R2_SECRET_ACCESS_KEY`. -/
  r2SecretAccessKey : Option String
  /-- `process.env.R2_BUCKET_NAME`. -/
  r2BucketName : Option String
  /-- `process.env.R2_PUBLIC_URL`. -/
  r2PublicUrl : Option String
  /-- How `runDetection` ends: the message of the error it throws, or its result. -/
  detection : Except String ModelResult
  /-- Whether `r2Client.send` is rejected. -/
  r2SendFails : Bool
  /-- Whether `fs.unlinkSync` throws on a file that exists. -/
  unlinkFails : Bool
  /-- Whether `detection.save()` is rejected. -/
  saveFails : Bool
  /-- The `_id` of a new `Detection` document. -/
  newId : Nat

/-- An external call made by a handler, in the order of the calls; `respond` is the response
being sent. -/
inductive Call where
  | runDetection (path : String)
  | uploadToR2 (path fileName : String)
  | unlink (path : String)
  | save
  | respond (status : Nat)
  deriving DecidableEq, Repr

/-- The `data` object of a successful detection response. -/
structure DetectData where
  id : Option Nat
  filename : String
  originalName : String
  prediction : String
  confidence : JsNumber
  rawScore : JsNumber
  isFake : Bool
  imageUrl : String
  imagePath : String
  storageType : String
  processingTime : JsNumber
  message : String
  deriving DecidableEq, Repr

/-- Response of the detection route. -/
structure DetectResponse where
  status : Nat
  success : Bool
  error : Option String
  data : Option DetectData
  deriving DecidableEq, Repr

/-- What `detectImage` leaves behind. -/
structure DetectOutcome where
  sys : Sys
  res : DetectResponse
  log : List String
  calls : List Call
  deriving DecidableEq, Repr

/-! ## R2 storage (`utils/r2Storage.js`) -/

/-- The object `uploadToR2` resolves to. -/
structure R2Result where
  success : Bool
  key : String
  url : String
  fileName : String
  deriving DecidableEq, Repr

/-- `isR2Configured`. -/
def isR2Configured (env : DetectEnv) : Bool :=
  truthy env.r2Endpoint && truthy env.r2AccessKeyId && truthy env.r2SecretAccessKey &&
    truthy env.r2BucketName && truthy env.r2PublicUrl

/-- `uploadToR2`: reads the local file (which throws when it does not exist), puts it under
the key `uploads/<Date.now()>-<fileName>` and returns the key and the public URL; every
failure is rethrown as one error. -/
def uploadToR2 (env : DetectEnv) (w : Sys) (filePath fileName : String) :
    Except String (R2Result × Sys) :=
  if filePath ∉ w.files then
    .error "Failed to upload to R2: ENOENT"
  else
    let key := "uploads/" ++ toString env.now ++ "-" ++ fileName
    if env.r2SendFails then
      .error "Failed to upload to R2: send"
    else
      let publicUrl := env.r2PublicUrl.getD "undefined" ++ "/" ++ key
      .ok ({ success := true, key := key, url := publicUrl, fileName := fileName },
           { w with bucket := if key ∈ w.bucket then w.bucket else w.bucket ++ [key] })

/-- `fs.unlinkSync`: removes the file; `none` when it throws (no such file, or refused). -/
def unlinkSync (env : DetectEnv) (path : String) (files : List String) :
    Option (List String) :=
  if path ∈ files ∧ env.unlinkFails = false then some (files.filter (fun q => q ≠ path))
  else none

/-! ## Detection controller (`controllers/detectController.js`) -/

/-- Where the image ends up: lines 29-48 of `detectImage`. -/
structure Stored where
  imageUrl : String
  r2Key : Option String
  storageType : String
  sys : Sys
  log : List String
  calls : List Call
  deriving DecidableEq, Repr

/-- The R2 step of `detectImage`. The three variables are assigned before `unlinkSync`, so
they keep their R2 values when the unlink throws into the same `catch`. The console lines of
`uploadToR2` are listed with those of the controller. -/
def storeImage (env : DetectEnv) (f : UploadedFile) (w : Sys) : Stored :=
  if isR2Configured env then
    match uploadToR2 env w f.path f.filename with
    | .ok (r2Result, w1) =>
        match unlinkSync env f.path w1.files with
        | some files =>
            { imageUrl := r2Result.url, r2Key := some r2Result.key, storageType := "r2",
              sys := { w1 with files := files },
              log := ["☁️ Uploading to Cloudflare R2...",
                      "✅ Uploaded to R2: " ++ r2Result.url,
                      "✅ Uploaded to R2 and deleted local file"],
              calls := [.uploadToR2 f.path f.filename, .unlink f.path] }
        | none =>
            { imageUrl := r2Result.url, r2Key := some r2Result.key, storageType := "r2",
              sys := w1,
              log := ["☁️ Uploading to Cloudflare R2...",
                      "✅ Uploaded to R2: " ++ r2Result.url,
                      "⚠️ R2 upload failed, keeping local file:"],
              calls := [.uploadToR2 f.path f.filename, .unlink f.path] }
    | .error _ =>
        { imageUrl := "/uploads/" ++ f.filename, r2Key := none, storageType := "local",
          sys := w,
          log := ["☁️ Uploading to Cloudflare R2...", "R2 upload error:",
                  "⚠️ R2 upload failed, keeping local file:"],
          calls := [.uploadToR2 f.path f.filename] }
  else
    { imageUrl := "/uploads/" ++ f.filename, r2Key := none, storageType := "local",
      sys := w, log := [], calls := [] }

/-- The document `detectImage` builds with `new Detection`: lines 53-66. -/
def buildDetection (env : DetectEnv) (f : UploadedFile) (result : ModelResult) (st : Stored) :
    Detection :=
  { _id := env.newId,
    filename := f.filename,
    originalName := f.originalname,
    prediction := result.prediction,
    confidence := result.confidence,
    rawScore := result.raw_score,
    imagePath := if st.storageType = "local" then some ("/uploads/" ++ f.filename) else none,
    imageUrl := st.imageUrl,
    r2Key := st.r2Key,
    storageType := st.storageType,
    imageSize := f.size,
    processingTime := result.processingTime,
    modelUsed := if truthy result.model then result.model.getD "" else "deepfake_detector",
    createdAt := env.now }

/-- The `data` of the response: lines 75-90. -/
def detectData (f : UploadedFile) (result : ModelResult) (st : Stored) (id : Option Nat) :
    DetectData :=
  { id := id,
    filename := f.filename,
    originalName := f.originalname,
    prediction := result.prediction,
    confidence := result.confidence,
    rawScore := result.raw_score,
    isFake := result.prediction == "fake",
    imageUrl := st.imageUrl,
    imagePath := st.imageUrl,
    storageType := st.storageType,
    processingTime := result.processingTime,
    message := if result.prediction == "fake" then "⚠️ This image appears to be a DEEPFAKE!"
               else "✅ This image appears to be AUTHENTIC" }

/-- `detectImage`. -/
def detectImage (env : DetectEnv) (file : Option UploadedFile) (w : Sys) : DetectOutcome :=
  match file with
  | none =>
      { sys := w,
        res := { status := 400, success := false, error := some "No image file provided",
                 data := none },
        log := [], calls := [.respond 400] }
  | some f =>
      match env.detection with
      | .error message =>
          { sys := if f.path ≠ "" then
                     { w with files := (unlinkSync env f.path w.files).getD w.files }
                   else w,
            res := { status := 500, success := false,
                     error := some (if message ≠ "" then message else "Detection failed"),
                     data := none },
            log := ["📤 Processing image: " ++ f.originalname, "Detection error:"],
            calls := [.runDetection f.path] ++
              (if f.path ≠ "" then [.unlink f.path] else []) ++ [.respond 500] }
      | .ok result =>
          let st := storeImage env f w
          let detection := buildDetection env f result st
          if env.saveFails then
            { sys := st.sys,
              res := { status := 200, success := true, error := none,
                       data := some (detectData f result st none) },
              log := ["📤 Processing image: " ++ f.originalname] ++ st.log ++
                ["⚠️  Could not save to database:"],
              calls := [.runDetection f.path] ++ st.calls ++ [.save, .respond 200] }
          else
            { sys := { st.sys with detections := st.sys.detections ++ [detection] },
              res := { status := 200, success := true, error := none,
                       data := some (detectData f result st (some detection._id)) },
              log := ["📤 Processing image: " ++ f.originalname] ++ st.log,
              calls := [.runDetection f.path] ++ st.calls ++ [.save, .respond 200] }

/-! ## History controller (`controllers/historyController.js`)

Query parameters are strings that may be absent. The numbers `getHistory` computes with are
doubles: `parseInt` gives the double nearest to the integer it reads and `Infinity` beyond
the largest double, and `-`, `*` and `/` round their exact result. Counts of documents are
natural numbers. The queries of the `Detection` collection follow MongoDB: a query sorted on
`createdAt` keeps documents of equal time in insertion order; the driver sends a negative
`limit` as its absolute value; the server reads `skip` and `limit` as 64-bit integers, `NaN`
as 0 and a number out of range as the nearest bound, refuses a negative `skip` and takes
`limit` 0 for no limit. -/

/-- `req.query` of `GET /api/history`. -/
structure HistoryQuery where
  page : Option String
  limit : Option String
  type : Option String
  deriving DecidableEq, Repr

/-- A JavaScript number of `getHistory`: `NaN`, an infinity, or a finite double whose value
is an integer. The two zeros are one value. -/
inductive Double where
  | nan
  | inf (negative : Bool)
  | fin (v : Int)
  deriving DecidableEq, Repr

instance (n : Nat) : OfNat Double n :=
  ⟨.fin n⟩

/-- The power `2 ^ k`, by a shift. -/
def pow2 (k : Nat) : Nat :=
  1 <<< k

/-- The binary logarithm of `n`, rounded down, in at most `fuel` halvings. -/
def log2Aux : Nat → Nat → Nat
  | 0, _ => 0
  | fuel + 1, n => if n < 2 then 0 else log2Aux fuel (n / 2) + 1

/-- The binary logarithm of `n`, rounded down: one less than the number of bits of `n`. -/
def log2 (n : Nat) : Nat :=
  log2Aux n n

/-- The double nearest to a natural number, ties to the even significand of 53 bits; `none`
is `Infinity`. Every number below 2^53 is a double. -/
def roundNat (n : Nat) : Option Nat :=
  if n < pow2 53 then some n
  else
    let e := log2 n - 52
    let m := n / pow2 e
    let r := n % pow2 e
    let m1 := if pow2 (e - 1) < r ∨ (r = pow2 (e - 1) ∧ m % 2 = 1) then m + 1 else m
    if pow2 1024 ≤ m1 * pow2 e then none else some (m1 * pow2 e)

/-- The double nearest to an integer. -/
def Double.ofInt (v : Int) : Double :=
  match roundNat v.natAbs with
  | some n => .fin (if v < 0 then -(n : Int) else n)
  | none => .inf (decide (v < 0))

/-- JavaScript `x < 0`. -/
def Double.isNegative : Double → Bool
  | .nan => false
  | .inf negative => negative
  | .fin v => decide (v < 0)

/-- JavaScript `-x`. -/
def Double.neg : Double → Double
  | .nan => .nan
  | .inf negative => .inf (!negative)
  | .fin v => .fin (-v)

/-- JavaScript `a - b`: the exact difference, rounded. -/
def Double.sub (a b : Double) : Double :=
  match a, b with
  | .nan, _ => .nan
  | _, .nan => .nan
  | .inf s, .inf t => if s = t then .nan else .inf s
  | .inf s, .fin _ => .inf s
  | .fin _, .inf t => .inf (!t)
  | .fin x, .fin y => .ofInt (x - y)

/-- JavaScript `a * b`: the exact product, rounded; 0 times an infinity is `NaN`. -/
def Double.mul (a b : Double) : Double :=
  match a, b with
  | .nan, _ => .nan
  | _, .nan => .nan
  | .inf s, .inf t => .inf (s != t)
  | .inf s, .fin y => if y = 0 then .nan else .inf (s != decide (y < 0))
  | .fin x, .inf t => if x = 0 then .nan else .inf (decide (x < 0) != t)
  | .fin x, .fin y => .ofInt (x * y)

instance : Neg Double :=
  ⟨Double.neg⟩

instance : Sub Double :=
  ⟨Double.sub⟩

instance : Mul Double :=
  ⟨Double.mul⟩

/-- The double nearest to the quotient `a / b` of two positive numbers, as a significand `m`
and an exponent `e`, of value `m * 2 ^ e`: the significand has 53 bits, or fewer at the
least exponent -1074; ties go to the even significand. -/
def roundQuotient (a b : Nat) : Nat × Int :=
  let e0 : Int := (log2 a : Int) - (log2 b : Int) - 53
  let e1 : Int := if a * pow2 (-e0).toNat / (b * pow2 e0.toNat) < pow2 53 then e0 else e0 + 1
  let e : Int := if e1 < -1074 then -1074 else e1
  let n := a * pow2 (-e).toNat
  let d := b * pow2 e.toNat
  let m := n / d
  let r := n % d
  (if d < 2 * r ∨ (2 * r = d ∧ m % 2 = 1) then m + 1 else m, e)

/-- `Math.ceil` of the double `m * 2 ^ e`. -/
def ceilOf (m : Nat) (e : Int) : Nat :=
  (m * pow2 e.toNat + (pow2 (-e).toNat - 1)) / pow2 (-e).toNat

/-- `Math.floor` of the double `m * 2 ^ e`. -/
def floorOf (m : Nat) (e : Int) : Nat :=
  m * pow2 e.toNat / pow2 (-e).toNat

/-- `Math.ceil(total / limit)` for a count `total`: the quotient of the two doubles is
rounded to a double, of which the ceiling is taken. -/
def ceilQuotient (total : Nat) (limit : Double) : Double :=
  match limit with
  | .nan => .nan
  | .inf _ => 0
  | .fin l =>
      match roundNat total with
      | none => .inf (decide (l < 0))
      | some a =>
          if l = 0 then (if a = 0 then .nan else .inf false)
          else if a = 0 then 0
          else
            let (m, e) := roundQuotient a l.natAbs
            if l < 0 then .fin (-(floorOf m e : Int)) else .fin (ceilOf m e)

/-- White space that `parseInt` skips at the start of its argument. -/
def isStrWhiteSpaceChar (c : Char) : Bool :=
  [9, 10, 11, 12, 13, 32, 160, 5760, 8232, 8233, 8239, 8287, 12288, 65279].contains c.toNat ||
    (8192 ≤ c.toNat && c.toNat ≤ 8202)

/-- The value of a character as a digit of the given radix, when it is one. -/
def digitOf (radix : Nat) (c : Char) : Option Nat :=
  let v : Option Nat :=
    if 48 ≤ c.toNat ∧ c.toNat ≤ 57 then some (c.toNat - 48)
    else if 97 ≤ c.toNat ∧ c.toNat ≤ 122 then some (c.toNat - 87)
    else if 65 ≤ c.toNat ∧ c.toNat ≤ 90 then some (c.toNat - 55)
    else none
  v.filter (fun d => d < radix)

/-- The number written by the longest run of digits at the start; `acc` is `none` until a
digit has been read. -/
def parseDigits (radix : Nat) : List Char → Option Nat → Option Nat
  | [], acc => acc
  | c :: cs, acc =>
      match digitOf radix c with
      | some d => parseDigits radix cs (some (acc.getD 0 * radix + d))
      | none => acc

/-- JavaScript `parseInt(x)` without a radix, for a string or `undefined`: `NaN` when no
digit is read, otherwise the double nearest to the integer read. -/
def parseInt (x : Option String) : Double :=
  match x with
  | none => .nan
  | some s =>
      let cs := s.data.dropWhile isStrWhiteSpaceChar
      let sign : Int := if cs.head? = some '-' then -1 else 1
      let cs := if cs.head? = some '-' ∨ cs.head? = some '+' then cs.tail else cs
      let hex : Bool := cs.take 2 == ['0', 'x'] || cs.take 2 == ['0', 'X']
      let cs := if hex then cs.drop 2 else cs
      match parseDigits (if hex then 16 else 10) cs none with
      | none => .nan
      | some n => .ofInt (sign * (n : Int))

/-- JavaScript `n || d` for a number `n`: `NaN` and `0` give `d`. -/
def orDefault (n d : Double) : Double :=
  match n with
  | .nan => d
  | .inf _ => n
  | .fin v => if v = 0 then d else n

/-- A query filter on `prediction`: `none` is the empty filter. -/
def matchesFilter (filter : Option String) (d : Detection) : Bool :=
  match filter with
  | none => true
  | some p => d.prediction == p

/-- `.sort(\x7b createdAt: -1 \x7d)`: newest first, equal times in insertion order. -/
def sortNewestFirst (ds : List Detection) : List Detection :=
  ds.insertionSort (fun a b => b.createdAt ≤ a.createdAt)

/-- The 64-bit integer the database server reads a number as: `NaN` is 0, a number out of
range the nearest bound. -/
def toInt64 : Double → Int
  | .nan => 0
  | .inf negative => if negative then -(pow2 63 : Int) else (pow2 63 : Int) - 1
  | .fin v => if v < -(pow2 63 : Int) then -(pow2 63 : Int)
              else if (pow2 63 : Int) - 1 < v then (pow2 63 : Int) - 1 else v

/-- `Detection.find(filter).sort(\x7b createdAt: -1 \x7d).skip(skip).limit(limit)`; `none`
when the query is rejected. -/
def findSorted (filter : Option String) (skip limit : Double) (ds : List Detection) :
    Option (List Detection) :=
  let skip64 := toInt64 skip
  let limit64 := toInt64 (if limit.isNegative then -limit else limit)
  if skip64 < 0 then none
  else
    let sorted := sortNewestFirst (ds.filter (matchesFilter filter))
    some (if limit64 = 0 then sorted.drop skip64.toNat
          else (sorted.drop skip64.toNat).take limit64.toNat)

/-- `Detection.countDocuments(filter)`. -/
def countDocuments (filter : Option String) (ds : List Detection) : Nat :=
  (ds.filter (matchesFilter filter)).length

/-- The `pagination` object of a history response. -/
structure Pagination where
  page : Double
  limit : Double
  total : Int
  pages : Double
  deriving DecidableEq, Repr

/-- The `data` object of a history response. -/
structure HistoryData where
  detections : List Detection
  pagination : Pagination
  deriving DecidableEq, Repr

/-- A statistic that is the number 0 or the text made by `toFixed(1)`. -/
inductive StatValue where
  | zero
  | text (s : String)
  deriving DecidableEq, Repr

/-- The `data` object of a statistics response. -/
structure StatsData where
  total : Nat
  fake : Nat
  real : Nat
  fakePercentage : StatValue
  avgConfidence : StatValue
  recentDetections : List Detection
  deriving DecidableEq, Repr

/-- Response of a history route; `history`, `detection` and `stats` are the `data` of the
three reading routes. -/
structure HistoryResponse where
  status : Nat
  success : Bool
  error : Option String
  message : Option String
  history : Option HistoryData
  detection : Option Detection
  stats : Option StatsData
  deriving DecidableEq, Repr

/-- An external call of a history handler, in the order of the calls; `find` is the sorted
query with its `skip` and `limit`. -/
inductive HistoryCall where
  | find (filter : Option String) (skip limit : Double)
  | countDocuments (filter : Option String)
  | aggregate
  | findById (id : Nat)
  | deleteFromR2 (key : String)
  | unlink (path : String)
  | findByIdAndDelete (id : Nat)
  | respond (status : Nat)
  deriving DecidableEq, Repr

/-- What a history handler leaves behind. -/
structure HistoryOutcome where
  sys : Sys
  res : HistoryResponse
  log : List String
  calls : List HistoryCall
  deriving DecidableEq, Repr

/-- `res.status(code).json(\x7b success: false, error \x7d)` of a history route. -/
def historyError (code : Nat) (msg : String) : HistoryResponse :=
  { status := code, success := false, error := some msg, message := none, history := none,
    detection := none, stats := none }

/-- The filter `getHistory` builds from `req.query.type`: lines 15-20. -/
def historyFilter (type : Option String) : Option String :=
  if truthy type && ["real", "fake"].contains (type.getD "") then type else none

/-- `getHistory`. -/
def getHistory (q : HistoryQuery) (w : Sys) : HistoryOutcome :=
  let page := orDefault (parseInt q.page) 1
  let limit := orDefault (parseInt q.limit) 20
  let skip := (page - 1) * limit
  let filter := historyFilter q.type
  match findSorted filter skip limit w.detections with
  | none =>
      { sys := w, res := historyError 500 "Failed to fetch detection history",
        log := ["History error:"],
        calls := [.find filter skip limit, .countDocuments filter, .respond 500] }
  | some detections =>
      let total := countDocuments filter w.detections
      { sys := w,
        res := { status := 200, success := true, error := none, message := none,
                 history := some { detections := detections,
                                   pagination := { page := page, limit := limit, total := total,
                                                   pages := ceilQuotient total limit } },
                 detection := none, stats := none },
        log := [], calls := [.find filter skip limit, .countDocuments filter, .respond 200] }

/-- `Detection.findById(id)`. -/
def findById (id : Nat) (ds : List Detection) : Option Detection :=
  ds.find? (fun d => d._id == id)

/-- `getDetectionById`. -/
def getDetectionById (id : Nat) (w : Sys) : HistoryOutcome :=
  match findById id w.detections with
  | none =>
      { sys := w, res := historyError 404 "Detection not found", log := [],
        calls := [.findById id, .respond 404] }
  | some detection =>
      { sys := w,
        res := { status := 200, success := true, error := none, message := none,
                 history := none, detection := some detection, stats := none },
        log := [], calls := [.findById id, .respond 200] }

/-- `deleteFromR2`: `true` and the object removed, or `false` when the request is rejected;
it never throws. -/
def deleteFromR2 (env : DetectEnv) (key : String) (w : Sys) : Bool × Sys :=
  if env.r2SendFails then (false, w)
  else (true, { w with bucket := w.bucket.filter (fun k => k ≠ key) })

/-- The path `path.join(__dirname, '..', '..', 'uploads', filename)`, relative to the
directory above the server. -/
def localPathOf (filename : String) : String :=
  "uploads/" ++ filename

/-- The R2 step of `deleteDetection`: lines 93-101. -/
def reclaimR2 (env : DetectEnv) (d : Detection) (w : Sys) :
    Sys × List String × List HistoryCall :=
  if d.storageType == "r2" && truthy d.r2Key then
    let key := d.r2Key.getD ""
    let (ok, w1) := deleteFromR2 env key w
    (w1,
     (if ok then ["🗑️ Deleted from R2: " ++ key] else ["R2 delete error:"]) ++
       ["🗑️ Deleted from R2: " ++ key],
     [.deleteFromR2 key])
  else (w, [], [])

/-- `Detection.findByIdAndDelete(id)`: removes the first document with the id. -/
def findByIdAndDelete (id : Nat) (ds : List Detection) : List Detection :=
  ds.eraseP (fun d => d._id == id)

/-- The end of `deleteDetection`: lines 112-118, with the `catch` branch for a rejected
delete. -/
def deleteRecord (deleteRejects : Bool) (id : Nat) (w : Sys) (log : List String)
    (calls : List HistoryCall) : HistoryOutcome :=
  if deleteRejects then
    { sys := w, res := historyError 500 "Failed to delete detection",
      log := log ++ ["Delete error:"],
      calls := calls ++ [.findByIdAndDelete id, .respond 500] }
  else
    { sys := { w with detections := findByIdAndDelete id w.detections },
      res := { status := 200, success := true, error := none,
               message := some "Detection deleted successfully", history := none,
               detection := none, stats := none },
      log := log,
      calls := calls ++ [.findByIdAndDelete id, .respond 200] }

/-- `deleteDetection`. The local `unlinkSync` is not inside a `try`: when it throws, the
outer `catch` answers 500 and the document stays. -/
def deleteDetection (env : DetectEnv) (deleteRejects : Bool) (id : Nat) (w : Sys) :
    HistoryOutcome :=
  match findById id w.detections with
  | none =>
      { sys := w, res := historyError 404 "Detection not found", log := [],
        calls := [.findById id, .respond 404] }
  | some detection =>
      let (w1, log1, calls0) := reclaimR2 env detection w
      let calls1 := [HistoryCall.findById id] ++ calls0
      if detection.storageType == "local" && detection.filename != "" then
        let localPath := localPathOf detection.filename
        if localPath ∈ w1.files then
          match unlinkSync env localPath w1.files with
          | some files =>
              deleteRecord deleteRejects id { w1 with files := files }
                (log1 ++ ["🗑️ Deleted local file: " ++ detection.filename])
                (calls1 ++ [.unlink localPath])
          | none =>
              { sys := w1, res := historyError 500 "Failed to delete detection",
                log := log1 ++ ["Delete error:"],
                calls := calls1 ++ [.unlink localPath, .respond 500] }
        else deleteRecord deleteRejects id w1 log1 calls1
      else deleteRecord deleteRejects id w1 log1 calls1

/-- `$avg` of `confidence` over the collection; `none` for an empty collection. -/
def averageConfidence (ds : List Detection) : Option JsNumber :=
  if ds = [] then none else some ((ds.map (fun d => d.confidence)).sum / ds.length)

/-- `getStats`; `toFixed1` is `Number.prototype.toFixed(1)`. -/
def getStats (toFixed1 : JsNumber → String) (w : Sys) : HistoryOutcome :=
  let totalCount := countDocuments none w.detections
  let fakeCount := countDocuments (some "fake") w.detections
  let realCount := countDocuments (some "real") w.detections
  let recentDetections := (sortNewestFirst w.detections).take 5
  { sys := w,
    res := { status := 200, success := true, error := none, message := none,
             history := none, detection := none,
             stats := some
               { total := totalCount, fake := fakeCount, real := realCount,
                 fakePercentage :=
                   if totalCount > 0 then
                     .text (toFixed1 ((fakeCount : JsNumber) / totalCount * 100))
                   else .zero,
                 avgConfidence :=
                   match averageConfidence w.detections with
                   | some avg => if toFixed1 avg = "" then .zero else .text (toFixed1 avg)
                   | none => .zero,
                 recentDetections := recentDetections } },
    log := [],
    calls := [.countDocuments none, .countDocuments (some "fake"), .countDocuments (some "real"),
              .find none 0 5, .aggregate, .respond 200] }

/-! ## CORS (`server.js`) -/

/-- What the origin callback of the `cors` middleware is called back with. -/
structure CorsDecision where
  error : Option String
  allow : Bool
  deriving DecidableEq, Repr

/-- `allowedOrigins`: the two local origins and `FRONTEND_URL`, falsy entries filtered out. -/
def allowedOrigins (env : Env) : List String :=
  (["http://localhost:5173", "http://localhost:3000"].map some ++ [env.frontendUrl]).filterMap
    (fun o => if truthy o then o else none)

/-- The `origin` function given to `cors` in `server.js`: lines 29-37. -/
def corsOrigin (env : Env) (origin : Option String) : CorsDecision :=
  if !truthy origin then { error := none, allow := true }
  else if (allowedOrigins env).contains (origin.getD "") then { error := none, allow := true }
  else { error := none, allow := true }

/-! ## Sample values -/

/-- ASCII lower-casing, a stand-in for `toLowerCase` on sample inputs. -/
def asciiLower (s : String) : String :=
  String.mk (s.data.map (fun c =>
    if 65 ≤ c.toNat ∧ c.toNat ≤ 90 then Char.ofNat (c.toNat + 32) else c))

/-- Sample library: transparent stand-ins for the hash functions. -/
def sampleLib : Lib :=
  { toLowerCase := asciiLower,
    sha256hex := fun t => "sha256:" ++ t,
    hashPassword := fun p => "hash:" ++ p,
    comparePassword := fun candidate stored => "hash:" ++ candidate == stored,
    jwtSign := fun id _ => "jwt-" ++ toString id }

/-- Sample surroundings: time 1000, production mode, every write and delivery succeeds. -/
def sampleEnv : Env :=
  { now := 1000, nodeEnv := some "production", frontendUrl := none, newId := 7,
    randomToken := "t0ken", saveRejects := false, createOutcome := .ok,
    resetEmailFails := false, welcomeEmailFails := false }

/-- Sample user. -/
def alice : User :=
  { _id := 1, name := "Alice", email := "alice@example.com", password := "hash:Secret1",
    lastLogin := none, resetPasswordToken := none, resetPasswordExpire := none }

/-- Sample user. -/
def bob : User :=
  { _id := 2, name := "Bob", email := "bob@example.com", password := "hash:hunter22",
    lastLogin := none, resetPasswordToken := some "sha256:abc", resetPasswordExpire := some 5000 }

/-- Sample upload. -/
def photo : UploadedFile :=
  { path := "uploads/1700-cat.png", filename := "1700-cat.png", originalname := "cat.png",
    size := 2048 }

/-- Sample model result: a deepfake with confidence 92.3. -/
def fakeResult : ModelResult :=
  { prediction := "fake", confidence := 92.3, raw_score := 0.923, processingTime := 150,
    model := none }

/-- Sample surroundings of a detection: no R2 configuration, the model answers, every call
succeeds. -/
def localEnv : DetectEnv :=
  { now := 1000, r2Endpoint := none, r2AccessKeyId := none, r2SecretAccessKey := none,
    r2BucketName := none, r2PublicUrl := none, detection := .ok fakeResult,
    r2SendFails := false, unlinkFails := false, saveFails := false, newId := 11 }

/-- Sample surroundings of a detection with R2 configured. -/
def r2Env : DetectEnv :=
  { localEnv with r2Endpoint := some "https://r2.example", r2AccessKeyId := some "id",
                  r2SecretAccessKey := some "secret", r2BucketName := some "images",
                  r2PublicUrl := some "https://cdn.example" }

/-- Sample state: the uploaded file is on disk, nothing else exists. -/
def uploadedSys : Sys :=
  { files := ["uploads/1700-cat.png"], bucket := [], detections := [] }

/-- Sample local document with the given id, prediction and creation time. -/
def sampleDetection (id : Nat) (prediction : String) (createdAt : Int) : Detection :=
  { _id := id, filename := toString id ++ ".png", originalName := "photo.png",
    prediction := prediction, confidence := 90, rawScore := 1,
    imagePath := some ("/uploads/" ++ toString id ++ ".png"),
    imageUrl := "/uploads/" ++ toString id ++ ".png", r2Key := none, storageType := "local",
    imageSize := 100, processingTime := 50, modelUsed := "deepfake_detector",
    createdAt := createdAt }

/-- Sample document stored in R2. -/
def remoteDetection : Detection :=
  { sampleDetection 9 "fake" 900 with
    imagePath := none, imageUrl := "https://cdn.example/uploads/900-9.png",
    r2Key := some "uploads/900-9.png", storageType := "r2" }

/-- Sample state of the history routes: three local documents with their files and one
document in R2. -/
def historySys : Sys :=
  { files := ["uploads/1.png", "uploads/2.png", "uploads/3.png"],
    bucket := ["uploads/900-9.png"],
    detections := [sampleDetection 1 "real" 100, sampleDetection 2 "fake" 300,
                   sampleDetection 3 "real" 200, remoteDetection] }

/-- Sample query: the given page and limit, no type. -/
def pageQuery (page limit : String) : HistoryQuery :=
  { page := some page, limit := some limit, type := none }

/-- Sample parameter: the digit 1 followed by 309 zeros, a number beyond the largest
double. -/
def hugeNumber : String :=
  String.mk ('1' :: List.replicate 309 '0')

/-! ## Specification vocabulary -/

/-- A field is missing or empty. -/
def missingOrEmpty (x : Option String) : Prop :=
  x = none ∨ x = some ""

/-- Some stored user has the email `e`. -/
def emailTaken (e : String) (s : Store) : Prop :=
  ∃ u ∈ s, u.email = e

instance (e : String) (s : Store) : Decidable (emailTaken e s) :=
  inferInstanceAs (Decidable (∃ u ∈ s, u.email = e))

instance (x : Option String) : Decidable (missingOrEmpty x) :=
  inferInstanceAs (Decidable (x = none ∨ x = some ""))

/-- A signup request all of whose fields are present, with the confirmation equal to the
password. -/
def validSignup (name email password : String) : SignupBody :=
  { name := some name, email := some email, password := some password,
    confirmPassword := some password }

/-- The same surroundings with the outcome of `sendWelcomeEmail` set. -/
def withWelcome (env : Env) (fails : Bool) : Env :=
  { env with welcomeEmailFails := fails }

/-- Some stored user holds the hash of `token` with an expiry strictly after `now`. -/
def tokenValid (lib : Lib) (now : Int) (token : String) (s : Store) : Prop :=
  ∃ u ∈ s, u.resetPasswordToken = some (lib.sha256hex token) ∧
    ∃ t, u.resetPasswordExpire = some t ∧ now < t

/-- The reset URL built by `forgotPassword`. -/
def resetUrlOf (env : Env) (token : String) : String :=
  (if truthy env.frontendUrl then env.frontendUrl.getD "" else "http://localhost:5173")
    ++ "/reset-password/" ++ token

/-- A reset request whose password and confirmation are both `p`. -/
def validReset (p : String) : ResetBody :=
  { password := some p, confirmPassword := some p }

/-- No stored user holds the reset hash `h`. -/
def noHolder (h : String) (s : Store) : Prop :=
  ∀ u ∈ s, u.resetPasswordToken ≠ some h

/-- At most one stored user holds the reset hash `h`. -/
def atMostOneHolder (h : String) (s : Store) : Prop :=
  ∀ u ∈ s, ∀ v ∈ s, u.resetPasswordToken = some h → v.resetPasswordToken = some h → u = v

/-- The request is a `forgotPassword`. -/
def Request.isForgot : Request → Bool
  | .forgotPassword _ => true
  | _ => false

/-- A request to change the password from `current` to `new`. -/
def passwordChange (current new : String) : PasswordBody :=
  { currentPassword := some current, newPassword := some new }

instance (h : String) (s : Store) : Decidable (noHolder h s) :=
  inferInstanceAs (Decidable (∀ u ∈ s, u.resetPasswordToken ≠ some h))

/-- The fields a successful `resetPassword` with password `p` assigns before its save. -/
def afterReset (lib : Lib) (p : String) (u : User) : User :=
  { u with password := lib.hashPassword p, resetPasswordToken := none,
           resetPasswordExpire := none }

/-- The ways a handler other than `forgotPassword` may change the collection: not at all, by
appending a user without reset fields, or by saving a found user whose reset hash is kept or
unset. -/
def StoreShape (s t : Store) : Prop :=
  t = s ∨ (∃ u : User, t = s ++ [u] ∧ u.resetPasswordToken = none) ∨
    (∃ (f : User → Bool) (user u1 : User), findOne f s = some user ∧ t = save u1 s ∧
      (u1.resetPasswordToken = user.resetPasswordToken ∨ u1.resetPasswordToken = none))

instance (h : String) (s : Store) : Decidable (atMostOneHolder h s) :=
  inferInstanceAs (Decidable (∀ u ∈ s, ∀ v ∈ s,
    u.resetPasswordToken = some h → v.resetPasswordToken = some h → u = v))

/-- The collection after two consecutive `forgotPassword` requests for the same email. -/
def forgotTwice (lib : Lib) (env1 env2 : Env) (email : String) (s : Store) : Store :=
  (forgotPassword lib env2 (some email) (forgotPassword lib env1 (some email) s).store).store

/-- R2 is configured and `uploadToR2` of the uploaded file succeeds with result `r`. -/
def uploadedToR2 (env : DetectEnv) (f : UploadedFile) (w : Sys) (r : R2Result) : Prop :=
  isR2Configured env = true ∧ ∃ w1, uploadToR2 env w f.path f.filename = .ok (r, w1)

/-- The document `detectImage` builds for an upload and a model result. -/
def builtDetection (env : DetectEnv) (f : UploadedFile) (result : ModelResult) (w : Sys) :
    Detection :=
  buildDetection env f result (storeImage env f w)

/-- The records a history query lists from: those passing the filter built from `type`,
newest first. -/
def newestFirst (type : Option String) (w : Sys) : List Detection :=
  sortNewestFirst (w.detections.filter (matchesFilter (historyFilter type)))

/-- The `detections` of a history response, empty when there are none. -/
def listingOf (out : HistoryOutcome) : List Detection :=
  (out.res.history.map (fun h => h.detections)).getD []

instance : IsTotal Detection (fun a b => b.createdAt ≤ a.createdAt) :=
  ⟨fun a b => le_total b.createdAt a.createdAt⟩

instance : IsTrans Detection (fun a b => b.createdAt ≤ a.createdAt) :=
  ⟨fun _ _ _ hab hbc => le_trans hbc hab⟩

/-- The calls by which `deleteDetection` is to reclaim the image of a document, after its
storage descriptor: the R2 object of an "r2" document with a key, the file
`uploads/<filename>` of a "local" document when that file exists, nothing otherwise. -/
def expectedReclaim (d : Detection) (w : Sys) : List HistoryCall :=
  if d.storageType = "r2" then
    match d.r2Key with
    | some key => if key ≠ "" then [.deleteFromR2 key] else []
    | none => []
  else if d.storageType = "local" ∧ d.filename ≠ "" ∧ localPathOf d.filename ∈ w.files then
    [.unlink (localPathOf d.filename)]
  else []

/-- The ceiling of `a / b` for integers, `b` positive. -/
def ceilDiv (a b : Int) : Int :=
  -((-a).fdiv b)

/-- The number of pages for `total` records and a limit: the ceiling of `total / limit`. -/
def pagesOf (total limit : Nat) : Nat :=
  (ceilDiv total limit).toNat

/-- The listings of pages 1 to `pages` one after the other; `qs i` is the query for page
`i`. -/
def allPages (qs : Nat → HistoryQuery) (pages : Nat) (w : Sys) : List Detection :=
  (List.range pages).flatMap (fun i => listingOf (getHistory (qs (i + 1)) w))

/-- The document is stored locally under a file name and that file exists: the case in
which `deleteDetection` calls `unlinkSync`. -/
def hasLocalFile (d : Detection) (w : Sys) : Prop :=
  d.storageType = "local" ∧ d.filename ≠ "" ∧ localPathOf d.filename ∈ w.files

instance (d : Detection) (w : Sys) : Decidable (hasLocalFile d w) :=
  inferInstanceAs (Decidable (_ ∧ _ ∧ _))

/-- JavaScript `d >= n` for an integer `n`; false for `NaN`. -/
def atLeast (n : Int) : Double → Prop
  | .nan => False
  | .inf negative => negative = false
  | .fin v => n ≤ v

instance (n : Int) (d : Double) : Decidable (atLeast n d) :=
  match d with
  | .nan => inferInstanceAs (Decidable False)
  | .inf negative => inferInstanceAs (Decidable (negative = false))
  | .fin v => inferInstanceAs (Decidable (n ≤ v))

/-! ## Basic facts -/

theorem truthy_eq_false_iff (x : Option String) : truthy x = false ↔ missingOrEmpty x := by
  cases x with
  | none => simp [truthy, missingOrEmpty]
  | some v => simp [truthy, missingOrEmpty]

theorem truthy_eq_true_iff (x : Option String) : truthy x = true ↔ ∃ v, x = some v ∧ v ≠ "" := by
  cases x with
  | none => simp [truthy]
  | some v => simp [truthy]

theorem findOne_byEmail_isSome_iff (e : String) (s : Store) :
    (findOne (byEmail e) s).isSome = true ↔ emailTaken e s := by
  simp [findOne, byEmail, emailTaken]

theorem findOne_byEmail_eq_none_iff (e : String) (s : Store) :
    findOne (byEmail e) s = none ↔ ¬ emailTaken e s := by
  simp [findOne, byEmail, emailTaken]

theorem jsLength_empty : jsLength "" = 0 := rfl

theorem ne_empty_of_jsLength (p : String) (h : 6 ≤ jsLength p) : p ≠ "" := by
  rintro rfl
  rw [jsLength_empty] at h
  omega

/-- On strings of the Basic Multilingual Plane `jsLength` is the number of characters. -/
theorem jsLength_eq_length (p : String) (h : ∀ c ∈ p.data, c.val.toNat < 65536) :
    jsLength p = p.length := by
  obtain ⟨cs⟩ := p
  simp only [jsLength, String.length]
  induction cs with
  | nil => rfl
  | cons c cs ih =>
    simp only [List.map_cons, List.sum_cons, List.length_cons]
    rw [ih (fun d hd => h d (List.mem_cons_of_mem _ hd)), if_pos (h c (List.mem_cons_self _ _))]
    omega

/-! ## Signup -/

/-- Claim C1: signup answers 400 and leaves the collection as it was when name, email or
password is missing or empty, when password differs from confirmPassword (a missing
confirmPassword included), when the password has fewer than 6 characters (JavaScript
`length`), or when a stored user already has the lower-cased request email. -/
theorem signup_rejects_invalid (lib : Lib) (env : Env) (body : SignupBody) (s : Store)
    (h : missingOrEmpty body.name ∨ missingOrEmpty body.email ∨ missingOrEmpty body.password ∨
      body.password ≠ body.confirmPassword ∨
      (∃ p, body.password = some p ∧ jsLength p < 6) ∨
      (∃ e, body.email = some e ∧ emailTaken (lib.toLowerCase e) s)) :
    (signup lib env body s).res.status = 400 ∧ (signup lib env body s).store = s := by
  by_cases h1 : (!truthy body.name || !truthy body.email || !truthy body.password) = true
  · simp [signup, h1, errorResponse]
  by_cases h2 : body.password ≠ body.confirmPassword
  · simp [signup, h1, h2, errorResponse]
  by_cases h3 : jsLength (body.password.getD "") < 6
  · simp [signup, h1, h2, h3, errorResponse]
  cases hf : findOne (byEmail (lib.toLowerCase (body.email.getD ""))) s with
  | some u => simp [signup, h1, h2, h3, hf, errorResponse]
  | none =>
    exfalso
    simp only [Bool.or_eq_true, Bool.not_eq_true', not_or, Bool.not_eq_false] at h1
    obtain ⟨⟨hn, he⟩, hp⟩ := h1
    rcases h with h | h | h | h | h | h
    · rw [← truthy_eq_false_iff] at h; simp [hn] at h
    · rw [← truthy_eq_false_iff] at h; simp [he] at h
    · rw [← truthy_eq_false_iff] at h; simp [hp] at h
    · exact h2 h
    · obtain ⟨p, hp1, hp2⟩ := h
      rw [hp1] at h3
      exact h3 hp2
    · obtain ⟨e, he1, he2⟩ := h
      rw [he1] at hf
      exact (findOne_byEmail_eq_none_iff _ _).mp hf he2

/-- Witness for C1: a signup without confirmPassword against an empty collection. -/
theorem signup_rejects_invalid_witness :
    (signup sampleLib sampleEnv
        { name := some "Carol", email := some "carol@example.com", password := some "abcdef",
          confirmPassword := none } []).res.status = 400 ∧
      (signup sampleLib sampleEnv
        { name := some "Carol", email := some "carol@example.com", password := some "abcdef",
          confirmPassword := none } []).store = [] :=
  signup_rejects_invalid sampleLib sampleEnv _ []
    (Or.inr (Or.inr (Or.inr (Or.inl (by decide)))))

theorem signup_valid_eq (lib : Lib) (env : Env) (name email password : String) (s : Store)
    (hn : name ≠ "") (he : email ≠ "") (hp : 6 ≤ jsLength password) :
    signup lib env (validSignup name email password) s =
      match findOne (byEmail (lib.toLowerCase email)) s with
      | some _ =>
          { store := s, res := errorResponse 400 "An account with this email already exists",
            log := [] }
      | none =>
          match env.createOutcome with
          | .ok =>
              { store := s ++ [createdUser lib env name (lib.toLowerCase email) password],
                res := sendTokenResponse lib env
                  (createdUser lib env name (lib.toLowerCase email) password) 201,
                log := ["✅ New user registered: " ++ lib.toLowerCase email] ++
                  (if env.welcomeEmailFails then ["⚠️ Welcome email failed:"] else []) }
          | failure => signupCatch s failure := by
  have hp2 : password ≠ "" := ne_empty_of_jsLength password hp
  have hp3 : ¬ jsLength password < 6 := by omega
  simp [signup, validSignup, truthy, hn, he, hp2, hp3, createdUser]

/-- Claim C2: a signup that passes every validation and whose create succeeds appends exactly
one user, with the given name, the lower-cased email and the hashed password, and answers 201
with a session token; the collection and the response are the same whether the welcome mail
is delivered or not. -/
theorem signup_success (lib : Lib) (env : Env) (name email password : String) (s : Store)
    (hn : name ≠ "") (he : email ≠ "") (hp : 6 ≤ jsLength password)
    (hfree : ¬ emailTaken (lib.toLowerCase email) s) (hc : env.createOutcome = .ok) :
    ∃ u : User,
      (signup lib env (validSignup name email password) s).store = s ++ [u] ∧
      u.name = name ∧ u.email = lib.toLowerCase email ∧
      u.password = lib.hashPassword password ∧
      (signup lib env (validSignup name email password) s).res.status = 201 ∧
      (signup lib env (validSignup name email password) s).res.body.success = true ∧
      (signup lib env (validSignup name email password) s).res.body.token =
        some (generateToken lib env u._id) ∧
      ∀ fails : Bool,
        (signup lib (withWelcome env fails) (validSignup name email password) s).store =
            (signup lib env (validSignup name email password) s).store ∧
          (signup lib (withWelcome env fails) (validSignup name email password) s).res =
            (signup lib env (validSignup name email password) s).res := by
  have hf := (findOne_byEmail_eq_none_iff _ _).mpr hfree
  refine ⟨createdUser lib env name (lib.toLowerCase email) password, ?_⟩
  have hw : ∀ fails : Bool, (withWelcome env fails).createOutcome = .ok := fun _ => hc
  simp only [signup_valid_eq lib _ name email password s hn he hp, hf, hc, hw]
  simp [createdUser, sendTokenResponse, withWelcome, generateToken]

/-- Witness for C2: Carol signs up next to Alice. -/
theorem signup_success_witness :
    ∃ u : User,
      (signup sampleLib sampleEnv (validSignup "Carol" "Carol@Example.com" "abcdef")
        [alice]).store = [alice] ++ [u] ∧
      u.name = "Carol" ∧ u.email = sampleLib.toLowerCase "Carol@Example.com" ∧
      u.password = sampleLib.hashPassword "abcdef" ∧
      (signup sampleLib sampleEnv (validSignup "Carol" "Carol@Example.com" "abcdef")
        [alice]).res.status = 201 ∧
      (signup sampleLib sampleEnv (validSignup "Carol" "Carol@Example.com" "abcdef")
        [alice]).res.body.success = true ∧
      (signup sampleLib sampleEnv (validSignup "Carol" "Carol@Example.com" "abcdef")
        [alice]).res.body.token = some (generateToken sampleLib sampleEnv u._id) ∧
      ∀ fails : Bool,
        (signup sampleLib (withWelcome sampleEnv fails)
            (validSignup "Carol" "Carol@Example.com" "abcdef") [alice]).store =
          (signup sampleLib sampleEnv (validSignup "Carol" "Carol@Example.com" "abcdef")
            [alice]).store ∧
        (signup sampleLib (withWelcome sampleEnv fails)
            (validSignup "Carol" "Carol@Example.com" "abcdef") [alice]).res =
          (signup sampleLib sampleEnv (validSignup "Carol" "Carol@Example.com" "abcdef")
            [alice]).res :=
  signup_success sampleLib sampleEnv "Carol" "Carol@Example.com" "abcdef" [alice]
    (by decide) (by decide) (by decide) (by decide) rfl

/-- The console lines of a successful signup do depend on the welcome mail. -/
theorem signup_log_depends_on_welcome :
    (signup sampleLib (withWelcome sampleEnv true)
        (validSignup "Carol" "Carol@Example.com" "abcdef") [alice]).log ≠
      (signup sampleLib (withWelcome sampleEnv false)
        (validSignup "Carol" "Carol@Example.com" "abcdef") [alice]).log := by
  decide

theorem mem_save (u : User) (s : Store) (h : ∃ v ∈ s, v._id = u._id) : u ∈ save u s := by
  induction s with
  | nil => simp at h
  | cons v rest ih =>
    unfold save
    by_cases hv : v._id = u._id
    · simp [hv]
    · rw [if_neg hv]
      obtain ⟨w, hw, hwid⟩ := h
      rcases List.mem_cons.mp hw with rfl | hw2
      · exact absurd hwid hv
      · exact List.mem_cons_of_mem _ (ih ⟨w, hw2, hwid⟩)

theorem signup_created_of_status (lib : Lib) (env : Env) (name email password : String)
    (s : Store) (hn : name ≠ "") (he : email ≠ "") (hp : 6 ≤ jsLength password)
    (hok : (signup lib env (validSignup name email password) s).res.status = 201) :
    (signup lib env (validSignup name email password) s).store =
      s ++ [createdUser lib env name (lib.toLowerCase email) password] := by
  rw [signup_valid_eq lib env name email password s hn he hp] at hok ⊢
  cases hf : findOne (byEmail (lib.toLowerCase email)) s with
  | some u => simp [hf, errorResponse] at hok
  | none =>
    cases hc : env.createOutcome with
    | ok => simp [hc]
    | validationError m => simp [hf, hc, signupCatch, errorResponse] at hok
    | duplicateKey => simp [hf, hc, signupCatch, errorResponse] at hok
    | otherError => simp [hf, hc, signupCatch, errorResponse] at hok

theorem signup_taken (lib : Lib) (env : Env) (name email password : String) (s : Store)
    (hn : name ≠ "") (he : email ≠ "") (hp : 6 ≤ jsLength password)
    (ht : emailTaken (lib.toLowerCase email) s) :
    signup lib env (validSignup name email password) s =
      { store := s, res := errorResponse 400 "An account with this email already exists",
        log := [] } := by
  rw [signup_valid_eq lib env name email password s hn he hp]
  have h := (findOne_byEmail_isSome_iff _ _).mpr ht
  obtain ⟨u, hu⟩ := Option.isSome_iff_exists.mp h
  simp [hu]

theorem login_email_congr (lib : Lib) (env : Env) (e1 e2 : String) (pw : Option String)
    (s : Store) (h1 : e1 ≠ "") (h2 : e2 ≠ "") (hlow : lib.toLowerCase e1 = lib.toLowerCase e2) :
    login lib env { email := some e1, password := pw } s =
      login lib env { email := some e2, password := pw } s := by
  simp [login, truthy, h1, h2, hlow]

theorem forgotPassword_email_congr (lib : Lib) (env : Env) (e1 e2 : String) (s : Store)
    (h1 : e1 ≠ "") (h2 : e2 ≠ "") (hlow : lib.toLowerCase e1 = lib.toLowerCase e2) :
    forgotPassword lib env (some e1) s = forgotPassword lib env (some e2) s := by
  simp [forgotPassword, truthy, h1, h2, hlow]

theorem signup_email_congr (lib : Lib) (env : Env) (name e1 e2 password : String) (s : Store)
    (h1 : e1 ≠ "") (h2 : e2 ≠ "") (hlow : lib.toLowerCase e1 = lib.toLowerCase e2) :
    signup lib env (validSignup name e1 password) s =
      signup lib env (validSignup name e2 password) s := by
  simp [signup, validSignup, truthy, h1, h2, hlow]

theorem updateProfile_stores_lower (lib : Lib) (env : Env) (userId : Nat)
    (name : Option String) (e : String) (s : Store) (he : e ≠ "")
    (hok : (updateProfile lib env userId { name := name, email := some e } s).res.status = 200) :
    ∃ u ∈ (updateProfile lib env userId { name := name, email := some e } s).store,
      u._id = userId ∧ u.email = lib.toLowerCase e := by
  unfold updateProfile at hok ⊢
  simp only [truthy, bne_iff_ne, ne_eq, he, not_false_eq_true, decide_True, if_true,
    Option.getD_some] at hok ⊢
  cases hf : findOne (fun u => u._id == userId) s with
  | none => simp [hf, errorResponse] at hok
  | some user =>
    have hmem : user ∈ s := List.mem_of_find?_eq_some hf
    have hid : user._id = userId := by
      have := List.find?_some hf
      simpa using this
    simp only [hf] at hok ⊢
    by_cases hd : duplicateEmail userId (some (lib.toLowerCase e)) s = true
    · simp [hd, errorResponse] at hok
    · by_cases hs : env.saveRejects = true
      · simp [hd, hs, errorResponse] at hok
      · simp only [hd, hs, if_false, Bool.false_eq_true]
        exact ⟨_, mem_save _ s ⟨user, hmem, rfl⟩, hid, rfl⟩

/-- Claim C3: when two emails agree after lower-casing, a valid signup with the second one
right after a successful signup with the first answers 400 "An account with this email
already exists" and adds no user. The email written by signup and by updateProfile is the
lower-cased one, and signup, login and forgotPassword look the email up lower-cased: each
answers alike for the two spellings. -/
theorem signup_duplicate_email_case_insensitive (lib : Lib) (env1 env2 : Env)
    (n1 e1 p1 n2 e2 p2 : String) (s : Store)
    (hn1 : n1 ≠ "") (he1 : e1 ≠ "") (hp1 : 6 ≤ jsLength p1)
    (hn2 : n2 ≠ "") (he2 : e2 ≠ "") (hp2 : 6 ≤ jsLength p2)
    (hlow : lib.toLowerCase e1 = lib.toLowerCase e2)
    (hok : (signup lib env1 (validSignup n1 e1 p1) s).res.status = 201) :
    (signup lib env2 (validSignup n2 e2 p2)
        (signup lib env1 (validSignup n1 e1 p1) s).store).res =
      errorResponse 400 "An account with this email already exists" ∧
    (signup lib env2 (validSignup n2 e2 p2)
        (signup lib env1 (validSignup n1 e1 p1) s).store).store =
      (signup lib env1 (validSignup n1 e1 p1) s).store ∧
    (∃ u : User, (signup lib env1 (validSignup n1 e1 p1) s).store = s ++ [u] ∧
      u.email = lib.toLowerCase e1) ∧
    (∀ (env : Env) (userId : Nat) (name : Option String) (t : Store),
      (updateProfile lib env userId { name := name, email := some e1 } t).res.status = 200 →
      ∃ u ∈ (updateProfile lib env userId { name := name, email := some e1 } t).store,
        u._id = userId ∧ u.email = lib.toLowerCase e1) ∧
    (∀ (env : Env) (name password : String) (t : Store),
      signup lib env (validSignup name e1 password) t =
        signup lib env (validSignup name e2 password) t) ∧
    (∀ (env : Env) (pw : Option String) (t : Store),
      login lib env { email := some e1, password := pw } t =
        login lib env { email := some e2, password := pw } t) ∧
    (∀ (env : Env) (t : Store),
      forgotPassword lib env (some e1) t = forgotPassword lib env (some e2) t) := by
  have hs1 := signup_created_of_status lib env1 n1 e1 p1 s hn1 he1 hp1 hok
  have htaken : emailTaken (lib.toLowerCase e2)
      (signup lib env1 (validSignup n1 e1 p1) s).store := by
    rw [hs1]
    exact ⟨_, List.mem_append_right _ (List.mem_singleton_self _), by simp [createdUser, hlow]⟩
  have h2 := signup_taken lib env2 n2 e2 p2 _ hn2 he2 hp2 htaken
  refine ⟨by rw [h2], by rw [h2], ⟨_, hs1, rfl⟩, ?_, ?_, ?_, ?_⟩
  · intro env userId name t h
    exact updateProfile_stores_lower lib env userId name e1 t he1 h
  · intro env name password t
    exact signup_email_congr lib env name e1 e2 password t he1 he2 hlow
  · intro env pw t
    exact login_email_congr lib env e1 e2 pw t he1 he2 hlow
  · intro env t
    exact forgotPassword_email_congr lib env e1 e2 t he1 he2 hlow

/-- Witness for C3: "ALICE@example.com" right after "Alice@Example.com". -/
theorem signup_duplicate_email_case_insensitive_witness :
    (signup sampleLib sampleEnv (validSignup "Al" "ALICE@example.com" "abcdef")
        (signup sampleLib sampleEnv (validSignup "Alice" "Alice@Example.com" "Secret1")
          []).store).res =
      errorResponse 400 "An account with this email already exists" ∧
    (signup sampleLib sampleEnv (validSignup "Al" "ALICE@example.com" "abcdef")
        (signup sampleLib sampleEnv (validSignup "Alice" "Alice@Example.com" "Secret1")
          []).store).store =
      (signup sampleLib sampleEnv (validSignup "Alice" "Alice@Example.com" "Secret1")
        []).store :=
  have h := signup_duplicate_email_case_insensitive sampleLib sampleEnv sampleEnv
    "Alice" "Alice@Example.com" "Secret1" "Al" "ALICE@example.com" "abcdef" []
    (by decide) (by decide) (by decide) (by decide) (by decide) (by decide) (by decide)
    (by decide)
  ⟨h.1, h.2.1⟩

/-! ## Login -/

/-- Claim C4: for a login with non-empty email and password, the response when no user has
the email and the response when the user exists but the password does not verify are the
same: status 401, success false, error "Invalid credentials". -/
theorem login_same_response_unknown_or_wrong (lib : Lib) (env1 env2 : Env)
    (email password : String) (s1 s2 : Store) (user : User)
    (he : email ≠ "") (hp : password ≠ "")
    (hnone : ¬ emailTaken (lib.toLowerCase email) s1)
    (hsome : findOne (byEmail (lib.toLowerCase email)) s2 = some user)
    (hwrong : lib.comparePassword password user.password = false) :
    (login lib env1 { email := some email, password := some password } s1).res =
        (login lib env2 { email := some email, password := some password } s2).res ∧
      (login lib env1 { email := some email, password := some password } s1).res.status = 401 ∧
      (login lib env1 { email := some email, password := some password } s1).res.body.success
        = false ∧
      (login lib env1 { email := some email, password := some password } s1).res.body.error =
        some "Invalid credentials" := by
  have hf := (findOne_byEmail_eq_none_iff _ _).mpr hnone
  simp [login, truthy, he, hp, hf, hsome, hwrong, errorResponse]

/-- Witness for C4: an unregistered address against Alice with a wrong password. -/
theorem login_same_response_unknown_or_wrong_witness :
    (login sampleLib sampleEnv
        { email := some "alice@example.com", password := some "guess" } [bob]).res =
      (login sampleLib sampleEnv
        { email := some "alice@example.com", password := some "guess" } [alice, bob]).res :=
  (login_same_response_unknown_or_wrong sampleLib sampleEnv sampleEnv "alice@example.com"
    "guess" [bob] [alice, bob] alice (by decide) (by decide) (by decide) (by decide)
    (by decide)).1

theorem save_eq_map (u u1 : User) (s : Store) (hnodup : (s.map (fun v => v._id)).Nodup)
    (hmem : u ∈ s) (hid : u1._id = u._id) :
    save u1 s = s.map (fun v => if v = u then u1 else v) := by
  induction s with
  | nil => simp at hmem
  | cons v rest ih =>
    simp only [List.map_cons, List.nodup_cons, List.mem_map, not_exists, not_and] at hnodup
    obtain ⟨hv, hrest⟩ := hnodup
    unfold save
    by_cases hvid : v._id = u1._id
    · have hvu : v = u := by
        rcases List.mem_cons.mp hmem with h | h
        · exact h.symm
        · exact absurd (hid ▸ hvid).symm (hv u h)
      have hfix : rest.map (fun w => if w = u then u1 else w) = rest := by
        conv_rhs => rw [← List.map_id rest]
        apply List.map_congr_left
        intro w hw
        have : w ≠ u := by
          rintro rfl
          exact hv w hw (hvu ▸ rfl)
        simp [this]
      rw [if_pos hvid, List.map_cons, if_pos hvu, hfix]
    · have hvu : v ≠ u := by
        rintro rfl
        exact hvid hid.symm
      have hmem2 : u ∈ rest := by
        rcases List.mem_cons.mp hmem with h | h
        · exact absurd h.symm hvu
        · exact h
      rw [if_neg hvid, List.map_cons, if_neg hvu, ih hrest hmem2]

/-- Claim C5: on a collection with distinct ids, a login that does not answer 200 leaves the
collection as it was; a login that answers 200 found a user by the lower-cased email whose
password verifies, carries a session token, and rewrites only that user, changing only its
`lastLogin`, which becomes the current time. -/
theorem login_changes_only_lastLogin (lib : Lib) (env : Env) (body : LoginBody) (s : Store)
    (hnodup : (s.map (fun v => v._id)).Nodup) :
    ((login lib env body s).res.status ≠ 200 → (login lib env body s).store = s) ∧
    ((login lib env body s).res.status = 200 →
      ∃ (e p : String) (user : User),
        body.email = some e ∧ body.password = some p ∧
        findOne (byEmail (lib.toLowerCase e)) s = some user ∧
        lib.comparePassword p user.password = true ∧
        (login lib env body s).store =
          s.map (fun v => if v = user then { v with lastLogin := some env.now } else v) ∧
        (login lib env body s).res.body.success = true ∧
        (login lib env body s).res.body.token = some (generateToken lib env user._id)) := by
  by_cases h1 : (!truthy body.email || !truthy body.password) = true
  · simp [login, h1, errorResponse]
  have h1b := h1
  simp only [Bool.or_eq_true, Bool.not_eq_true', not_or, Bool.not_eq_false] at h1b
  obtain ⟨e, hbe, he⟩ := (truthy_eq_true_iff _).mp h1b.1
  obtain ⟨p, hbp, hp⟩ := (truthy_eq_true_iff _).mp h1b.2
  cases hf : findOne (byEmail (lib.toLowerCase e)) s with
  | none => simp [login, truthy, he, hp, hbe, hbp, hf, errorResponse]
  | some user =>
    by_cases hc : lib.comparePassword p user.password = true
    · by_cases hs : env.saveRejects = true
      · simp [login, truthy, he, hp, hbe, hbp, hf, hc, hs, errorResponse]
      · have hmem : user ∈ s := List.mem_of_find?_eq_some hf
        have hsave := save_eq_map user { user with lastLogin := some env.now } s hnodup hmem rfl
        have hmap : s.map (fun v => if v = user then { user with lastLogin := some env.now }
            else v) =
            s.map (fun v => if v = user then { v with lastLogin := some env.now } else v) := by
          apply List.map_congr_left
          intro v _
          by_cases hv : v = user
          · simp [hv]
          · simp [hv]
        have hst : (login lib env body s).store =
            save { user with lastLogin := some env.now } s := by
          simp [login, truthy, he, hp, hbe, hbp, hf, hc, hs]
        refine ⟨?_, fun _ => ⟨e, p, user, hbe, hbp, hf, hc, ?_, ?_, ?_⟩⟩
        · simp [login, truthy, he, hp, hbe, hbp, hf, hc, hs, sendTokenResponse]
        · rw [hst, hsave, hmap]
        · simp [login, truthy, he, hp, hbe, hbp, hf, hc, hs, sendTokenResponse]
        · simp [login, truthy, he, hp, hbe, hbp, hf, hc, hs, sendTokenResponse]
    · simp [login, truthy, he, hp, hbe, hbp, hf, hc, errorResponse]

/-- Witness for C5: Alice logs in with her password next to Bob. -/
theorem login_changes_only_lastLogin_witness :
    (login sampleLib sampleEnv
        { email := some "Alice@Example.com", password := some "Secret1" }
        [alice, bob]).res.status = 200 ∧
      (login sampleLib sampleEnv
        { email := some "Alice@Example.com", password := some "Secret1" } [alice, bob]).store =
        [{ alice with lastLogin := some 1000 }, bob] ∧
      ((login sampleLib sampleEnv
          { email := some "Alice@Example.com", password := some "Secret1" }
          [alice, bob]).res.status = 200 →
        ∃ (e p : String) (user : User),
          (some "Alice@Example.com" : Option String) = some e ∧
          (some "Secret1" : Option String) = some p ∧
          findOne (byEmail (sampleLib.toLowerCase e)) [alice, bob] = some user ∧
          sampleLib.comparePassword p user.password = true ∧
          (login sampleLib sampleEnv
            { email := some "Alice@Example.com", password := some "Secret1" }
            [alice, bob]).store =
            [alice, bob].map
              (fun v => if v = user then { v with lastLogin := some sampleEnv.now } else v) ∧
          (login sampleLib sampleEnv
            { email := some "Alice@Example.com", password := some "Secret1" }
            [alice, bob]).res.body.success = true ∧
          (login sampleLib sampleEnv
            { email := some "Alice@Example.com", password := some "Secret1" }
            [alice, bob]).res.body.token = some (generateToken sampleLib sampleEnv user._id)) :=
  ⟨by decide, by decide,
    (login_changes_only_lastLogin sampleLib sampleEnv
      { email := some "Alice@Example.com", password := some "Secret1" } [alice, bob]
      (by decide)).2⟩

/-! ## Password reset -/

theorem byResetToken_iff (hash : String) (now : Int) (u : User) :
    byResetToken hash now u = true ↔
      u.resetPasswordToken = some hash ∧ ∃ t, u.resetPasswordExpire = some t ∧ now < t := by
  unfold byResetToken
  cases u.resetPasswordExpire with
  | none => simp
  | some t => simp

theorem findOne_byResetToken_isSome_iff (lib : Lib) (now : Int) (token : String) (s : Store) :
    (findOne (byResetToken (lib.sha256hex token) now) s).isSome = true ↔
      tokenValid lib now token s := by
  simp only [findOne, List.find?_isSome, byResetToken_iff, tokenValid]

theorem findOne_byResetToken_eq_none_iff (lib : Lib) (now : Int) (token : String) (s : Store) :
    findOne (byResetToken (lib.sha256hex token) now) s = none ↔
      ¬ tokenValid lib now token s := by
  rw [← findOne_byResetToken_isSome_iff]
  cases findOne (byResetToken (lib.sha256hex token) now) s <;> simp

/-- Claim C6, evaluated where the code departs from it: with mail delivery working, the answer for the registered address of
Alice says that a mail was sent, the answer for an unregistered address is the generic one:
same status, different bodies. -/
theorem forgotPassword_reveals_registration :
    (forgotPassword sampleLib sampleEnv (some "alice@example.com") [alice]).res.status = 200 ∧
    (forgotPassword sampleLib sampleEnv (some "carol@example.com") [alice]).res.status = 200 ∧
    (forgotPassword sampleLib sampleEnv (some "alice@example.com") [alice]).res.body.message =
      some "Password reset email has been sent to your email address" ∧
    (forgotPassword sampleLib sampleEnv (some "carol@example.com") [alice]).res.body.message =
      some "If an account with that email exists, a password reset link has been sent" ∧
    (forgotPassword sampleLib sampleEnv (some "alice@example.com") [alice]).res ≠
      (forgotPassword sampleLib sampleEnv (some "carol@example.com") [alice]).res := by
  decide

theorem forgotPassword_found_eq (lib : Lib) (env : Env) (email : String) (s : Store)
    (user : User) (he : email ≠ "")
    (hf : findOne (byEmail (lib.toLowerCase email)) s = some user)
    (hsave : env.saveRejects = false) :
    forgotPassword lib env (some email) s =
      { store := save (getResetPasswordToken lib env user).2 s,
        res := { status := 200, cookie := none,
                 body := { success := true, error := none,
                           message := some (if env.resetEmailFails then genericResetMessage
                             else "Password reset email has been sent to your email address"),
                           token := none, user := none,
                           resetToken :=
                             if env.nodeEnv = some "development" ∧ env.resetEmailFails = true
                             then some env.randomToken else none,
                           resetUrl :=
                             if env.nodeEnv = some "development" ∧ env.resetEmailFails = true
                             then some (resetUrlOf env env.randomToken) else none } },
        log := ["🔐 Password reset requested for: " ++ user.email] ++
          (if env.resetEmailFails then ["⚠️ Email sending failed:"]
           else ["📧 Password reset email sent to: " ++ user.email]) } := by
  cases hm : env.resetEmailFails <;>
    simp [forgotPassword, truthy, he, hf, hsave, hm, getResetPasswordToken, resetUrlOf]

theorem verifyResetToken_of_valid (lib : Lib) (env : Env) (token : String) (s : Store)
    (h : tokenValid lib env.now token s) :
    verifyResetToken lib env token s =
      { store := s, res := messageResponse 200 "Token is valid", log := [] } := by
  obtain ⟨u, hu⟩ := Option.isSome_iff_exists.mp
    ((findOne_byResetToken_isSome_iff lib env.now token s).mpr h)
  simp [verifyResetToken, hu]

theorem verifyResetToken_of_invalid (lib : Lib) (env : Env) (token : String) (s : Store)
    (h : ¬ tokenValid lib env.now token s) :
    verifyResetToken lib env token s =
      { store := s, res := errorResponse 400 "Invalid or expired reset token", log := [] } := by
  simp [verifyResetToken, (findOne_byResetToken_eq_none_iff lib env.now token s).mpr h]

/-- Claim C7: when the user exists, the reset fields have been saved and the reset mail then
fails, forgotPassword still answers 200 with success true; the saved hash and expiry stay on
the user, and verifyResetToken accepts the token at every time before the expiry. -/
theorem forgotPassword_mail_failure_keeps_token (lib : Lib) (env : Env) (email : String)
    (s : Store) (user : User) (he : email ≠ "")
    (hf : findOne (byEmail (lib.toLowerCase email)) s = some user)
    (hsave : env.saveRejects = false) (hfail : env.resetEmailFails = true) :
    (forgotPassword lib env (some email) s).res.status = 200 ∧
    (forgotPassword lib env (some email) s).res.body.success = true ∧
    (forgotPassword lib env (some email) s).res.body.message = some genericResetMessage ∧
    (forgotPassword lib env (some email) s).store =
      save { user with resetPasswordToken := some (lib.sha256hex env.randomToken),
                       resetPasswordExpire := some (env.now + 10 * 60 * 1000) } s ∧
    (∃ u ∈ (forgotPassword lib env (some email) s).store,
      u._id = user._id ∧ u.resetPasswordToken = some (lib.sha256hex env.randomToken) ∧
      u.resetPasswordExpire = some (env.now + 10 * 60 * 1000)) ∧
    (∀ later : Env, later.now < env.now + 10 * 60 * 1000 →
      (verifyResetToken lib later env.randomToken
        (forgotPassword lib env (some email) s).store).res =
        messageResponse 200 "Token is valid") := by
  have hmem : user ∈ s := List.mem_of_find?_eq_some hf
  have hin := mem_save (getResetPasswordToken lib env user).2 s ⟨user, hmem, rfl⟩
  rw [forgotPassword_found_eq lib env email s user he hf hsave]
  refine ⟨rfl, rfl, by simp [hfail], rfl, ⟨_, hin, rfl, rfl, rfl⟩, ?_⟩
  intro later hlater
  rw [verifyResetToken_of_valid]
  exact ⟨_, hin, rfl, _, rfl, hlater⟩

/-- Witness for C7: the mail to Alice fails at time 1000; her token verifies at 600999. -/
theorem forgotPassword_mail_failure_keeps_token_witness :
    (forgotPassword sampleLib { sampleEnv with resetEmailFails := true }
        (some "Alice@Example.com") [alice, bob]).res.status = 200 ∧
      (verifyResetToken sampleLib { sampleEnv with now := 600999 } "t0ken"
        (forgotPassword sampleLib { sampleEnv with resetEmailFails := true }
          (some "Alice@Example.com") [alice, bob]).store).res =
        messageResponse 200 "Token is valid" :=
  have h := forgotPassword_mail_failure_keeps_token sampleLib
    { sampleEnv with resetEmailFails := true } "Alice@Example.com" [alice, bob] alice
    (by decide) (by decide) rfl rfl
  ⟨h.1, h.2.2.2.2.2 { sampleEnv with now := 600999 } (by decide)⟩

/-- Claim C8: the response of forgotPassword carries the plaintext `resetToken` and the
`resetUrl` exactly when the user exists, NODE_ENV is "development" and the reset mail was
attempted (the reset fields were saved) and failed; otherwise, and whenever NODE_ENV is not
"development", both are absent. -/
theorem forgotPassword_token_in_response_iff (lib : Lib) (env : Env) (email : Option String)
    (s : Store) :
    (((forgotPassword lib env email s).res.body.resetToken = some env.randomToken ∧
        (forgotPassword lib env email s).res.body.resetUrl =
          some (resetUrlOf env env.randomToken)) ↔
      (truthy email = true ∧
        (∃ user, findOne (byEmail (lib.toLowerCase (email.getD ""))) s = some user) ∧
        env.nodeEnv = some "development" ∧
        env.saveRejects = false ∧ env.resetEmailFails = true)) ∧
    (¬ (truthy email = true ∧
        (∃ user, findOne (byEmail (lib.toLowerCase (email.getD ""))) s = some user) ∧
        env.nodeEnv = some "development" ∧
        env.saveRejects = false ∧ env.resetEmailFails = true) →
      (forgotPassword lib env email s).res.body.resetToken = none ∧
        (forgotPassword lib env email s).res.body.resetUrl = none) ∧
    (env.nodeEnv ≠ some "development" →
      (forgotPassword lib env email s).res.body.resetToken = none ∧
        (forgotPassword lib env email s).res.body.resetUrl = none) := by
  by_cases ht : truthy email = true
  · obtain ⟨e, rfl, he⟩ := (truthy_eq_true_iff _).mp ht
    cases hf : findOne (byEmail (lib.toLowerCase e)) s with
    | none =>
      simp [forgotPassword, truthy, he, hf, messageResponse]
    | some user =>
      cases hs : env.saveRejects with
      | true => simp [forgotPassword, truthy, he, hf, hs, errorResponse, getResetPasswordToken]
      | false =>
        rw [forgotPassword_found_eq lib env e s user he (by simpa using hf) hs]
        by_cases hd : env.nodeEnv = some "development"
        · cases hm : env.resetEmailFails <;> simp [truthy, he, hf, hd, hm]
        · simp [truthy, he, hf, hd]
  · have ht2 : truthy email = false := by simpa using ht
    simp [forgotPassword, ht2, errorResponse]

/-- Witness for C8: in development mode with a failed mail the token of Alice is in the
response; in production mode with the same failure it is not. -/
theorem forgotPassword_token_in_response_iff_witness :
    (forgotPassword sampleLib
        { sampleEnv with nodeEnv := some "development", resetEmailFails := true }
        (some "alice@example.com") [alice]).res.body.resetToken = some "t0ken" ∧
      (forgotPassword sampleLib
        { sampleEnv with nodeEnv := some "development", resetEmailFails := true }
        (some "alice@example.com") [alice]).res.body.resetUrl =
        some "http://localhost:5173/reset-password/t0ken" ∧
      (forgotPassword sampleLib { sampleEnv with resetEmailFails := true }
        (some "alice@example.com") [alice]).res.body.resetToken = none :=
  have hdev := (forgotPassword_token_in_response_iff sampleLib
    { sampleEnv with nodeEnv := some "development", resetEmailFails := true }
    (some "alice@example.com") [alice]).1.mpr ⟨by decide, ⟨alice, by decide⟩, rfl, rfl, rfl⟩
  have hprod := (forgotPassword_token_in_response_iff sampleLib
    { sampleEnv with resetEmailFails := true } (some "alice@example.com") [alice]).2.2
    (by decide)
  ⟨hdev.1, hdev.2, hprod.1⟩

theorem resetPassword_valid_eq (lib : Lib) (env : Env) (token p : String) (s : Store)
    (hp : 6 ≤ jsLength p) :
    resetPassword lib env token (validReset p) s =
      match findOne (byResetToken (lib.sha256hex token) env.now) s with
      | none =>
          { store := s, res := errorResponse 400 "Invalid or expired reset token", log := [] }
      | some user =>
          if env.saveRejects then
            { store := s, res := errorResponse 500 "Server error",
              log := ["Reset password error:"] }
          else
            { store := save { user with password := lib.hashPassword p,
                                        resetPasswordToken := none,
                                        resetPasswordExpire := none } s,
              res := sendTokenResponse lib env
                { user with password := lib.hashPassword p, resetPasswordToken := none,
                            resetPasswordExpire := none } 200,
              log := ["✅ Password reset successful for: " ++ user.email] } := by
  have hp2 : p ≠ "" := ne_empty_of_jsLength p hp
  have hp3 : ¬ jsLength p < 6 := by omega
  simp [resetPassword, validReset, truthy, hp2, hp3]

theorem resetPassword_of_invalid (lib : Lib) (env : Env) (token p : String) (s : Store)
    (hp : 6 ≤ jsLength p) (h : ¬ tokenValid lib env.now token s) :
    resetPassword lib env token (validReset p) s =
      { store := s, res := errorResponse 400 "Invalid or expired reset token", log := [] } := by
  rw [resetPassword_valid_eq lib env token p s hp,
    (findOne_byResetToken_eq_none_iff lib env.now token s).mpr h]

theorem resetPassword_of_valid (lib : Lib) (env : Env) (token p : String) (s : Store)
    (hp : 6 ≤ jsLength p) (h : tokenValid lib env.now token s)
    (hsave : env.saveRejects = false) :
    ∃ user, findOne (byResetToken (lib.sha256hex token) env.now) s = some user ∧
      resetPassword lib env token (validReset p) s =
        { store := save { user with password := lib.hashPassword p,
                                    resetPasswordToken := none,
                                    resetPasswordExpire := none } s,
          res := sendTokenResponse lib env
            { user with password := lib.hashPassword p, resetPasswordToken := none,
                        resetPasswordExpire := none } 200,
          log := ["✅ Password reset successful for: " ++ user.email] } := by
  obtain ⟨u, hu⟩ := Option.isSome_iff_exists.mp
    ((findOne_byResetToken_isSome_iff lib env.now token s).mpr h)
  refine ⟨u, hu, ?_⟩
  rw [resetPassword_valid_eq lib env token p s hp, hu]
  simp [hsave]

theorem resetPassword_status_ne_400_of_valid (lib : Lib) (env : Env) (token p : String)
    (s : Store) (hp : 6 ≤ jsLength p) (h : tokenValid lib env.now token s) :
    (resetPassword lib env token (validReset p) s).res.status ≠ 400 := by
  obtain ⟨u, hu⟩ := Option.isSome_iff_exists.mp
    ((findOne_byResetToken_isSome_iff lib env.now token s).mpr h)
  rw [resetPassword_valid_eq lib env token p s hp, hu]
  cases env.saveRejects <;> simp [errorResponse, sendTokenResponse]

/-- Claim C9: verifyResetToken answers 200 "Token is valid", and resetPassword with a valid
password pair succeeds (its save going through), exactly when some user holds the SHA-256
digest of the token with an expiry strictly after the current time; otherwise both answer
400 "Invalid or expired reset token", in particular when every user whose hash matches has
an expiry at or before the current time. -/
theorem reset_token_accepted_iff_unexpired_match (lib : Lib) (env : Env) (token p : String)
    (s : Store) (hp : 6 ≤ jsLength p) :
    ((verifyResetToken lib env token s).res = messageResponse 200 "Token is valid" ↔
      tokenValid lib env.now token s) ∧
    (¬ tokenValid lib env.now token s →
      (verifyResetToken lib env token s).res =
        errorResponse 400 "Invalid or expired reset token") ∧
    ((resetPassword lib env token (validReset p) s).res.status = 200 →
      tokenValid lib env.now token s) ∧
    (tokenValid lib env.now token s → env.saveRejects = false →
      (resetPassword lib env token (validReset p) s).res.status = 200 ∧
      (resetPassword lib env token (validReset p) s).res.body.success = true ∧
      (resetPassword lib env token (validReset p) s).res.body.token.isSome = true) ∧
    (¬ tokenValid lib env.now token s →
      (resetPassword lib env token (validReset p) s).res =
        errorResponse 400 "Invalid or expired reset token") ∧
    ((∀ u ∈ s, u.resetPasswordToken = some (lib.sha256hex token) →
        ∀ t, u.resetPasswordExpire = some t → t ≤ env.now) →
      (verifyResetToken lib env token s).res =
          errorResponse 400 "Invalid or expired reset token" ∧
        (resetPassword lib env token (validReset p) s).res =
          errorResponse 400 "Invalid or expired reset token") := by
  have hexp : (∀ u ∈ s, u.resetPasswordToken = some (lib.sha256hex token) →
      ∀ t, u.resetPasswordExpire = some t → t ≤ env.now) →
      ¬ tokenValid lib env.now token s := by
    rintro hall ⟨u, hu, hh, t, ht, hlt⟩
    have := hall u hu hh t ht
    omega
  refine ⟨⟨?_, ?_⟩, ?_, ?_, ?_, ?_, ?_⟩
  · intro h
    by_contra hv
    rw [verifyResetToken_of_invalid lib env token s hv] at h
    simp [errorResponse, messageResponse] at h
  · intro hv
    rw [verifyResetToken_of_valid lib env token s hv]
  · intro hv
    rw [verifyResetToken_of_invalid lib env token s hv]
  · intro h
    by_contra hv
    rw [resetPassword_of_invalid lib env token p s hp hv] at h
    simp [errorResponse] at h
  · intro hv hsave
    obtain ⟨user, -, heq⟩ := resetPassword_of_valid lib env token p s hp hv hsave
    rw [heq]
    simp [sendTokenResponse]
  · intro hv
    rw [resetPassword_of_invalid lib env token p s hp hv]
  · intro hall
    rw [verifyResetToken_of_invalid lib env token s (hexp hall),
      resetPassword_of_invalid lib env token p s hp (hexp hall)]
    exact ⟨rfl, rfl⟩

/-- Witness for C9: the token of Bob, which expires at 5000, tried at time 1000. -/
theorem reset_token_accepted_iff_unexpired_match_witness :
    (verifyResetToken sampleLib sampleEnv "abc" [alice, bob]).res =
        messageResponse 200 "Token is valid" ∧
      (resetPassword sampleLib sampleEnv "abc" (validReset "NewPass1")
        [alice, bob]).res.status = 200 :=
  have h := reset_token_accepted_iff_unexpired_match sampleLib sampleEnv "abc" "NewPass1"
    [alice, bob] (by decide)
  have hv : tokenValid sampleLib sampleEnv.now "abc" [alice, bob] :=
    ⟨bob, by decide, rfl, 5000, rfl, by decide⟩
  ⟨h.1.2 hv, (h.2.2.2.1 hv rfl).1⟩

/-- Claim C10: verifyResetToken writes nothing: the collection after it is the collection
before it, whatever it answers; so a token it reports valid is accepted again by
verifyResetToken, and by resetPassword with a valid password pair, at the same time. -/
theorem verifyResetToken_read_only (lib : Lib) (env : Env) (token : String) (s : Store) :
    (verifyResetToken lib env token s).store = s ∧
    ((verifyResetToken lib env token s).res.status = 200 →
      (verifyResetToken lib env token (verifyResetToken lib env token s).store).res =
          messageResponse 200 "Token is valid" ∧
        ∀ (next : Env) (p : String), next.now = env.now → 6 ≤ jsLength p →
          (resetPassword lib next token (validReset p)
              (verifyResetToken lib env token s).store).res.status ≠ 400 ∧
            (next.saveRejects = false →
              (resetPassword lib next token (validReset p)
                (verifyResetToken lib env token s).store).res.status = 200)) := by
  have hstore : (verifyResetToken lib env token s).store = s := by
    unfold verifyResetToken
    cases findOne (byResetToken (lib.sha256hex token) env.now) s <;> rfl
  refine ⟨hstore, ?_⟩
  intro hok
  have hv : tokenValid lib env.now token s := by
    by_contra hv
    rw [verifyResetToken_of_invalid lib env token s hv] at hok
    simp [errorResponse] at hok
  rw [hstore]
  refine ⟨by rw [verifyResetToken_of_valid lib env token s hv], ?_⟩
  intro next p hnow hp
  have hv2 : tokenValid lib next.now token s := hnow ▸ hv
  refine ⟨resetPassword_status_ne_400_of_valid lib next token p s hp hv2, ?_⟩
  intro hsave
  obtain ⟨user, -, heq⟩ := resetPassword_of_valid lib next token p s hp hv2 hsave
  rw [heq]
  rfl

/-- Witness for C10: verifying the token of Bob and then resetting with it. -/
theorem verifyResetToken_read_only_witness :
    (verifyResetToken sampleLib sampleEnv "abc" [alice, bob]).store = [alice, bob] ∧
      (resetPassword sampleLib sampleEnv "abc" (validReset "NewPass1")
        (verifyResetToken sampleLib sampleEnv "abc" [alice, bob]).store).res.status = 200 :=
  have h := verifyResetToken_read_only sampleLib sampleEnv "abc" [alice, bob]
  ⟨h.1, ((h.2 (by decide)).2 sampleEnv "NewPass1" rfl (by decide)).2 rfl⟩

/-! ## Reset: validation, effect, single use -/

theorem resetPassword_of_missing (lib : Lib) (env : Env) (token : String) (body : ResetBody)
    (s : Store) (h : missingOrEmpty body.password ∨ missingOrEmpty body.confirmPassword) :
    resetPassword lib env token body s =
      { store := s, res := errorResponse 400 "Please provide password and confirm password",
        log := [] } := by
  have h1 : (!truthy body.password || !truthy body.confirmPassword) = true := by
    rcases h with h | h
    · simp [(truthy_eq_false_iff _).mpr h]
    · simp [(truthy_eq_false_iff _).mpr h]
  simp only [resetPassword, h1, if_true]

theorem resetPassword_of_mismatch (lib : Lib) (env : Env) (token : String) (body : ResetBody)
    (s : Store) (hp : ¬ missingOrEmpty body.password)
    (hc : ¬ missingOrEmpty body.confirmPassword)
    (hne : body.password ≠ body.confirmPassword) :
    resetPassword lib env token body s =
      { store := s, res := errorResponse 400 "Passwords do not match", log := [] } := by
  have h1 : truthy body.password = true := by
    rw [← truthy_eq_false_iff] at hp; simpa using hp
  have h2 : truthy body.confirmPassword = true := by
    rw [← truthy_eq_false_iff] at hc; simpa using hc
  simp [resetPassword, h1, h2, hne]

theorem resetPassword_of_short (lib : Lib) (env : Env) (token : String) (body : ResetBody)
    (s : Store) (hp : ¬ missingOrEmpty body.password)
    (heq : body.password = body.confirmPassword)
    (hlen : jsLength (body.password.getD "") < 6) :
    resetPassword lib env token body s =
      { store := s, res := errorResponse 400 "Password must be at least 6 characters",
        log := [] } := by
  have h1 : truthy body.password = true := by
    rw [← truthy_eq_false_iff] at hp; simpa using hp
  have h2 : truthy body.confirmPassword = true := heq ▸ h1
  have h3 : ¬ body.password ≠ body.confirmPassword := not_not.mpr heq
  simp only [resetPassword, h1, h2, Bool.not_true, Bool.or_self, Bool.false_eq_true, if_false,
    if_neg h3, if_pos hlen]

/-- Claim C11: resetPassword checks its inputs before it looks at the token. When password
or confirmPassword is missing (absent or empty, the test `!x` of the code) it answers 400
"Please provide password and confirm password"; else when they differ, 400 "Passwords do not
match"; else when the password has fewer than 6 characters, 400 "Password must be at least 6
characters". In all three cases the collection is returned as it was and is not consulted:
the response is the same for every token, time and collection. -/
theorem resetPassword_validates_before_lookup (lib : Lib) (env : Env) (token : String)
    (body : ResetBody) (s : Store) :
    (missingOrEmpty body.password ∨ missingOrEmpty body.confirmPassword →
      (resetPassword lib env token body s).res =
        errorResponse 400 "Please provide password and confirm password") ∧
    (¬ missingOrEmpty body.password → ¬ missingOrEmpty body.confirmPassword →
      body.password ≠ body.confirmPassword →
      (resetPassword lib env token body s).res = errorResponse 400 "Passwords do not match") ∧
    (¬ missingOrEmpty body.password → body.password = body.confirmPassword →
      jsLength (body.password.getD "") < 6 →
      (resetPassword lib env token body s).res =
        errorResponse 400 "Password must be at least 6 characters") ∧
    (missingOrEmpty body.password ∨ missingOrEmpty body.confirmPassword ∨
        body.password ≠ body.confirmPassword ∨ jsLength (body.password.getD "") < 6 →
      (resetPassword lib env token body s).store = s ∧
      ∀ (env2 : Env) (token2 : String) (s2 : Store),
        (resetPassword lib env2 token2 body s2).res = (resetPassword lib env token body s).res)
    := by
  refine ⟨?_, ?_, ?_, ?_⟩
  · intro h
    rw [resetPassword_of_missing lib env token body s h]
  · intro hp hc hne
    rw [resetPassword_of_mismatch lib env token body s hp hc hne]
  · intro hp heq hlen
    rw [resetPassword_of_short lib env token body s hp heq hlen]
  · intro h
    by_cases hm : missingOrEmpty body.password ∨ missingOrEmpty body.confirmPassword
    · refine ⟨by rw [resetPassword_of_missing lib env token body s hm], ?_⟩
      intro env2 token2 s2
      rw [resetPassword_of_missing lib env token body s hm,
        resetPassword_of_missing lib env2 token2 body s2 hm]
    · have hp : ¬ missingOrEmpty body.password := fun hx => hm (Or.inl hx)
      have hc : ¬ missingOrEmpty body.confirmPassword := fun hx => hm (Or.inr hx)
      by_cases hne : body.password ≠ body.confirmPassword
      · refine ⟨by rw [resetPassword_of_mismatch lib env token body s hp hc hne], ?_⟩
        intro env2 token2 s2
        rw [resetPassword_of_mismatch lib env token body s hp hc hne,
          resetPassword_of_mismatch lib env2 token2 body s2 hp hc hne]
      · have heq : body.password = body.confirmPassword := not_not.mp hne
        have hlen : jsLength (body.password.getD "") < 6 := by
          rcases h with h | h | h | h
          · exact absurd h hp
          · exact absurd h hc
          · exact absurd heq h
          · exact h
        refine ⟨by rw [resetPassword_of_short lib env token body s hp heq hlen], ?_⟩
        intro env2 token2 s2
        rw [resetPassword_of_short lib env token body s hp heq hlen,
          resetPassword_of_short lib env2 token2 body s2 hp heq hlen]

/-- Witness for C11: a short password with the valid token of Bob. -/
theorem resetPassword_validates_before_lookup_witness :
    (resetPassword sampleLib sampleEnv "abc"
        { password := some "abc", confirmPassword := some "abc" } [alice, bob]).res =
      errorResponse 400 "Password must be at least 6 characters" ∧
    (resetPassword sampleLib sampleEnv "abc"
        { password := some "abc", confirmPassword := some "abc" } [alice, bob]).store =
      [alice, bob] :=
  have h := resetPassword_validates_before_lookup sampleLib sampleEnv "abc"
    { password := some "abc", confirmPassword := some "abc" } [alice, bob]
  ⟨h.2.2.1 (by decide) rfl (by decide),
    (h.2.2.2 (Or.inr (Or.inr (Or.inr (by decide))))).1⟩

theorem resetPassword_status_200 (lib : Lib) (env : Env) (token : String) (body : ResetBody)
    (s : Store) (hok : (resetPassword lib env token body s).res.status = 200) :
    ∃ p, body = validReset p ∧ 6 ≤ jsLength p ∧ env.saveRejects = false ∧
      tokenValid lib env.now token s := by
  by_cases hm : missingOrEmpty body.password ∨ missingOrEmpty body.confirmPassword
  · rw [resetPassword_of_missing lib env token body s hm] at hok
    simp [errorResponse] at hok
  have hp : ¬ missingOrEmpty body.password := fun hx => hm (Or.inl hx)
  have hc : ¬ missingOrEmpty body.confirmPassword := fun hx => hm (Or.inr hx)
  by_cases hne : body.password ≠ body.confirmPassword
  · rw [resetPassword_of_mismatch lib env token body s hp hc hne] at hok
    simp [errorResponse] at hok
  have heq : body.password = body.confirmPassword := not_not.mp hne
  by_cases hlen : jsLength (body.password.getD "") < 6
  · rw [resetPassword_of_short lib env token body s hp heq hlen] at hok
    simp [errorResponse] at hok
  obtain ⟨pw, cf⟩ := body
  cases pw with
  | none => exact absurd (Or.inl rfl) hp
  | some p =>
    simp only at heq
    subst heq
    have hlen2 : 6 ≤ jsLength p := by simpa using hlen
    refine ⟨p, rfl, hlen2, ?_, ?_⟩
    · cases hs : env.saveRejects with
      | false => rfl
      | true =>
        exfalso
        change (resetPassword lib env token (validReset p) s).res.status = 200 at hok
        rw [resetPassword_valid_eq lib env token p s hlen2] at hok
        cases hf : findOne (byResetToken (lib.sha256hex token) env.now) s <;>
          simp [hf, hs, errorResponse] at hok
    · by_contra hv
      change (resetPassword lib env token (validReset p) s).res.status = 200 at hok
      rw [resetPassword_of_invalid lib env token p s hlen2 hv] at hok
      simp [errorResponse] at hok

theorem not_tokenValid_of_noHolder (lib : Lib) (now : Int) (token : String) (s : Store)
    (h : noHolder (lib.sha256hex token) s) : ¬ tokenValid lib now token s := by
  rintro ⟨u, hu, hh, -⟩
  exact h u hu hh

/-- Claim C12: on a collection with distinct ids, a resetPassword that answers 200 was called
with a password pair (p, p) and found a user by the token; one save writes the password made
from p and unsets both reset fields of that user; nothing else of that user and no other user
changes; the response carries a new session token. -/
theorem resetPassword_success_effect (lib : Lib) (env : Env) (token : String)
    (body : ResetBody) (s : Store) (hnodup : (s.map (fun v => v._id)).Nodup)
    (hok : (resetPassword lib env token body s).res.status = 200) :
    ∃ (p : String) (user : User),
      body = validReset p ∧
      findOne (byResetToken (lib.sha256hex token) env.now) s = some user ∧
      (resetPassword lib env token body s).store = save (afterReset lib p user) s ∧
      (resetPassword lib env token body s).store =
        s.map (fun v => if v = user then
          { v with password := lib.hashPassword p, resetPasswordToken := none,
                   resetPasswordExpire := none } else v) ∧
      (resetPassword lib env token body s).res.body.success = true ∧
      (resetPassword lib env token body s).res.body.token =
        some (generateToken lib env user._id) := by
  obtain ⟨p, rfl, hlen, hsave, hv⟩ := resetPassword_status_200 lib env token body s hok
  obtain ⟨user, hf, heq⟩ := resetPassword_of_valid lib env token p s hlen hv hsave
  have hmem : user ∈ s := List.mem_of_find?_eq_some hf
  have hmap : s.map (fun v => if v = user then afterReset lib p user else v) =
      s.map (fun v => if v = user then
        { v with password := lib.hashPassword p, resetPasswordToken := none,
                 resetPasswordExpire := none } else v) := by
    apply List.map_congr_left
    intro v _
    by_cases hvu : v = user
    · simp [hvu, afterReset]
    · simp [hvu]
  refine ⟨p, user, rfl, hf, ?_, ?_, ?_, ?_⟩
  · rw [heq]; rfl
  · rw [heq, ← hmap, ← save_eq_map user (afterReset lib p user) s hnodup hmem rfl]; rfl
  · rw [heq]; rfl
  · rw [heq]; rfl

/-- Witness for C12: Bob resets his password with his token next to Alice. -/
theorem resetPassword_success_effect_witness :
    (resetPassword sampleLib sampleEnv "abc" (validReset "NewPass1") [alice, bob]).store =
      [alice, { bob with password := "hash:NewPass1", resetPasswordToken := none,
                         resetPasswordExpire := none }] ∧
    ∃ (p : String) (user : User),
      validReset "NewPass1" = validReset p ∧
      findOne (byResetToken (sampleLib.sha256hex "abc") sampleEnv.now) [alice, bob] =
        some user ∧
      (resetPassword sampleLib sampleEnv "abc" (validReset "NewPass1") [alice, bob]).store =
        save (afterReset sampleLib p user) [alice, bob] ∧
      (resetPassword sampleLib sampleEnv "abc" (validReset "NewPass1") [alice, bob]).store =
        [alice, bob].map (fun v => if v = user then
          { v with password := sampleLib.hashPassword p, resetPasswordToken := none,
                   resetPasswordExpire := none } else v) ∧
      (resetPassword sampleLib sampleEnv "abc" (validReset "NewPass1")
        [alice, bob]).res.body.success = true ∧
      (resetPassword sampleLib sampleEnv "abc" (validReset "NewPass1")
        [alice, bob]).res.body.token = some (generateToken sampleLib sampleEnv user._id) :=
  ⟨by decide,
    resetPassword_success_effect sampleLib sampleEnv "abc" (validReset "NewPass1")
      [alice, bob] (by decide) (by decide)⟩

theorem resetPassword_unchanged_of_invalid (lib : Lib) (env : Env) (token : String)
    (body : ResetBody) (s : Store) (h : ¬ tokenValid lib env.now token s) :
    (resetPassword lib env token body s).res.status = 400 ∧
      (resetPassword lib env token body s).store = s := by
  by_cases hm : missingOrEmpty body.password ∨ missingOrEmpty body.confirmPassword
  · rw [resetPassword_of_missing lib env token body s hm]
    exact ⟨rfl, rfl⟩
  have hp : ¬ missingOrEmpty body.password := fun hx => hm (Or.inl hx)
  have hc : ¬ missingOrEmpty body.confirmPassword := fun hx => hm (Or.inr hx)
  by_cases hne : body.password ≠ body.confirmPassword
  · rw [resetPassword_of_mismatch lib env token body s hp hc hne]
    exact ⟨rfl, rfl⟩
  have heq : body.password = body.confirmPassword := not_not.mp hne
  by_cases hlen : jsLength (body.password.getD "") < 6
  · rw [resetPassword_of_short lib env token body s hp heq hlen]
    exact ⟨rfl, rfl⟩
  obtain ⟨pw, cf⟩ := body
  cases pw with
  | none => exact absurd (Or.inl rfl) hp
  | some p =>
    simp only at heq
    subst heq
    have hlen2 : 6 ≤ jsLength p := by simpa using hlen
    change (resetPassword lib env token (validReset p) s).res.status = 400 ∧
      (resetPassword lib env token (validReset p) s).store = s
    rw [resetPassword_of_invalid lib env token p s hlen2 h]
    exact ⟨rfl, rfl⟩

/-- Claim C13 as stated fails: for a token that no user holds, a call without a password
pair is answered with the validation message, not with "Invalid or expired reset token". -/
theorem resetPassword_unknown_token_validation_message :
    noHolder (sampleLib.sha256hex "nope") [alice, bob] ∧
    (resetPassword sampleLib sampleEnv "nope"
        { password := none, confirmPassword := none } [alice, bob]).res =
      errorResponse 400 "Please provide password and confirm password" ∧
    (resetPassword sampleLib sampleEnv "nope"
        { password := none, confirmPassword := none } [alice, bob]).res ≠
      errorResponse 400 "Invalid or expired reset token" := by
  decide

/-- Claim C13, amended: when no user holds the hash of the token with an expiry after the
current time (the token matches no stored hash, or every match has expired), resetPassword
answers 400 and leaves the collection as it was, whatever the password pair; with a valid
password pair the response is 400 "Invalid or expired reset token". -/
theorem resetPassword_invalid_token_unchanged (lib : Lib) (env : Env) (token : String)
    (body : ResetBody) (s : Store)
    (h : noHolder (lib.sha256hex token) s ∨
      ∀ u ∈ s, u.resetPasswordToken = some (lib.sha256hex token) →
        ∀ t, u.resetPasswordExpire = some t → t ≤ env.now) :
    (resetPassword lib env token body s).res.status = 400 ∧
    (resetPassword lib env token body s).store = s ∧
    (∀ p, body = validReset p → 6 ≤ jsLength p →
      (resetPassword lib env token body s).res =
        errorResponse 400 "Invalid or expired reset token") := by
  have hv : ¬ tokenValid lib env.now token s := by
    rcases h with h | h
    · exact not_tokenValid_of_noHolder lib env.now token s h
    · rintro ⟨u, hu, hh, t, ht, hlt⟩
      have := h u hu hh t ht
      omega
  obtain ⟨h1, h2⟩ := resetPassword_unchanged_of_invalid lib env token body s hv
  refine ⟨h1, h2, ?_⟩
  rintro p rfl hlen
  rw [resetPassword_of_invalid lib env token p s hlen hv]

/-- Witness for C13: the token of Bob tried at 5000, the very time it expires. -/
theorem resetPassword_invalid_token_unchanged_witness :
    (resetPassword sampleLib { sampleEnv with now := 5000 } "abc" (validReset "NewPass1")
        [alice, bob]).res = errorResponse 400 "Invalid or expired reset token" ∧
    (resetPassword sampleLib { sampleEnv with now := 5000 } "abc" (validReset "NewPass1")
        [alice, bob]).store = [alice, bob] :=
  have h := resetPassword_invalid_token_unchanged sampleLib { sampleEnv with now := 5000 }
    "abc" (validReset "NewPass1") [alice, bob] (Or.inr (by decide))
  ⟨h.2.2 "NewPass1" rfl (by decide), h.2.1⟩

theorem mem_save_cases (u w : User) (s : Store) (h : w ∈ save u s) : w = u ∨ w ∈ s := by
  induction s with
  | nil => simp [save] at h
  | cons v rest ih =>
    unfold save at h
    by_cases hv : v._id = u._id
    · rw [if_pos hv] at h
      rcases List.mem_cons.mp h with h | h
      · exact Or.inl h
      · exact Or.inr (List.mem_cons_of_mem _ h)
    · rw [if_neg hv] at h
      rcases List.mem_cons.mp h with h | h
      · exact Or.inr (h ▸ List.mem_cons_self _ _)
      · rcases ih h with h | h
        · exact Or.inl h
        · exact Or.inr (List.mem_cons_of_mem _ h)

theorem noHolder_of_shape (h : String) (s t : Store) (hs : noHolder h s)
    (hshape : StoreShape s t) : noHolder h t := by
  rcases hshape with rfl | ⟨u, rfl, hu⟩ | ⟨f, user, u1, hf, rfl, hu⟩
  · exact hs
  · intro w hw
    rcases List.mem_append.mp hw with hw | hw
    · exact hs w hw
    · rw [List.mem_singleton.mp hw, hu]
      exact Option.noConfusion
  · intro w hw
    have hmem : user ∈ s := List.mem_of_find?_eq_some hf
    rcases mem_save_cases u1 w s hw with rfl | hw
    · rcases hu with hu | hu
      · rw [hu]; exact hs user hmem
      · rw [hu]; exact Option.noConfusion
    · exact hs w hw

theorem signupCatch_store (s : Store) (c : CreateOutcome) : (signupCatch s c).store = s := by
  cases c <;> rfl

theorem signup_shape (lib : Lib) (env : Env) (body : SignupBody) (s : Store) :
    StoreShape s (signup lib env body s).store := by
  unfold signup
  repeat' split
  all_goals first
    | exact Or.inl rfl
    | exact Or.inl (signupCatch_store _ _)
    | exact Or.inr (Or.inl ⟨_, rfl, rfl⟩)

theorem login_shape (lib : Lib) (env : Env) (body : LoginBody) (s : Store) :
    StoreShape s (login lib env body s).store := by
  unfold login
  repeat' split
  all_goals first
    | exact Or.inl rfl
    | exact Or.inr (Or.inr ⟨_, _, _, by assumption, rfl, Or.inl (by rfl)⟩)

theorem getMe_shape (userId : Nat) (s : Store) : StoreShape s (getMe userId s).store := by
  unfold getMe
  split <;> exact Or.inl rfl

theorem updateProfile_shape (lib : Lib) (env : Env) (userId : Nat) (body : ProfileBody)
    (s : Store) : StoreShape s (updateProfile lib env userId body s).store := by
  unfold updateProfile
  dsimp only
  repeat' split
  all_goals first
    | exact Or.inl rfl
    | exact Or.inr (Or.inr ⟨_, _, _, by assumption, rfl, Or.inl (by rfl)⟩)

theorem updatePassword_shape (lib : Lib) (env : Env) (userId : Nat) (body : PasswordBody)
    (s : Store) : StoreShape s (updatePassword lib env userId body s).store := by
  unfold updatePassword
  repeat' split
  all_goals first
    | exact Or.inl rfl
    | exact Or.inr (Or.inr ⟨_, _, _, by assumption, rfl, Or.inl (by rfl)⟩)

theorem resetPassword_shape (lib : Lib) (env : Env) (token : String) (body : ResetBody)
    (s : Store) : StoreShape s (resetPassword lib env token body s).store := by
  unfold resetPassword
  repeat' split
  all_goals first
    | exact Or.inl rfl
    | exact Or.inr (Or.inr ⟨_, _, _, by assumption, rfl, Or.inr (by rfl)⟩)

theorem verifyResetToken_store (lib : Lib) (env : Env) (token : String) (s : Store) :
    (verifyResetToken lib env token s).store = s := by
  unfold verifyResetToken
  split <;> rfl

theorem handle_shape (lib : Lib) (env : Env) (r : Request) (s : Store)
    (hr : r.isForgot = false) : StoreShape s (handle lib env r s).store := by
  cases r with
  | signup body => exact signup_shape lib env body s
  | login body => exact login_shape lib env body s
  | getMe userId => exact getMe_shape userId s
  | updateProfile userId body => exact updateProfile_shape lib env userId body s
  | updatePassword userId body => exact updatePassword_shape lib env userId body s
  | forgotPassword email => simp [Request.isForgot] at hr
  | resetPassword token body => exact resetPassword_shape lib env token body s
  | verifyResetToken token => exact Or.inl (verifyResetToken_store lib env token s)

theorem noHolder_run (lib : Lib) (h : String) (rs : List (Env × Request)) (s : Store)
    (hrs : ∀ er ∈ rs, er.2.isForgot = false) (hs : noHolder h s) :
    noHolder h (run lib rs s) := by
  induction rs generalizing s with
  | nil => exact hs
  | cons er rest ih =>
    obtain ⟨env, r⟩ := er
    unfold run
    apply ih
    · intro x hx
      exact hrs x (List.mem_cons_of_mem _ hx)
    · exact noHolder_of_shape h s _ hs
        (handle_shape lib env r s (hrs (env, r) (List.mem_cons_self _ _)))

theorem noHolder_after_reset (lib : Lib) (env : Env) (token p : String) (s : Store)
    (hnodup : (s.map (fun v => v._id)).Nodup)
    (hone : atMostOneHolder (lib.sha256hex token) s)
    (hok : (resetPassword lib env token (validReset p) s).res.status = 200) :
    noHolder (lib.sha256hex token) (resetPassword lib env token (validReset p) s).store := by
  obtain ⟨q, hq, hlen, hsave, hv⟩ := resetPassword_status_200 lib env token _ s hok
  have hpq : p = q := by
    have := congrArg ResetBody.password hq
    simpa [validReset] using this
  subst hpq
  obtain ⟨user, hf, heq⟩ := resetPassword_of_valid lib env token p s hlen hv hsave
  have hmem : user ∈ s := List.mem_of_find?_eq_some hf
  have hholds : user.resetPasswordToken = some (lib.sha256hex token) := by
    have h1 : byResetToken (lib.sha256hex token) env.now user = true := List.find?_some hf
    exact ((byResetToken_iff _ _ _).mp h1).1
  have hstore : (resetPassword lib env token (validReset p) s).store =
      s.map (fun v => if v = user then afterReset lib p user else v) := by
    rw [heq, ← save_eq_map user (afterReset lib p user) s hnodup hmem rfl]
    rfl
  rw [hstore]
  intro w hw
  obtain ⟨v, hv1, rfl⟩ := List.mem_map.mp hw
  by_cases hvu : v = user
  · simp [hvu, afterReset]
  · rw [if_neg hvu]
    intro hh
    exact hvu (hone v hv1 user hmem hh hholds)

/-- Claim C14 as stated fails: after the token of Bob has been used, a later resetPassword
with the same token and a mismatching password pair is answered "Passwords do not match",
not "Invalid or expired reset token". -/
theorem resetPassword_reuse_validation_message :
    atMostOneHolder (sampleLib.sha256hex "abc") [alice, bob] ∧
    (resetPassword sampleLib sampleEnv "abc" (validReset "NewPass1") [alice, bob]).res.status
      = 200 ∧
    (resetPassword sampleLib sampleEnv "abc"
        { password := some "NewPass2", confirmPassword := some "NewPass3" }
        (resetPassword sampleLib sampleEnv "abc" (validReset "NewPass1") [alice, bob]).store).res
      = errorResponse 400 "Passwords do not match" ∧
    (resetPassword sampleLib sampleEnv "abc"
        { password := some "NewPass2", confirmPassword := some "NewPass3" }
        (resetPassword sampleLib sampleEnv "abc" (validReset "NewPass1") [alice, bob]).store).res
      ≠ errorResponse 400 "Invalid or expired reset token" := by
  decide

/-- Claim C14, amended: on a collection with distinct ids in which at most one user holds
the hash of the token, once resetPassword(token, p, p) has succeeded, after any further
requests none of which is a forgotPassword, verifyResetToken with the same token and
resetPassword with the same token and a valid password pair answer 400 "Invalid or expired
reset token"; resetPassword with the same token and any other pair answers 400 as well. -/
theorem reset_token_single_use (lib : Lib) (env : Env) (token p : String) (s : Store)
    (hnodup : (s.map (fun v => v._id)).Nodup)
    (hone : atMostOneHolder (lib.sha256hex token) s)
    (hok : (resetPassword lib env token (validReset p) s).res.status = 200)
    (rs : List (Env × Request)) (hrs : ∀ er ∈ rs, er.2.isForgot = false) (later : Env) :
    (verifyResetToken lib later token
        (run lib rs (resetPassword lib env token (validReset p) s).store)).res =
      errorResponse 400 "Invalid or expired reset token" ∧
    (∀ q, 6 ≤ jsLength q →
      (resetPassword lib later token (validReset q)
          (run lib rs (resetPassword lib env token (validReset p) s).store)).res =
        errorResponse 400 "Invalid or expired reset token") ∧
    (∀ body : ResetBody,
      (resetPassword lib later token body
          (run lib rs (resetPassword lib env token (validReset p) s).store)).res.status
        = 400) := by
  have h0 := noHolder_after_reset lib env token p s hnodup hone hok
  have h1 := noHolder_run lib _ rs _ hrs h0
  have hv := not_tokenValid_of_noHolder lib later.now token _ h1
  refine ⟨?_, ?_, ?_⟩
  · rw [verifyResetToken_of_invalid lib later token _ hv]
  · intro q hq
    rw [resetPassword_of_invalid lib later token q _ hq hv]
  · intro body
    exact (resetPassword_unchanged_of_invalid lib later token body _ hv).1

/-- Witness for C14: Bob resets, logs in with the new password, and the token is tried
again. -/
theorem reset_token_single_use_witness :
    (verifyResetToken sampleLib sampleEnv "abc"
        (run sampleLib
          [(sampleEnv, Request.login
            { email := some "bob@example.com", password := some "NewPass1" })]
          (resetPassword sampleLib sampleEnv "abc" (validReset "NewPass1")
            [alice, bob]).store)).res =
      errorResponse 400 "Invalid or expired reset token" ∧
    (resetPassword sampleLib sampleEnv "abc" (validReset "Another1")
        (run sampleLib
          [(sampleEnv, Request.login
            { email := some "bob@example.com", password := some "NewPass1" })]
          (resetPassword sampleLib sampleEnv "abc" (validReset "NewPass1")
            [alice, bob]).store)).res =
      errorResponse 400 "Invalid or expired reset token" :=
  have h := reset_token_single_use sampleLib sampleEnv "abc" "NewPass1" [alice, bob]
    (by decide) (by decide) (by decide)
    [(sampleEnv, Request.login { email := some "bob@example.com", password := some "NewPass1" })]
    (by decide) sampleEnv
  ⟨h.1, h.2.1 "Another1" (by decide)⟩

/-! ## Reset: a new token supersedes the previous one -/

theorem save_save (u1 u2 : User) (s : Store) (hid : u1._id = u2._id) :
    save u2 (save u1 s) = save u2 s := by
  induction s with
  | nil => rfl
  | cons v rest ih =>
    by_cases hv : v._id = u1._id
    · have hv2 : v._id = u2._id := hv.trans hid
      simp only [save, if_pos hv, if_pos hv2, if_pos hid]
    · have hv2 : ¬ v._id = u2._id := fun h => hv (h.trans hid.symm)
      simp only [save, if_neg hv, if_neg hv2, ih]

theorem findOne_save (f : User → Bool) (u u1 : User) (s : Store)
    (hnodup : (s.map (fun v => v._id)).Nodup) (hf : findOne f s = some u)
    (hid : u1._id = u._id) (hfu : f u1 = true) : findOne f (save u1 s) = some u1 := by
  induction s with
  | nil => simp [findOne] at hf
  | cons v rest ih =>
    simp only [List.map_cons, List.nodup_cons, List.mem_map, not_exists, not_and] at hnodup
    obtain ⟨hv, hrest⟩ := hnodup
    unfold findOne at hf ih ⊢
    by_cases hfv : f v = true
    · rw [List.find?_cons_of_pos _ hfv] at hf
      have hvu : v = u := Option.some.inj hf
      have hvid : v._id = u1._id := by rw [hvu, hid]
      simp only [save, if_pos hvid]
      rw [List.find?_cons_of_pos _ hfu]
    · rw [List.find?_cons_of_neg _ hfv] at hf
      have hmem : u ∈ rest := List.mem_of_find?_eq_some hf
      have hvid : ¬ v._id = u1._id := by
        intro h
        exact hv u hmem (by rw [h, hid])
      simp only [save, if_neg hvid]
      rw [List.find?_cons_of_neg _ hfv]
      exact ih hrest hf

theorem forgotTwice_eq (lib : Lib) (env1 env2 : Env) (email : String) (s : Store)
    (user : User) (hnodup : (s.map (fun v => v._id)).Nodup) (he : email ≠ "")
    (hf : findOne (byEmail (lib.toLowerCase email)) s = some user)
    (hs1 : env1.saveRejects = false) (hs2 : env2.saveRejects = false) :
    forgotTwice lib env1 env2 email s =
      s.map (fun v => if v = user then
        { user with resetPasswordToken := some (lib.sha256hex env2.randomToken),
                    resetPasswordExpire := some (env2.now + 10 * 60 * 1000) } else v) := by
  have hmem : user ∈ s := List.mem_of_find?_eq_some hf
  have hemail : byEmail (lib.toLowerCase email) user = true := List.find?_some hf
  have hf1 : findOne (byEmail (lib.toLowerCase email))
      (save (getResetPasswordToken lib env1 user).2 s) =
      some (getResetPasswordToken lib env1 user).2 :=
    findOne_save _ user _ s hnodup hf rfl hemail
  unfold forgotTwice
  rw [forgotPassword_found_eq lib env1 email s user he hf hs1]
  rw [forgotPassword_found_eq lib env2 email _ _ he hf1 hs2]
  simp only
  rw [save_save (getResetPasswordToken lib env1 user).2
    (getResetPasswordToken lib env2 (getResetPasswordToken lib env1 user).2).2 s rfl]
  exact save_eq_map user _ s hnodup hmem rfl

/-- Claim C15 as stated fails twice. After Alice has been issued "t1" and then "t2",
resetPassword with "t1" and no password pair is answered with the validation message, not
with "Invalid or expired reset token"; and when the first token issued to Alice is the one
Bob still holds ("abc"), resetPassword with it succeeds, on the account of Bob. -/
theorem forgot_twice_first_token_not_always_rejected :
    (resetPassword sampleLib { sampleEnv with now := 3000 } "t1"
        { password := none, confirmPassword := none }
        (forgotTwice sampleLib { sampleEnv with randomToken := "t1" }
          { sampleEnv with randomToken := "t2", now := 2000 } "alice@example.com"
          [alice, bob])).res =
      errorResponse 400 "Please provide password and confirm password" ∧
    (resetPassword sampleLib { sampleEnv with now := 3000 } "abc" (validReset "NewPass1")
        (forgotTwice sampleLib { sampleEnv with randomToken := "abc" }
          { sampleEnv with randomToken := "t2", now := 2000 } "alice@example.com"
          [alice, bob])).res.status = 200 := by
  decide

/-- Claim C15, amended: on a collection with distinct ids, after two consecutive
forgotPassword requests for an existing user that issue t1 and then t2 with different
digests, the user holds one reset hash, that of t2, with the expiry of the second request.
If no other user holds the digest of t1, resetPassword with t1 and a valid password pair
answers 400 "Invalid or expired reset token" (and 400 with any pair); resetPassword with t2
and a valid password pair before the expiry succeeds. -/
theorem forgot_twice_supersedes (lib : Lib) (env1 env2 : Env) (email : String) (s : Store)
    (user : User) (hnodup : (s.map (fun v => v._id)).Nodup) (he : email ≠ "")
    (hf : findOne (byEmail (lib.toLowerCase email)) s = some user)
    (hs1 : env1.saveRejects = false) (hs2 : env2.saveRejects = false)
    (hhash : lib.sha256hex env1.randomToken ≠ lib.sha256hex env2.randomToken) :
    (∃ u ∈ forgotTwice lib env1 env2 email s, u._id = user._id) ∧
    (∀ u ∈ forgotTwice lib env1 env2 email s, u._id = user._id →
      u.resetPasswordToken = some (lib.sha256hex env2.randomToken) ∧
      u.resetPasswordExpire = some (env2.now + 10 * 60 * 1000)) ∧
    ((∀ v ∈ s, v ≠ user → v.resetPasswordToken ≠ some (lib.sha256hex env1.randomToken)) →
      ∀ (env3 : Env),
        (∀ q, 6 ≤ jsLength q →
          (resetPassword lib env3 env1.randomToken (validReset q)
              (forgotTwice lib env1 env2 email s)).res =
            errorResponse 400 "Invalid or expired reset token") ∧
        (∀ body : ResetBody,
          (resetPassword lib env3 env1.randomToken body
              (forgotTwice lib env1 env2 email s)).res.status = 400)) ∧
    (∀ (env3 : Env) (q : String), 6 ≤ jsLength q → env3.now < env2.now + 10 * 60 * 1000 →
      env3.saveRejects = false →
      (resetPassword lib env3 env2.randomToken (validReset q)
          (forgotTwice lib env1 env2 email s)).res.status = 200) := by
  have hmem : user ∈ s := List.mem_of_find?_eq_some hf
  have hinj := List.inj_on_of_nodup_map hnodup
  rw [forgotTwice_eq lib env1 env2 email s user hnodup he hf hs1 hs2]
  have huser2 : ({ user with resetPasswordToken := some (lib.sha256hex env2.randomToken),
                             resetPasswordExpire := some (env2.now + 10 * 60 * 1000) } : User) ∈
      s.map (fun v => if v = user then
        { user with resetPasswordToken := some (lib.sha256hex env2.randomToken),
                    resetPasswordExpire := some (env2.now + 10 * 60 * 1000) } else v) :=
    List.mem_map.mpr ⟨user, hmem, by simp⟩
  refine ⟨⟨_, huser2, rfl⟩, ?_, ?_, ?_⟩
  · intro w hw hid
    obtain ⟨v, hv1, rfl⟩ := List.mem_map.mp hw
    by_cases hvu : v = user
    · simp [hvu]
    · rw [if_neg hvu] at hid
      exact absurd (hinj hv1 hmem hid) hvu
  · intro hother env3
    have hv : ¬ tokenValid lib env3.now env1.randomToken
        (s.map (fun v => if v = user then
          { user with resetPasswordToken := some (lib.sha256hex env2.randomToken),
                      resetPasswordExpire := some (env2.now + 10 * 60 * 1000) } else v)) := by
      apply not_tokenValid_of_noHolder
      intro w hw
      obtain ⟨v, hv1, rfl⟩ := List.mem_map.mp hw
      by_cases hvu : v = user
      · rw [if_pos hvu]
        intro hh
        exact hhash (Option.some.inj hh).symm
      · rw [if_neg hvu]
        exact hother v hv1 hvu
    refine ⟨?_, ?_⟩
    · intro q hq
      rw [resetPassword_of_invalid lib env3 env1.randomToken q _ hq hv]
    · intro body
      exact (resetPassword_unchanged_of_invalid lib env3 env1.randomToken body _ hv).1
  · intro env3 q hq hnow hs3
    have hv : tokenValid lib env3.now env2.randomToken
        (s.map (fun v => if v = user then
          { user with resetPasswordToken := some (lib.sha256hex env2.randomToken),
                      resetPasswordExpire := some (env2.now + 10 * 60 * 1000) } else v)) :=
      ⟨_, huser2, rfl, _, rfl, hnow⟩
    obtain ⟨u, -, heq⟩ := resetPassword_of_valid lib env3 env2.randomToken q _ hq hv hs3
    rw [heq]
    rfl

/-- Witness for C15: Alice is issued "t1" at 1000 and "t2" at 2000; at 3000 the first token
is refused and the second one resets her password. -/
theorem forgot_twice_supersedes_witness :
    (resetPassword sampleLib { sampleEnv with now := 3000 } "t1" (validReset "NewPass1")
        (forgotTwice sampleLib { sampleEnv with randomToken := "t1" }
          { sampleEnv with randomToken := "t2", now := 2000 } "alice@example.com"
          [alice, bob])).res = errorResponse 400 "Invalid or expired reset token" ∧
    (resetPassword sampleLib { sampleEnv with now := 3000 } "t2" (validReset "NewPass1")
        (forgotTwice sampleLib { sampleEnv with randomToken := "t1" }
          { sampleEnv with randomToken := "t2", now := 2000 } "alice@example.com"
          [alice, bob])).res.status = 200 :=
  have h := forgot_twice_supersedes sampleLib { sampleEnv with randomToken := "t1" }
    { sampleEnv with randomToken := "t2", now := 2000 } "alice@example.com" [alice, bob] alice
    (by decide) (by decide) (by decide) rfl rfl (by decide)
  ⟨(h.2.2.1 (by decide) { sampleEnv with now := 3000 }).1 "NewPass1" (by decide),
    h.2.2.2 { sampleEnv with now := 3000 } "NewPass1" (by decide) (by decide) rfl⟩

/-! ## Password change -/

theorem updatePassword_of_missing (lib : Lib) (env : Env) (userId : Nat) (body : PasswordBody)
    (s : Store) (h : missingOrEmpty body.currentPassword ∨ missingOrEmpty body.newPassword) :
    updatePassword lib env userId body s =
      { store := s, res := errorResponse 400 "Please provide current and new password",
        log := [] } := by
  have h1 : (!truthy body.currentPassword || !truthy body.newPassword) = true := by
    rcases h with h | h
    · simp [(truthy_eq_false_iff _).mpr h]
    · simp [(truthy_eq_false_iff _).mpr h]
  simp only [updatePassword, h1, if_true]

theorem updatePassword_provided_eq (lib : Lib) (env : Env) (userId : Nat) (cur new : String)
    (s : Store) (user : User) (hc : cur ≠ "") (hn : new ≠ "")
    (huser : findOne (fun u => u._id == userId) s = some user) :
    updatePassword lib env userId (passwordChange cur new) s =
      if lib.comparePassword cur user.password = false then
        { store := s, res := errorResponse 401 "Current password is incorrect", log := [] }
      else if env.saveRejects then
        { store := s, res := errorResponse 500 "Server error",
          log := ["Update password error:"] }
      else
        { store := save { user with password := lib.hashPassword new } s,
          res := sendTokenResponse lib env { user with password := lib.hashPassword new } 200,
          log := [] } := by
  cases hcmp : lib.comparePassword cur user.password <;>
    simp [updatePassword, passwordChange, truthy, hc, hn, huser, hcmp]

/-- Claim C16: for an authenticated user (the id resolves to a stored user, ids distinct),
updatePassword answers 400 when currentPassword or newPassword is missing (absent or empty)
and 401 "Current password is incorrect" when the current password does not verify, leaving
the collection as it was in both cases; the collection changes only when the current
password verifies, and then exactly the password of that user is overwritten from
newPassword and a new session token is returned. -/
theorem updatePassword_requires_current (lib : Lib) (env : Env) (userId : Nat)
    (body : PasswordBody) (s : Store) (user : User)
    (hnodup : (s.map (fun v => v._id)).Nodup)
    (huser : findOne (fun u => u._id == userId) s = some user) :
    (missingOrEmpty body.currentPassword ∨ missingOrEmpty body.newPassword →
      (updatePassword lib env userId body s).res.status = 400 ∧
      (updatePassword lib env userId body s).store = s) ∧
    (∀ cur new : String, body = passwordChange cur new → cur ≠ "" → new ≠ "" →
      lib.comparePassword cur user.password = false →
      (updatePassword lib env userId body s).res =
        errorResponse 401 "Current password is incorrect" ∧
      (updatePassword lib env userId body s).store = s) ∧
    ((updatePassword lib env userId body s).store ≠ s →
      ∃ cur new : String, body = passwordChange cur new ∧
        lib.comparePassword cur user.password = true) ∧
    (∀ cur new : String, body = passwordChange cur new → cur ≠ "" → new ≠ "" →
      lib.comparePassword cur user.password = true → env.saveRejects = false →
      (updatePassword lib env userId body s).store =
        s.map (fun v => if v = user then { v with password := lib.hashPassword new } else v) ∧
      (updatePassword lib env userId body s).res.status = 200 ∧
      (updatePassword lib env userId body s).res.body.token =
        some (generateToken lib env user._id)) := by
  have hmem : user ∈ s := List.mem_of_find?_eq_some huser
  refine ⟨?_, ?_, ?_, ?_⟩
  · intro h
    rw [updatePassword_of_missing lib env userId body s h]
    exact ⟨rfl, rfl⟩
  · rintro cur new rfl hc hn hcmp
    rw [updatePassword_provided_eq lib env userId cur new s user hc hn huser]
    simp [hcmp]
  · intro hne
    by_cases hm : missingOrEmpty body.currentPassword ∨ missingOrEmpty body.newPassword
    · rw [updatePassword_of_missing lib env userId body s hm] at hne
      exact absurd rfl hne
    · obtain ⟨c, n⟩ := body
      cases c with
      | none => exact absurd (Or.inl (Or.inl rfl)) hm
      | some cur =>
        cases n with
        | none => exact absurd (Or.inr (Or.inl rfl)) hm
        | some new =>
          have hc : cur ≠ "" := fun h => hm (Or.inl (Or.inr (by rw [h])))
          have hn : new ≠ "" := fun h => hm (Or.inr (Or.inr (by rw [h])))
          refine ⟨cur, new, rfl, ?_⟩
          change (updatePassword lib env userId (passwordChange cur new) s).store ≠ s at hne
          rw [updatePassword_provided_eq lib env userId cur new s user hc hn huser] at hne
          cases hcmp : lib.comparePassword cur user.password with
          | true => rfl
          | false => simp [hcmp] at hne
  · rintro cur new rfl hc hn hcmp hsave
    rw [updatePassword_provided_eq lib env userId cur new s user hc hn huser]
    have hmap : s.map (fun v => if v = user then { user with password := lib.hashPassword new }
        else v) =
        s.map (fun v => if v = user then { v with password := lib.hashPassword new }
          else v) := by
      apply List.map_congr_left
      intro v _
      by_cases hvu : v = user
      · simp [hvu]
      · simp [hvu]
    simp only [hcmp, hsave, Bool.true_eq_false, Bool.false_eq_true, if_false]
    refine ⟨?_, rfl, rfl⟩
    rw [← hmap]
    exact save_eq_map user _ s hnodup hmem rfl

/-- Witness for C16: Alice changes her password; a wrong current password is refused. -/
theorem updatePassword_requires_current_witness :
    (updatePassword sampleLib sampleEnv 1 (passwordChange "guess" "NewPass1")
        [alice, bob]).res = errorResponse 401 "Current password is incorrect" ∧
    (updatePassword sampleLib sampleEnv 1 (passwordChange "Secret1" "NewPass1")
        [alice, bob]).store = [{ alice with password := "hash:NewPass1" }, bob] ∧
    (updatePassword sampleLib sampleEnv 1 (passwordChange "Secret1" "NewPass1")
        [alice, bob]).res.body.token = some "jwt-1" :=
  have hbad := updatePassword_requires_current sampleLib sampleEnv 1
    (passwordChange "guess" "NewPass1") [alice, bob] alice (by decide) (by decide)
  have hgood := updatePassword_requires_current sampleLib sampleEnv 1
    (passwordChange "Secret1" "NewPass1") [alice, bob] alice (by decide) (by decide)
  ⟨(hbad.2.1 "guess" "NewPass1" rfl (by decide) (by decide) (by decide)).1,
    (hgood.2.2.2 "Secret1" "NewPass1" rfl (by decide) (by decide) (by decide) rfl).1,
    (hgood.2.2.2 "Secret1" "NewPass1" rfl (by decide) (by decide) (by decide) rfl).2.2⟩

/-! ## Detection -/

theorem isR2Configured_eq_false_iff (env : DetectEnv) :
    isR2Configured env = false ↔
      missingOrEmpty env.r2Endpoint ∨ missingOrEmpty env.r2AccessKeyId ∨
      missingOrEmpty env.r2SecretAccessKey ∨ missingOrEmpty env.r2BucketName ∨
      missingOrEmpty env.r2PublicUrl := by
  simp only [← truthy_eq_false_iff, isR2Configured, Bool.and_eq_false_iff, or_assoc]

theorem uploadToR2_files (env : DetectEnv) (w w1 : Sys) (p n : String) (r : R2Result)
    (h : uploadToR2 env w p n = .ok (r, w1)) :
    w1.files = w.files ∧ w1.detections = w.detections ∧ p ∈ w.files ∧
      r.key = "uploads/" ++ toString env.now ++ "-" ++ n ∧
      r.url = env.r2PublicUrl.getD "undefined" ++ "/" ++ r.key := by
  unfold uploadToR2 at h
  by_cases hp : p ∉ w.files
  · simp [hp] at h
  · by_cases hs : env.r2SendFails = true
    · simp [hp, hs] at h
    · simp only [hp, hs, if_false, Bool.false_eq_true] at h
      have h2 := Except.ok.inj h
      have hr : r = _ := (congrArg Prod.fst h2).symm
      have hw : w1 = _ := (congrArg Prod.snd h2).symm
      subst hr hw
      exact ⟨rfl, rfl, not_not.mp hp, rfl, rfl⟩

theorem storeImage_not_configured (env : DetectEnv) (f : UploadedFile) (w : Sys)
    (h : isR2Configured env = false) :
    storeImage env f w =
      { imageUrl := "/uploads/" ++ f.filename, r2Key := none, storageType := "local",
        sys := w, log := [], calls := [] } := by
  simp [storeImage, h]

theorem storeImage_upload_failed (env : DetectEnv) (f : UploadedFile) (w : Sys) (e : String)
    (h : isR2Configured env = true) (hu : uploadToR2 env w f.path f.filename = .error e) :
    storeImage env f w =
      { imageUrl := "/uploads/" ++ f.filename, r2Key := none, storageType := "local",
        sys := w,
        log := ["☁️ Uploading to Cloudflare R2...", "R2 upload error:",
                "⚠️ R2 upload failed, keeping local file:"],
        calls := [.uploadToR2 f.path f.filename] } := by
  simp [storeImage, h, hu]

theorem storeImage_uploaded (env : DetectEnv) (f : UploadedFile) (w w1 : Sys) (r : R2Result)
    (h : isR2Configured env = true) (hu : uploadToR2 env w f.path f.filename = .ok (r, w1)) :
    (storeImage env f w).imageUrl = r.url ∧ (storeImage env f w).r2Key = some r.key ∧
      (storeImage env f w).storageType = "r2" ∧
      (storeImage env f w).calls = [.uploadToR2 f.path f.filename, .unlink f.path] ∧
      (storeImage env f w).sys.detections = w.detections ∧
      (env.unlinkFails = false →
        (storeImage env f w).sys.files = w.files.filter (fun q => q ≠ f.path)) ∧
      (env.unlinkFails = true → (storeImage env f w).sys.files = w.files) := by
  obtain ⟨hfiles, hdet, hmem, -, -⟩ := uploadToR2_files env w w1 f.path f.filename r hu
  cases hul : env.unlinkFails with
  | false =>
    have hun : unlinkSync env f.path w1.files = some (w.files.filter (fun q => q ≠ f.path)) := by
      simp [unlinkSync, hfiles, hmem, hul]
    simp [storeImage, h, hu, hun, hdet]
  | true =>
    have hun : unlinkSync env f.path w.files = none := by
      simp [unlinkSync, hul]
    simp [storeImage, h, hu, hun, hdet, hfiles]

theorem storeImage_cases (env : DetectEnv) (f : UploadedFile) (w : Sys) :
    (isR2Configured env = false ∨
        (isR2Configured env = true ∧ ∃ e, uploadToR2 env w f.path f.filename = .error e)) ∨
      ∃ r, uploadedToR2 env f w r := by
  cases hc : isR2Configured env with
  | false => exact Or.inl (Or.inl rfl)
  | true =>
    cases hu : uploadToR2 env w f.path f.filename with
    | error e => exact Or.inl (Or.inr ⟨rfl, e, rfl⟩)
    | ok rw => exact Or.inr ⟨rw.1, hc, rw.2, hu⟩

theorem storeImage_local (env : DetectEnv) (f : UploadedFile) (w : Sys)
    (h : isR2Configured env = false ∨
      (isR2Configured env = true ∧ ∃ e, uploadToR2 env w f.path f.filename = .error e)) :
    (storeImage env f w).imageUrl = "/uploads/" ++ f.filename ∧
      (storeImage env f w).r2Key = none ∧ (storeImage env f w).storageType = "local" ∧
      (storeImage env f w).sys = w ∧ Call.unlink f.path ∉ (storeImage env f w).calls := by
  rcases h with h | ⟨h, e, he⟩
  · rw [storeImage_not_configured env f w h]
    simp
  · rw [storeImage_upload_failed env f w e h he]
    simp

theorem detectImage_failed_eq (env : DetectEnv) (f : UploadedFile) (w : Sys) (message : String)
    (hfail : env.detection = .error message) (hpath : f.path ≠ "") :
    detectImage env (some f) w =
      { sys := { w with files := (unlinkSync env f.path w.files).getD w.files },
        res := { status := 500, success := false,
                 error := some (if message ≠ "" then message else "Detection failed"),
                 data := none },
        log := ["📤 Processing image: " ++ f.originalname, "Detection error:"],
        calls := [.runDetection f.path, .unlink f.path, .respond 500] } := by
  simp [detectImage, hfail, hpath]

theorem detectImage_ok_eq (env : DetectEnv) (f : UploadedFile) (w : Sys) (result : ModelResult)
    (hok : env.detection = .ok result) :
    detectImage env (some f) w =
      if env.saveFails then
        { sys := (storeImage env f w).sys,
          res := { status := 200, success := true, error := none,
                   data := some (detectData f result (storeImage env f w) none) },
          log := ["📤 Processing image: " ++ f.originalname] ++ (storeImage env f w).log ++
            ["⚠️  Could not save to database:"],
          calls := [.runDetection f.path] ++ (storeImage env f w).calls ++
            [.save, .respond 200] }
      else
        { sys := { (storeImage env f w).sys with
                   detections := (storeImage env f w).sys.detections ++
                     [builtDetection env f result w] },
          res := { status := 200, success := true, error := none,
                   data := some (detectData f result (storeImage env f w) (some env.newId)) },
          log := ["📤 Processing image: " ++ f.originalname] ++ (storeImage env f w).log,
          calls := [.runDetection f.path] ++ (storeImage env f w).calls ++
            [.save, .respond 200] } := by
  simp [detectImage, hok, builtDetection, buildDetection]

theorem storeImage_detections (env : DetectEnv) (f : UploadedFile) (w : Sys) :
    (storeImage env f w).sys.detections = w.detections := by
  rcases storeImage_cases env f w with h | ⟨r, hc, w1, hu⟩
  · rw [(storeImage_local env f w h).2.2.2.1]
  · exact (storeImage_uploaded env f w w1 r hc hu).2.2.2.2.1

/-- Claim C17: when runDetection fails for an upload with a file path, detectImage calls
the model, then tries to unlink the uploaded file, and only then answers, with status 500
and success false; it uploads nothing to R2 and saves no Detection; the file is gone when
the unlink goes through and is left when the unlink throws, and the response is the same
either way. -/
theorem detectImage_model_failure_cleanup (env : DetectEnv) (f : UploadedFile) (w : Sys)
    (message : String) (hfail : env.detection = .error message) (hpath : f.path ≠ "") :
    (detectImage env (some f) w).calls =
      [.runDetection f.path, .unlink f.path, .respond 500] ∧
    (detectImage env (some f) w).res.status = 500 ∧
    (detectImage env (some f) w).res.success = false ∧
    (detectImage env (some f) w).res.error =
      some (if message ≠ "" then message else "Detection failed") ∧
    (detectImage env (some f) w).sys.bucket = w.bucket ∧
    (detectImage env (some f) w).sys.detections = w.detections ∧
    (f.path ∈ w.files → env.unlinkFails = false →
      (detectImage env (some f) w).sys.files = w.files.filter (fun q => q ≠ f.path)) ∧
    (f.path ∉ w.files ∨ env.unlinkFails = true →
      (detectImage env (some f) w).sys.files = w.files) ∧
    (∀ (env2 : DetectEnv) (w2 : Sys), env2.detection = .error message →
      (detectImage env2 (some f) w2).res = (detectImage env (some f) w).res) := by
  rw [detectImage_failed_eq env f w message hfail hpath]
  refine ⟨rfl, rfl, rfl, rfl, rfl, rfl, ?_, ?_, ?_⟩
  · intro hmem hul
    simp [unlinkSync, hmem, hul]
  · intro h
    have hun : unlinkSync env f.path w.files = none := by
      rcases h with h | h
      · simp [unlinkSync, h]
      · simp [unlinkSync, h]
    simp [hun]
  · intro env2 w2 h2
    rw [detectImage_failed_eq env2 f w2 message h2 hpath]

/-- Witness for C17: the model fails with R2 configured; the file is unlinked, or left when
the unlink throws, and the response does not change. -/
theorem detectImage_model_failure_cleanup_witness :
    (detectImage { r2Env with detection := .error "model crashed" } (some photo)
        uploadedSys).sys = { uploadedSys with files := [] } ∧
    (detectImage { r2Env with detection := .error "model crashed", unlinkFails := true }
        (some photo) uploadedSys).res =
      (detectImage { r2Env with detection := .error "model crashed" } (some photo)
        uploadedSys).res ∧
    (detectImage { r2Env with detection := .error "model crashed" } (some photo)
        uploadedSys).res.status = 500 :=
  have h := detectImage_model_failure_cleanup
    { r2Env with detection := .error "model crashed" } photo uploadedSys "model crashed" rfl
    (by decide)
  ⟨by decide,
    h.2.2.2.2.2.2.2.2 { r2Env with detection := .error "model crashed", unlinkFails := true }
      uploadedSys rfl,
    h.2.1⟩

theorem detectImage_ok_facts (env : DetectEnv) (f : UploadedFile) (w : Sys)
    (result : ModelResult) (hok : env.detection = .ok result) :
    (detectImage env (some f) w).sys.files = (storeImage env f w).sys.files ∧
    (detectImage env (some f) w).res.status = 200 ∧
    (detectImage env (some f) w).res.success = true ∧
    (detectImage env (some f) w).calls =
      [.runDetection f.path] ++ (storeImage env f w).calls ++ [.save, .respond 200] ∧
    (env.saveFails = true →
      (detectImage env (some f) w).res.data =
          some (detectData f result (storeImage env f w) none) ∧
        (detectImage env (some f) w).sys.detections = w.detections) ∧
    (env.saveFails = false →
      (detectImage env (some f) w).res.data =
          some (detectData f result (storeImage env f w) (some env.newId)) ∧
        (detectImage env (some f) w).sys.detections =
          w.detections ++ [builtDetection env f result w]) := by
  rw [detectImage_ok_eq env f w result hok]
  cases hs : env.saveFails with
  | true => simp [storeImage_detections]
  | false => simp [storeImage_detections]

theorem unlink_mem_calls_iff (env : DetectEnv) (f : UploadedFile) (w : Sys) :
    Call.unlink f.path ∈ (storeImage env f w).calls ↔ ∃ r, uploadedToR2 env f w r := by
  constructor
  · intro h
    rcases storeImage_cases env f w with hl | hr
    · exact absurd h (storeImage_local env f w hl).2.2.2.2
    · exact hr
  · rintro ⟨r, hc, w1, hu⟩
    rw [(storeImage_uploaded env f w w1 r hc hu).2.2.2.1]
    simp

theorem not_local_of_uploaded (env : DetectEnv) (f : UploadedFile) (w : Sys) (r : R2Result)
    (h : uploadedToR2 env f w r) :
    ¬ (isR2Configured env = false ∨
      (isR2Configured env = true ∧ ∃ e, uploadToR2 env w f.path f.filename = .error e)) := by
  obtain ⟨hc, w1, hu⟩ := h
  rintro (h | ⟨-, e, he⟩)
  · rw [hc] at h
    exact Bool.noConfusion h
  · rw [hu] at he
    exact Except.noConfusion he

/-- Claim C18: when the model call succeeds, the storage type recorded and returned is "r2",
with the URL and key that uploadToR2 returned, exactly when R2 is configured and uploadToR2
succeeded; the local file is unlinked only in that case. When R2 is not configured (one of
the five R2 variables unset or empty) or the upload fails, the storage type is "local", the
image URL is "/uploads/<filename>", r2Key is null and the local files are as before. The
response is success true in every case. -/
theorem detectImage_storage_choice (env : DetectEnv) (f : UploadedFile) (w : Sys)
    (result : ModelResult) (hok : env.detection = .ok result) :
    (detectImage env (some f) w).res.success = true ∧
    (∃ d, (detectImage env (some f) w).res.data = some d ∧
      d.storageType = (builtDetection env f result w).storageType ∧
      d.imageUrl = (builtDetection env f result w).imageUrl) ∧
    ((builtDetection env f result w).storageType = "r2" ↔ ∃ r, uploadedToR2 env f w r) ∧
    (∀ r, uploadedToR2 env f w r →
      (builtDetection env f result w).storageType = "r2" ∧
      (builtDetection env f result w).imageUrl = r.url ∧
      (builtDetection env f result w).r2Key = some r.key) ∧
    ((detectImage env (some f) w).sys.files ≠ w.files → ∃ r, uploadedToR2 env f w r) ∧
    (Call.unlink f.path ∈ (detectImage env (some f) w).calls ↔
      ∃ r, uploadedToR2 env f w r) ∧
    ((∃ r, uploadedToR2 env f w r) → env.unlinkFails = false →
      (detectImage env (some f) w).sys.files = w.files.filter (fun q => q ≠ f.path)) ∧
    (isR2Configured env = false ∨
        (isR2Configured env = true ∧ ∃ e, uploadToR2 env w f.path f.filename = .error e) →
      (builtDetection env f result w).storageType = "local" ∧
      (builtDetection env f result w).imageUrl = "/uploads/" ++ f.filename ∧
      (builtDetection env f result w).r2Key = none ∧
      (detectImage env (some f) w).sys.files = w.files) ∧
    (isR2Configured env = false ↔
      missingOrEmpty env.r2Endpoint ∨ missingOrEmpty env.r2AccessKeyId ∨
      missingOrEmpty env.r2SecretAccessKey ∨ missingOrEmpty env.r2BucketName ∨
      missingOrEmpty env.r2PublicUrl) := by
  obtain ⟨hfiles, -, hsucc, hcalls, hsf, hss⟩ := detectImage_ok_facts env f w result hok
  have hdata : ∃ d, (detectImage env (some f) w).res.data = some d ∧
      d.storageType = (builtDetection env f result w).storageType ∧
      d.imageUrl = (builtDetection env f result w).imageUrl := by
    cases hs : env.saveFails with
    | true => exact ⟨_, (hsf hs).1, rfl, rfl⟩
    | false => exact ⟨_, (hss hs).1, rfl, rfl⟩
  have hup : ∀ r, uploadedToR2 env f w r →
      (builtDetection env f result w).storageType = "r2" ∧
      (builtDetection env f result w).imageUrl = r.url ∧
      (builtDetection env f result w).r2Key = some r.key := by
    rintro r ⟨hc, w1, hu⟩
    obtain ⟨h1, h2, h3, -⟩ := storeImage_uploaded env f w w1 r hc hu
    exact ⟨h3, h1, h2⟩
  have hloc : isR2Configured env = false ∨
      (isR2Configured env = true ∧ ∃ e, uploadToR2 env w f.path f.filename = .error e) →
      (builtDetection env f result w).storageType = "local" ∧
      (builtDetection env f result w).imageUrl = "/uploads/" ++ f.filename ∧
      (builtDetection env f result w).r2Key = none ∧
      (detectImage env (some f) w).sys.files = w.files := by
    intro h
    obtain ⟨h1, h2, h3, h4, -⟩ := storeImage_local env f w h
    exact ⟨h3, h1, h2, by rw [hfiles, h4]⟩
  refine ⟨hsucc, hdata, ⟨?_, fun ⟨r, hr⟩ => (hup r hr).1⟩, hup, ?_, ?_, ?_, hloc,
    isR2Configured_eq_false_iff env⟩
  · intro h
    rcases storeImage_cases env f w with hl | hr
    · rw [(hloc hl).1] at h
      exact absurd h (by decide)
    · exact hr
  · intro h
    rcases storeImage_cases env f w with hl | hr
    · exact absurd (hloc hl).2.2.2 h
    · exact hr
  · rw [hcalls, ← unlink_mem_calls_iff]
    simp
  · rintro ⟨r, hc, w1, hu⟩ hul
    rw [hfiles]
    exact (storeImage_uploaded env f w w1 r hc hu).2.2.2.2.2.1 hul

/-- Witness for C18: with R2 configured the sample upload is recorded as "r2" and the local
file is unlinked; without configuration it is recorded as "local" and the file stays. -/
theorem detectImage_storage_choice_witness :
    (builtDetection r2Env photo fakeResult uploadedSys).storageType = "r2" ∧
    (detectImage r2Env (some photo) uploadedSys).sys.files = [] ∧
    (builtDetection localEnv photo fakeResult uploadedSys).storageType = "local" ∧
    (builtDetection localEnv photo fakeResult uploadedSys).imageUrl = "/uploads/1700-cat.png" ∧
    (detectImage localEnv (some photo) uploadedSys).sys.files = ["uploads/1700-cat.png"] :=
  have hr := detectImage_storage_choice r2Env photo uploadedSys fakeResult rfl
  have hl := detectImage_storage_choice localEnv photo uploadedSys fakeResult rfl
  have hup : uploadedToR2 r2Env photo uploadedSys
      { success := true, key := "uploads/1000-1700-cat.png",
        url := "https://cdn.example/uploads/1000-1700-cat.png", fileName := "1700-cat.png" } :=
    ⟨by decide, { uploadedSys with bucket := ["uploads/1000-1700-cat.png"] }, by rfl⟩
  have hloc := hl.2.2.2.2.2.2.2.1 (Or.inl (by decide))
  ⟨(hr.2.2.2.1 _ hup).1, hr.2.2.2.2.2.2.1 ⟨_, hup⟩ rfl, hloc.1, hloc.2.1, hloc.2.2.2⟩

/-- Claim C19: the document detectImage builds has exactly one of imagePath and r2Key set,
in agreement with its storage type, which is "local" or "r2": "local" goes with imagePath =
"/uploads/<filename>" and r2Key null, "r2" goes with imagePath null and r2Key the key that
uploadToR2 returned; and the only document detectImage ever adds to the collection is this
one. -/
theorem builtDetection_storage_descriptor (env : DetectEnv) (f : UploadedFile) (w : Sys)
    (result : ModelResult) :
    ((builtDetection env f result w).storageType = "local" ∨
      (builtDetection env f result w).storageType = "r2") ∧
    ((builtDetection env f result w).imagePath.isSome ≠
      (builtDetection env f result w).r2Key.isSome) ∧
    ((builtDetection env f result w).storageType = "local" →
      (builtDetection env f result w).imagePath = some ("/uploads/" ++ f.filename) ∧
      (builtDetection env f result w).r2Key = none) ∧
    ((builtDetection env f result w).storageType = "r2" →
      (builtDetection env f result w).imagePath = none ∧
      ∃ r, uploadedToR2 env f w r ∧ (builtDetection env f result w).r2Key = some r.key) ∧
    (∀ file : Option UploadedFile,
      (detectImage env file w).sys.detections = w.detections ∨
      ∃ g result2, file = some g ∧ env.detection = .ok result2 ∧
        (detectImage env file w).sys.detections =
          w.detections ++ [builtDetection env g result2 w]) := by
  have hadd : ∀ file : Option UploadedFile,
      (detectImage env file w).sys.detections = w.detections ∨
      ∃ g result2, file = some g ∧ env.detection = .ok result2 ∧
        (detectImage env file w).sys.detections =
          w.detections ++ [builtDetection env g result2 w] := by
    intro file
    cases file with
    | none => exact Or.inl rfl
    | some g =>
      cases hd : env.detection with
      | error message =>
        left
        simp only [detectImage, hd]
        split <;> rfl
      | ok result2 =>
        obtain ⟨-, -, -, -, hsf, hss⟩ := detectImage_ok_facts env g w result2 hd
        cases hs : env.saveFails with
        | true => exact Or.inl (hsf hs).2
        | false => exact Or.inr ⟨g, result2, rfl, rfl, (hss hs).2⟩
  rcases storeImage_cases env f w with hl | ⟨r, hc, w1, hu⟩
  · obtain ⟨h1, h2, h3, -, -⟩ := storeImage_local env f w hl
    have ht : (builtDetection env f result w).storageType = "local" := h3
    have hp : (builtDetection env f result w).imagePath = some ("/uploads/" ++ f.filename) := by
      simp [builtDetection, buildDetection, h3]
    have hk : (builtDetection env f result w).r2Key = none := h2
    refine ⟨Or.inl ht, by simp [hp, hk], fun _ => ⟨hp, hk⟩, ?_, hadd⟩
    intro h
    rw [ht] at h
    exact absurd h (by decide)
  · obtain ⟨h1, h2, h3, -⟩ := storeImage_uploaded env f w w1 r hc hu
    have ht : (builtDetection env f result w).storageType = "r2" := h3
    have hp : (builtDetection env f result w).imagePath = none := by
      simp [builtDetection, buildDetection, h3]
    have hk : (builtDetection env f result w).r2Key = some r.key := h2
    refine ⟨Or.inr ht, by simp [hp, hk], ?_, fun _ => ⟨hp, r, ⟨hc, w1, hu⟩, hk⟩, hadd⟩
    intro h
    rw [ht] at h
    exact absurd h (by decide)

/-- Witness for C19: the document built for the sample upload with R2 configured. -/
theorem builtDetection_storage_descriptor_witness :
    (builtDetection r2Env photo fakeResult uploadedSys).storageType = "r2" ∧
    (builtDetection r2Env photo fakeResult uploadedSys).imagePath = none ∧
    (builtDetection r2Env photo fakeResult uploadedSys).r2Key =
      some "uploads/1000-1700-cat.png" ∧
    (builtDetection r2Env photo fakeResult uploadedSys).imagePath.isSome ≠
      (builtDetection r2Env photo fakeResult uploadedSys).r2Key.isSome :=
  have h := builtDetection_storage_descriptor r2Env photo uploadedSys fakeResult
  ⟨by decide, (h.2.2.2.1 (by decide)).1, by decide, h.2.1⟩

/-- Claim C20: when the model call succeeds and the save of the Detection fails, detectImage
still answers success true with the prediction, confidence, raw score and processing time of
the model and with id null, and the collection is as before; when the save goes through,
the collection gains the built document and id is the id of that document. -/
theorem detectImage_save_best_effort (env : DetectEnv) (f : UploadedFile) (w : Sys)
    (result : ModelResult) (hok : env.detection = .ok result) :
    (detectImage env (some f) w).res.status = 200 ∧
    (detectImage env (some f) w).res.success = true ∧
    (∃ d, (detectImage env (some f) w).res.data = some d ∧
      d.prediction = result.prediction ∧ d.confidence = result.confidence ∧
      d.rawScore = result.raw_score ∧ d.processingTime = result.processingTime ∧
      (env.saveFails = true →
        d.id = none ∧ (detectImage env (some f) w).sys.detections = w.detections) ∧
      (env.saveFails = false →
        (detectImage env (some f) w).sys.detections =
          w.detections ++ [builtDetection env f result w] ∧
        d.id = some (builtDetection env f result w)._id)) := by
  obtain ⟨-, hstatus, hsucc, -, hsf, hss⟩ := detectImage_ok_facts env f w result hok
  refine ⟨hstatus, hsucc, ?_⟩
  cases hs : env.saveFails with
  | true =>
    exact ⟨_, (hsf hs).1, rfl, rfl, rfl, rfl, fun _ => ⟨rfl, (hsf hs).2⟩,
      fun h => Bool.noConfusion h⟩
  | false =>
    exact ⟨_, (hss hs).1, rfl, rfl, rfl, rfl, fun h => Bool.noConfusion h,
      fun _ => ⟨(hss hs).2, rfl⟩⟩

/-- Witness for C20: the sample upload when the database refuses the save. -/
theorem detectImage_save_best_effort_witness :
    (detectImage { localEnv with saveFails := true } (some photo) uploadedSys).res.success
      = true ∧
    (detectImage { localEnv with saveFails := true } (some photo) uploadedSys).sys.detections
      = [] ∧
    ∃ d, (detectImage { localEnv with saveFails := true } (some photo) uploadedSys).res.data
        = some d ∧
      d.prediction = "fake" ∧ d.confidence = 92.3 ∧ d.id = none :=
  have h := detectImage_save_best_effort { localEnv with saveFails := true } photo uploadedSys
    fakeResult rfl
  have ⟨d, hd, hp, hc, _, _, hfail, _⟩ := h.2.2
  ⟨h.2.1, (hfail rfl).2, d, hd, hp, hc, (hfail rfl).1⟩

theorem detectData_message_iff (f : UploadedFile) (result : ModelResult) (st : Stored)
    (id : Option Nat) :
    ((detectData f result st id).isFake = true ↔ result.prediction = "fake") ∧
    ((detectData f result st id).message = "⚠️ This image appears to be a DEEPFAKE!" ↔
      (detectData f result st id).isFake = true) := by
  by_cases h : result.prediction = "fake"
  · simp [detectData, h]
  · have hne : ("✅ This image appears to be AUTHENTIC" : String) ≠
        "⚠️ This image appears to be a DEEPFAKE!" := by decide
    simp [detectData, h, hne]

/-- Claim C21: for a model result r, the document detectImage builds, and saves when the
save goes through, has the prediction and the confidence of r; the response carries the same
prediction and confidence; isFake is true exactly when the prediction of r is "fake", and the
message is the deepfake warning exactly when isFake is true. -/
theorem detectImage_reports_model_result (env : DetectEnv) (f : UploadedFile) (w : Sys)
    (r : ModelResult) (hok : env.detection = .ok r) :
    (builtDetection env f r w).prediction = r.prediction ∧
    (builtDetection env f r w).confidence = r.confidence ∧
    (env.saveFails = false →
      ∃ d : Detection, (detectImage env (some f) w).sys.detections = w.detections ++ [d] ∧
        d.prediction = r.prediction ∧ d.confidence = r.confidence) ∧
    (∃ data, (detectImage env (some f) w).res.data = some data ∧
      data.prediction = r.prediction ∧ data.confidence = r.confidence ∧
      (data.isFake = true ↔ r.prediction = "fake") ∧
      (data.message = "⚠️ This image appears to be a DEEPFAKE!" ↔ data.isFake = true)) := by
  obtain ⟨-, -, -, -, hsf, hss⟩ := detectImage_ok_facts env f w r hok
  refine ⟨rfl, rfl, fun hs => ⟨_, (hss hs).2, rfl, rfl⟩, ?_⟩
  cases hs : env.saveFails with
  | true =>
    exact ⟨_, (hsf hs).1, rfl, rfl, (detectData_message_iff f r _ _).1,
      (detectData_message_iff f r _ _).2⟩
  | false =>
    exact ⟨_, (hss hs).1, rfl, rfl, (detectData_message_iff f r _ _).1,
      (detectData_message_iff f r _ _).2⟩

/-- Witness for C21: the model answers "fake" with confidence 92.3. -/
theorem detectImage_reports_model_result_witness :
    (∃ d : Detection, (detectImage localEnv (some photo) uploadedSys).sys.detections =
        uploadedSys.detections ++ [d] ∧ d.prediction = "fake" ∧ d.confidence = 92.3) ∧
    (∃ data, (detectImage localEnv (some photo) uploadedSys).res.data = some data ∧
      data.prediction = "fake" ∧ data.confidence = 92.3 ∧ data.isFake = true ∧
      data.message = "⚠️ This image appears to be a DEEPFAKE!") :=
  have h := detectImage_reports_model_result localEnv photo uploadedSys fakeResult rfl
  have ⟨data, hd, hp, hc, hf, hm⟩ := h.2.2.2
  ⟨h.2.2.1 rfl, data, hd, hp, hc, hf.mpr rfl, hm.mpr (hf.mpr rfl)⟩

/-! ## Arithmetic of doubles -/

theorem pow2_eq (k : Nat) : pow2 k = 2 ^ k := by
  simp [pow2, Nat.shiftLeft_eq]

theorem log2Aux_spec (fuel : Nat) : ∀ n, n ≤ fuel → 1 ≤ n →
    2 ^ log2Aux fuel n ≤ n ∧ n < 2 ^ (log2Aux fuel n + 1) := by
  induction fuel with
  | zero => intro n h0 h1; omega
  | succ fuel ih =>
    intro n hn h1
    unfold log2Aux
    by_cases h2 : n < 2
    · rw [if_pos h2]
      simp only [pow_zero, zero_add, pow_one]
      omega
    · rw [if_neg h2]
      obtain ⟨ih1, ih2⟩ := ih (n / 2) (by omega) (by omega)
      rw [pow_succ, pow_succ]
      rw [pow_succ] at ih2
      constructor <;> omega

theorem log2_spec (n : Nat) (h : 1 ≤ n) : 2 ^ log2 n ≤ n ∧ n < 2 ^ (log2 n + 1) :=
  log2Aux_spec n n (le_refl n) h

theorem roundNat_of_lt (n : Nat) (h : n < 2 ^ 53) : roundNat n = some n := by
  unfold roundNat
  rw [pow2_eq, if_pos h]

theorem le_log2 (n k : Nat) (h : 2 ^ k ≤ n) : k ≤ log2 n := by
  have h1 : 1 ≤ n := le_trans Nat.one_le_two_pow h
  have h2 := (log2_spec n h1).2
  have h3 : 2 ^ k < 2 ^ (log2 n + 1) := lt_of_le_of_lt h h2
  have := (Nat.pow_lt_pow_iff_right (by decide : 1 < 2)).mp h3
  omega

theorem log2_lt (n k : Nat) (h1 : 1 ≤ n) (h : n < 2 ^ k) : log2 n < k := by
  have h2 := (log2_spec n h1).1
  have h3 : 2 ^ log2 n < 2 ^ k := lt_of_le_of_lt h2 h
  exact (Nat.pow_lt_pow_iff_right (by decide : 1 < 2)).mp h3

theorem roundNat_big (n : Nat) (hn : 2 ^ 53 ≤ n) :
    ∃ m1, 2 ^ 52 ≤ m1 ∧ 1 ≤ log2 n - 52 ∧
      roundNat n = if pow2 1024 ≤ m1 * 2 ^ (log2 n - 52) then none
        else some (m1 * 2 ^ (log2 n - 52)) := by
  have hlog : 53 ≤ log2 n := le_log2 n 53 hn
  have hspec := (log2_spec n (le_trans Nat.one_le_two_pow hn)).1
  have hm : 2 ^ 52 ≤ n / 2 ^ (log2 n - 52) := by
    rw [Nat.le_div_iff_mul_le (Nat.two_pow_pos _), ← pow_add]
    have : 52 + (log2 n - 52) = log2 n := by omega
    rw [this]
    exact hspec
  refine ⟨if 2 ^ (log2 n - 52 - 1) < n % 2 ^ (log2 n - 52) ∨
            (n % 2 ^ (log2 n - 52) = 2 ^ (log2 n - 52 - 1) ∧
              n / 2 ^ (log2 n - 52) % 2 = 1) then
          n / 2 ^ (log2 n - 52) + 1 else n / 2 ^ (log2 n - 52), ?_, by omega, ?_⟩
  · split <;> omega
  · unfold roundNat
    rw [pow2_eq 53, if_neg (by omega)]
    simp only [pow2_eq (log2 n - 52), pow2_eq (log2 n - 52 - 1)]

theorem roundNat_some_lt (n r : Nat) (h : roundNat n = some r) : r < pow2 1024 := by
  by_cases h1 : n < 2 ^ 53
  · rw [roundNat_of_lt n h1] at h
    have : n = r := Option.some.inj h
    subst this
    have h53 : 2 ^ 53 ≤ pow2 1024 := by decide
    omega
  · obtain ⟨m1, -, -, hr⟩ := roundNat_big n (by omega)
    rw [hr] at h
    by_cases h2 : pow2 1024 ≤ m1 * 2 ^ (log2 n - 52)
    · rw [if_pos h2] at h
      exact Option.noConfusion h
    · rw [if_neg h2] at h
      have : _ = r := Option.some.inj h
      rw [← this]
      exact Nat.lt_of_not_le h2

theorem roundNat_ge (n r : Nat) (hn : 2 ^ 53 ≤ n) (h : roundNat n = some r) : 2 ^ 53 ≤ r := by
  obtain ⟨m1, hm1, he, hr⟩ := roundNat_big n hn
  rw [hr] at h
  by_cases h2 : pow2 1024 ≤ m1 * 2 ^ (log2 n - 52)
  · rw [if_pos h2] at h
    exact Option.noConfusion h
  · rw [if_neg h2] at h
    have : _ = r := Option.some.inj h
    rw [← this]
    have he2 : 2 ^ 1 ≤ 2 ^ (log2 n - 52) := Nat.pow_le_pow_right (by decide) he
    calc 2 ^ 53 = 2 ^ 52 * 2 ^ 1 := by norm_num
      _ ≤ _ := Nat.mul_le_mul hm1 he2

theorem ceil_round_core (a b t : Nat) (hb1 : 1 ≤ b) (ha1 : 1 ≤ a) (ht : 1 ≤ t)
    (h2t : b < 2 * t) :
    ((if b < 2 * (a * t % b) ∨ (2 * (a * t % b) = b ∧ a * t / b % 2 = 1) then a * t / b + 1
        else a * t / b) + (t - 1)) / t = (a + b - 1) / b := by
  obtain ⟨c, hc⟩ : ∃ c, (a + b - 1) / b = c + 1 := by
    have : 1 ≤ (a + b - 1) / b := by
      rw [Nat.le_div_iff_mul_le (by omega)]
      omega
    exact ⟨(a + b - 1) / b - 1, by omega⟩
  have hdm := Nat.div_add_mod (a + b - 1) b
  have hml := Nat.mod_lt (a + b - 1) (by omega : b > 0)
  rw [hc, Nat.mul_succ] at hdm
  obtain ⟨s, hs⟩ : ∃ s, a = b * c + s := ⟨a - b * c, by omega⟩
  have hs1 : 1 ≤ s := by omega
  have hsb : s ≤ b := by omega
  have hat : a * t = b * (c * t) + s * t := by rw [hs]; ring
  have hm : a * t / b = c * t + s * t / b := by
    rw [hat, Nat.mul_add_div (by omega : b > 0)]
  have hr : a * t % b = s * t % b := by
    rw [hat, Nat.mul_add_mod]
  have huv := Nat.div_add_mod (s * t) b
  have hv := Nat.mod_lt (s * t) (by omega : b > 0)
  have hst : s * t ≤ b * t := Nat.mul_le_mul_right t hsb
  have hts : t ≤ s * t := Nat.le_mul_of_pos_left t (by omega)
  have hu : s * t / b ≤ t := by
    apply Nat.le_of_mul_le_mul_left _ (by omega : 0 < b)
    omega
  have hut : s * t / b = t → s * t % b = 0 := by
    intro h
    rw [h] at huv
    omega
  have hbu0 : s * t / b = 0 → b * (s * t / b) = 0 := fun h => by rw [h, Nat.mul_zero]
  have key : c * t + t ≤
        (if b < 2 * (s * t % b) ∨ (2 * (s * t % b) = b ∧ (c * t + s * t / b) % 2 = 1) then
          c * t + s * t / b + 1 else c * t + s * t / b) + (t - 1) ∧
      (if b < 2 * (s * t % b) ∨ (2 * (s * t % b) = b ∧ (c * t + s * t / b) % 2 = 1) then
          c * t + s * t / b + 1 else c * t + s * t / b) + (t - 1) < c * t + t + t := by
    clear hat hm hr hc hdm hml hs
    generalize s * t / b = u at *
    generalize s * t % b = v at *
    generalize s * t = st at *
    generalize c * t = ct at *
    generalize b * u = bu at *
    generalize b * t = bt at *
    constructor
    · by_cases hu0 : u = 0
      · have := hbu0 hu0
        rw [if_pos (Or.inl (by omega))]
        omega
      · split <;> omega
    · split
      · rename_i hcond
        have hvpos : 0 < v := by
          rcases hcond with h | ⟨h, -⟩ <;> omega
        have : u ≠ t := fun h => by
          have := hut h
          omega
        omega
      · omega
  rw [hc, hm, hr]
  apply Nat.div_eq_of_lt_le
  · have e1 : (c + 1) * t = c * t + t := by ring
    rw [e1]
    exact key.1
  · have e2 : (c + 1 + 1) * t = c * t + t + t := by ring
    rw [e2]
    exact key.2

theorem roundQuotient_ceil (a b : Nat) (ha1 : 1 ≤ a) (ha : a < 2 ^ 53) (hb1 : 1 ≤ b)
    (hb : b < pow2 1024) :
    ceilOf (roundQuotient a b).1 (roundQuotient a b).2 = (a + b - 1) / b := by
  have hla : log2 a < 53 := log2_lt a 53 ha1 ha
  have hlb : b < 2 ^ (log2 b + 1) := (log2_spec b hb1).2
  have hbig : pow2 1024 < 2 * pow2 1074 := by decide
  have hpos : 1 ≤ pow2 1074 := by decide
  unfold roundQuotient ceilOf
  simp only
  generalize he1 : (if a * pow2 (-((log2 a : Int) - (log2 b : Int) - 53)).toNat /
      (b * pow2 ((log2 a : Int) - (log2 b : Int) - 53).toNat) < pow2 53 then
        (log2 a : Int) - (log2 b : Int) - 53 else (log2 a : Int) - (log2 b : Int) - 53 + 1) = e1
  have he1le : e1 ≤ -(log2 b : Int) := by
    rw [← he1]
    split <;> omega
  by_cases hclamp : e1 < -1074
  · rw [if_pos hclamp]
    have h1 : (-(-1074 : Int)).toNat = 1074 := by decide
    have h2 : (-1074 : Int).toNat = 0 := by decide
    have h3 : pow2 0 = 1 := by decide
    rw [h1, h2, h3, Nat.mul_one, Nat.mul_one]
    exact ceil_round_core a b (pow2 1074) hb1 ha1 hpos (by omega)
  · rw [if_neg hclamp]
    obtain ⟨k, hk⟩ : ∃ k : Nat, e1 = -(k : Int) := ⟨(-e1).toNat, by omega⟩
    have hkb : log2 b ≤ k := by omega
    have h1 : (-e1).toNat = k := by omega
    have h2 : e1.toNat = 0 := by omega
    have h3 : pow2 0 = 1 := by decide
    rw [h1, h2, h3, Nat.mul_one, Nat.mul_one, pow2_eq k]
    have hpow : 2 ^ (log2 b + 1) ≤ 2 * 2 ^ k := by
      rw [pow_succ, Nat.mul_comm]
      exact Nat.mul_le_mul_left 2 (Nat.pow_le_pow_right (by decide) hkb)
    exact ceil_round_core a b (2 ^ k) hb1 ha1 Nat.one_le_two_pow (by omega)

theorem ceilDiv_le_iff (a b p : Int) (hb : 0 < b) : ceilDiv a b ≤ p ↔ a ≤ p * b := by
  unfold ceilDiv
  rw [Int.fdiv_eq_ediv _ (le_of_lt hb)]
  constructor
  · intro h
    have h1 : -p ≤ -a / b := by omega
    have h2 := (Int.le_ediv_iff_mul_le hb).mp h1
    have h3 : -p * b = -(p * b) := by ring
    omega
  · intro h
    have h3 : -p * b = -(p * b) := by ring
    have h1 : -p ≤ -a / b := (Int.le_ediv_iff_mul_le hb).mpr (by omega)
    omega

theorem le_ceilDiv_mul (a b : Int) (hb : 0 < b) : a ≤ ceilDiv a b * b :=
  (ceilDiv_le_iff a b (ceilDiv a b) hb).mp (le_refl _)

theorem ceilDiv_natCast (a b : Nat) (hb : 1 ≤ b) :
    ceilDiv (a : Int) (b : Int) = (((a + b - 1) / b : Nat) : Int) := by
  have h1 := Nat.div_add_mod (a + b - 1) b
  have h2 := Nat.mod_lt (a + b - 1) (by omega : b > 0)
  generalize (a + b - 1) / b = c at *
  generalize (a + b - 1) % b = r at *
  have hb0 : (0 : Int) < (b : Int) := by omega
  have hle : ceilDiv (a : Int) (b : Int) ≤ (c : Int) := by
    rw [ceilDiv_le_iff _ _ _ hb0]
    have : a ≤ c * b := by
      rw [Nat.mul_comm]
      omega
    exact_mod_cast this
  have hge : ¬ ceilDiv (a : Int) (b : Int) ≤ (c : Int) - 1 := by
    rw [ceilDiv_le_iff _ _ _ hb0]
    intro h
    have hc1 : 1 ≤ c ∨ c = 0 := by omega
    rcases hc1 with hc1 | hc0
    · have h3 : ((c : Int) - 1) * (b : Int) = (((c - 1) * b : Nat) : Int) := by
        push_cast [Nat.cast_sub hc1]
        ring
      rw [h3] at h
      have h4 : a ≤ (c - 1) * b := by exact_mod_cast h
      have h5 : (c - 1) * b + b = b * c := by
        obtain ⟨c2, rfl⟩ : ∃ c2, c = c2 + 1 := ⟨c - 1, by omega⟩
        simp only [Nat.add_sub_cancel]
        ring
      omega
    · subst hc0
      simp only [Nat.cast_zero, zero_sub, neg_mul, one_mul] at h
      omega
  omega

theorem ceilQuotient_exact (total l : Nat) (ht : total < 2 ^ 53) (hl1 : 1 ≤ l)
    (hl : l < pow2 1024) :
    ceilQuotient total (.fin (l : Int)) = .fin (ceilDiv (total : Int) (l : Int)) := by
  have hl0 : ¬ ((l : Int) = 0) := by omega
  have hneg : ¬ ((l : Int) < 0) := by omega
  have habs : (l : Int).natAbs = l := Int.natAbs_ofNat l
  rw [ceilDiv_natCast total l hl1]
  unfold ceilQuotient
  simp only [roundNat_of_lt total ht, hl0, if_false, hneg, habs]
  by_cases h0 : total = 0
  · subst h0
    have : (0 + l - 1) / l = 0 := Nat.div_eq_of_lt (by omega)
    rw [this]
    rfl
  · rw [if_neg h0, roundQuotient_ceil total l (by omega) ht hl1 hl]

theorem ofInt_natCast_of_lt (n : Nat) (h : n < 2 ^ 53) : Double.ofInt (n : Int) = .fin n := by
  have hneg : ¬ ((n : Int) < 0) := by omega
  unfold Double.ofInt
  rw [Int.natAbs_ofNat, roundNat_of_lt n h]
  simp only [hneg, if_false]

theorem ofInt_natCast_big (n : Nat) (h : 2 ^ 53 ≤ n) :
    Double.ofInt (n : Int) = .inf false ∨
      ∃ r : Nat, Double.ofInt (n : Int) = .fin r ∧ 2 ^ 53 ≤ r := by
  have hneg : ¬ ((n : Int) < 0) := by omega
  unfold Double.ofInt
  rw [Int.natAbs_ofNat]
  cases hr : roundNat n with
  | none =>
    left
    simp [hneg]
  | some r =>
    right
    exact ⟨r, by simp only [hneg, if_false], roundNat_ge n r h hr⟩

theorem ofInt_fin_bound (v l : Int) (h : Double.ofInt v = .fin l) : l.natAbs < pow2 1024 := by
  unfold Double.ofInt at h
  cases hr : roundNat v.natAbs with
  | none =>
    rw [hr] at h
    exact Double.noConfusion h
  | some r =>
    rw [hr] at h
    have hlt := roundNat_some_lt _ _ hr
    have hl : (if v < 0 then -(r : Int) else r) = l := Double.fin.inj h
    rw [← hl]
    split <;> simpa using hlt

theorem pow2_63 : pow2 63 = 9223372036854775808 := by
  decide

theorem Double.ofNat_def (n : Nat) : (OfNat.ofNat n : Double) = .fin (n : Int) :=
  rfl

theorem parseInt_fin_bound (x : Option String) (l : Int) (h : parseInt x = .fin l) :
    l.natAbs < pow2 1024 := by
  unfold parseInt at h
  split at h
  · exact Double.noConfusion h
  · simp only at h
    split at h
    · exact Double.noConfusion h
    · exact ofInt_fin_bound _ _ h

theorem toInt64_ofInt_nat (n : Nat) :
    ∃ k : Nat, toInt64 (Double.ofInt (n : Int)) = (k : Int) ∧ (n < 2 ^ 53 → k = n) ∧
      (2 ^ 53 ≤ n → 2 ^ 53 ≤ k) := by
  by_cases h : n < 2 ^ 53
  · refine ⟨n, ?_, fun _ => rfl, fun h2 => by omega⟩
    rw [ofInt_natCast_of_lt n h]
    simp only [toInt64, pow2_63]
    split
    · omega
    · split <;> omega
  · rcases ofInt_natCast_big n (by omega) with hinf | ⟨r, hr, hbig⟩
    · refine ⟨9223372036854775807, ?_, fun h2 => absurd h2 h, fun _ => by norm_num⟩
      rw [hinf]
      simp only [toInt64, pow2_63]
      norm_num
    · rw [hr]
      by_cases hr2 : r ≤ 9223372036854775807
      · refine ⟨r, ?_, fun h2 => absurd h2 h, fun _ => hbig⟩
        simp only [toInt64, pow2_63]
        split
        · omega
        · split <;> omega
      · refine ⟨9223372036854775807, ?_, fun h2 => absurd h2 h, fun _ => by norm_num⟩
        simp only [toInt64, pow2_63]
        split
        · omega
        · split <;> omega

theorem sub_one_eq (page : Nat) (hp1 : 1 ≤ page) :
    Double.fin (page : Int) - 1 = Double.ofInt ((page - 1 : Nat) : Int) := by
  show Double.sub (.fin page) (.fin ((1 : Nat) : Int)) = _
  unfold Double.sub
  simp only
  congr 1
  omega

theorem skip_exact_or_big (page limit : Nat) (hp1 : 1 ≤ page) (hl1 : 1 ≤ limit) :
    ∃ k : Nat, toInt64 ((Double.fin (page : Int) - 1) * Double.fin (limit : Int)) = (k : Int) ∧
      ((page - 1) * limit < 2 ^ 53 → k = (page - 1) * limit) ∧
      (2 ^ 53 ≤ (page - 1) * limit → 2 ^ 53 ≤ k) := by
  rw [sub_one_eq page hp1]
  have hmul : ∀ x : Nat, Double.fin (x : Int) * Double.fin (limit : Int) =
      Double.ofInt ((x * limit : Nat) : Int) := by
    intro x
    show Double.mul _ _ = _
    unfold Double.mul
    simp only
    congr 1
  have hle : page - 1 ≤ (page - 1) * limit := Nat.le_mul_of_pos_right _ (by omega)
  by_cases h : page - 1 < 2 ^ 53
  · rw [ofInt_natCast_of_lt _ h, hmul]
    exact toInt64_ofInt_nat _
  · rcases ofInt_natCast_big (page - 1) (by omega) with hinf | ⟨r, hr, hbig⟩
    · rw [hinf]
      have hl0 : ¬ ((limit : Int) = 0) := by omega
      have hneg : ¬ ((limit : Int) < 0) := by omega
      have : Double.inf false * Double.fin (limit : Int) = .inf false := by
        show Double.mul _ _ = _
        unfold Double.mul
        simp [hl0, hneg]
      rw [this]
      refine ⟨9223372036854775807, ?_, fun h2 => by omega, fun _ => by norm_num⟩
      simp only [toInt64, pow2_63]
      norm_num
    · rw [hr, hmul]
      obtain ⟨k, hk, -, hk2⟩ := toInt64_ofInt_nat (r * limit)
      have hrl : 2 ^ 53 ≤ r * limit := le_trans hbig (Nat.le_mul_of_pos_right _ (by omega))
      exact ⟨k, hk, fun h2 => by omega, fun _ => hk2 hrl⟩

theorem limit64_eq (limit : Nat) :
    toInt64 (if (Double.fin (limit : Int)).isNegative then -Double.fin (limit : Int)
      else Double.fin (limit : Int)) = ((min limit 9223372036854775807 : Nat) : Int) := by
  have hneg : ¬ ((limit : Int) < 0) := by omega
  simp only [Double.isNegative, hneg, decide_False, Bool.false_eq_true, if_false, toInt64,
    pow2_63]
  split
  · omega
  · split <;> omega

theorem findSorted_of_pos (filter : Option String) (page limit : Nat) (ds : List Detection)
    (hp1 : 1 ≤ page) (hl1 : 1 ≤ limit)
    (hsize : ds.length < 2 ^ 53 ∨ ((page - 1) * limit < 2 ^ 53 ∧ limit < 2 ^ 63)) :
    findSorted filter ((Double.fin (page : Int) - 1) * Double.fin (limit : Int))
        (Double.fin (limit : Int)) ds =
      some (((sortNewestFirst (ds.filter (matchesFilter filter))).drop
        ((page - 1) * limit)).take limit) := by
  obtain ⟨k, hk, hk1, hk2⟩ := skip_exact_or_big page limit hp1 hl1
  have hlen : (sortNewestFirst (ds.filter (matchesFilter filter))).length ≤ ds.length := by
    rw [sortNewestFirst, List.length_insertionSort]
    exact List.length_filter_le _ _
  unfold findSorted
  simp only [hk, limit64_eq]
  have h1 : ¬ ((k : Int) < 0) := by omega
  have h2 : ¬ (((min limit 9223372036854775807 : Nat) : Int) = 0) := by omega
  rw [if_neg h1, if_neg h2, Int.toNat_ofNat, Int.toNat_ofNat]
  congr 1
  generalize sortNewestFirst (ds.filter (matchesFilter filter)) = xs at *
  have hdrop : xs.drop k = xs.drop ((page - 1) * limit) := by
    by_cases hs : (page - 1) * limit < 2 ^ 53
    · rw [hk1 hs]
    · have hkbig := hk2 (by omega)
      have hds : ds.length < 2 ^ 53 := by
        rcases hsize with h | ⟨h, -⟩
        · exact h
        · exact absurd h hs
      rw [List.drop_eq_nil_of_le (by omega), List.drop_eq_nil_of_le (by omega)]
  rw [hdrop]
  by_cases hm : limit ≤ 9223372036854775807
  · rw [Nat.min_eq_left hm]
  · have hds : ds.length < 2 ^ 53 := by
      rcases hsize with h | ⟨-, h⟩
      · exact h
      · omega
    have hdl : (xs.drop ((page - 1) * limit)).length ≤ xs.length := by
      rw [List.length_drop]
      omega
    rw [Nat.min_eq_right (by omega), List.take_of_length_le (by omega),
      List.take_of_length_le (by omega)]

/-! ## History -/

theorem orDefault_cases (n d : Double) :
    ((n = .nan ∨ n = 0) → orDefault n d = d) ∧
      (n ≠ .nan → n ≠ 0 → orDefault n d = n) := by
  cases n with
  | nan => exact ⟨fun _ => rfl, fun h => absurd rfl h⟩
  | inf s => exact ⟨fun h => by rcases h with h | h <;> exact Double.noConfusion h, fun _ _ => rfl⟩
  | fin v =>
    by_cases hv : v = 0
    · subst hv
      exact ⟨fun _ => rfl, fun _ h => absurd rfl h⟩
    · refine ⟨fun h => ?_, fun _ _ => by simp [orDefault, hv]⟩
      rcases h with h | h
      · exact Double.noConfusion h
      · exact absurd (Double.fin.inj h) hv

theorem orDefault_ne (n d : Double) (hd0 : d ≠ 0) (hdn : d ≠ .nan) :
    orDefault n d ≠ 0 ∧ orDefault n d ≠ .nan := by
  by_cases h : n = .nan ∨ n = 0
  · rw [(orDefault_cases n d).1 h]
    exact ⟨hd0, hdn⟩
  · rw [(orDefault_cases n d).2 (fun h1 => h (Or.inl h1)) (fun h1 => h (Or.inr h1))]
    exact ⟨fun h1 => h (Or.inr h1), fun h1 => h (Or.inl h1)⟩

theorem orDefault_of_atLeast (n d : Double) (h : atLeast 1 n) : orDefault n d = n := by
  apply (orDefault_cases n d).2
  · rintro rfl
    exact h
  · rintro rfl
    exact absurd h (by decide)

theorem getHistory_cases (q : HistoryQuery) (w : Sys) :
    (findSorted (historyFilter q.type)
        ((orDefault (parseInt q.page) 1 - 1) * orDefault (parseInt q.limit) 20)
        (orDefault (parseInt q.limit) 20) w.detections = none ∧
      getHistory q w =
        { sys := w, res := historyError 500 "Failed to fetch detection history",
          log := ["History error:"],
          calls := [.find (historyFilter q.type)
                      ((orDefault (parseInt q.page) 1 - 1) * orDefault (parseInt q.limit) 20)
                      (orDefault (parseInt q.limit) 20),
                    .countDocuments (historyFilter q.type), .respond 500] }) ∨
    ∃ detections,
      findSorted (historyFilter q.type)
        ((orDefault (parseInt q.page) 1 - 1) * orDefault (parseInt q.limit) 20)
        (orDefault (parseInt q.limit) 20) w.detections = some detections ∧
      getHistory q w =
        { sys := w,
          res := { status := 200, success := true, error := none, message := none,
                   history := some
                     { detections := detections,
                       pagination :=
                         { page := orDefault (parseInt q.page) 1,
                           limit := orDefault (parseInt q.limit) 20,
                           total := (countDocuments (historyFilter q.type) w.detections : Int),
                           pages := ceilQuotient
                             (countDocuments (historyFilter q.type) w.detections)
                             (orDefault (parseInt q.limit) 20) } },
                   detection := none, stats := none },
          log := [],
          calls := [.find (historyFilter q.type)
                      ((orDefault (parseInt q.page) 1 - 1) * orDefault (parseInt q.limit) 20)
                      (orDefault (parseInt q.limit) 20),
                    .countDocuments (historyFilter q.type), .respond 200] } := by
  unfold getHistory
  cases hf : findSorted (historyFilter q.type)
      ((orDefault (parseInt q.page) 1 - 1) * orDefault (parseInt q.limit) 20)
      (orDefault (parseInt q.limit) 20) w.detections with
  | none => exact Or.inl ⟨rfl, by simp only [hf]⟩
  | some ds => exact Or.inr ⟨ds, rfl, by simp only [hf]⟩

theorem getHistory_of_find (q : HistoryQuery) (w : Sys) (page limit : Double)
    (xs : List Detection) (hp : parseInt q.page = page) (hl : parseInt q.limit = limit)
    (hp1 : atLeast 1 page) (hl1 : atLeast 1 limit)
    (hfind : findSorted (historyFilter q.type) ((page - 1) * limit) limit w.detections =
      some xs) :
    getHistory q w =
      { sys := w,
        res := { status := 200, success := true, error := none, message := none,
                 history := some
                   { detections := xs,
                     pagination :=
                       { page := page, limit := limit,
                         total := (countDocuments (historyFilter q.type) w.detections : Int),
                         pages := ceilQuotient
                           (countDocuments (historyFilter q.type) w.detections) limit } },
                 detection := none, stats := none },
        log := [],
        calls := [.find (historyFilter q.type) ((page - 1) * limit) limit,
                  .countDocuments (historyFilter q.type), .respond 200] } := by
  have hpage : orDefault (parseInt q.page) 1 = page := by
    rw [hp]
    exact orDefault_of_atLeast _ _ hp1
  have hlimit : orDefault (parseInt q.limit) 20 = limit := by
    rw [hl]
    exact orDefault_of_atLeast _ _ hl1
  rcases getHistory_cases q w with ⟨hnone, -⟩ | ⟨ds, hsome, he⟩
  · rw [hpage, hlimit, hfind] at hnone
    exact Option.noConfusion hnone
  · rw [hpage, hlimit, hfind] at hsome
    have hds : xs = ds := Option.some.inj hsome
    subst hds
    rw [he, hpage, hlimit]

theorem countDocuments_le (filter : Option String) (ds : List Detection) :
    countDocuments filter ds ≤ ds.length :=
  List.length_filter_le _ _

theorem getHistory_of_pos (q : HistoryQuery) (w : Sys) (page limit : Nat)
    (hp : parseInt q.page = .fin (page : Int)) (hl : parseInt q.limit = .fin (limit : Int))
    (hp1 : 1 ≤ page) (hl1 : 1 ≤ limit) (hsize : w.detections.length < 2 ^ 53) :
    getHistory q w =
      { sys := w,
        res := { status := 200, success := true, error := none, message := none,
                 history := some
                   { detections := ((newestFirst q.type w).drop ((page - 1) * limit)).take limit,
                     pagination :=
                       { page := .fin (page : Int), limit := .fin (limit : Int),
                         total := (countDocuments (historyFilter q.type) w.detections : Int),
                         pages := .fin (ceilDiv
                           (countDocuments (historyFilter q.type) w.detections : Int)
                           (limit : Int)) } },
                 detection := none, stats := none },
        log := [],
        calls := [.find (historyFilter q.type)
                    ((Double.fin (page : Int) - 1) * Double.fin (limit : Int))
                    (.fin (limit : Int)),
                  .countDocuments (historyFilter q.type), .respond 200] } := by
  have hbound : limit < pow2 1024 := by
    have := parseInt_fin_bound _ _ hl
    rwa [Int.natAbs_ofNat] at this
  have hcount := countDocuments_le (historyFilter q.type) w.detections
  rw [getHistory_of_find q w _ _ _ hp hl (by show (1 : Int) ≤ page; omega)
    (by show (1 : Int) ≤ limit; omega)
    (findSorted_of_pos (historyFilter q.type) page limit w.detections hp1 hl1 (Or.inl hsize)),
    ceilQuotient_exact _ limit (by omega) hl1 hbound]
  rfl

theorem sub_one_mul_inf (page limit : Double) (hp1 : atLeast 1 page) (hl1 : atLeast 1 limit)
    (h : page = .inf false ∨ (limit = .inf false ∧ page ≠ 1)) :
    (page - 1) * limit = .inf false := by
  have hinfmul : Double.inf false * limit = .inf false := by
    show Double.mul _ _ = _
    cases limit with
    | nan => exact absurd hl1 (by simp [atLeast])
    | inf t =>
      have ht : t = false := hl1
      subst ht
      rfl
    | fin l =>
      have hl : (1 : Int) ≤ l := hl1
      have h0 : ¬ l = 0 := by omega
      have hneg : ¬ l < 0 := by omega
      unfold Double.mul
      simp [h0, hneg]
  cases page with
  | nan => exact absurd hp1 (by simp [atLeast])
  | inf s =>
    have hs : s = false := hp1
    subst hs
    have : Double.inf false - 1 = .inf false := rfl
    rw [this, hinfmul]
  | fin p =>
    have hp : (1 : Int) ≤ p := hp1
    rcases h with h | ⟨hlim, hne⟩
    · exact Double.noConfusion h
    · subst hlim
      have hp2 : 2 ≤ p := by
        by_contra hlt
        have : p = 1 := by omega
        subst this
        exact hne rfl
      obtain ⟨n, hn⟩ : ∃ n : Nat, p - 1 = (n : Int) := ⟨(p - 1).toNat, by omega⟩
      have hsub : Double.fin p - 1 = Double.ofInt (n : Int) := by
        show Double.sub (.fin p) (.fin ((1 : Nat) : Int)) = _
        unfold Double.sub
        simp only
        congr 1
      rw [hsub]
      have hfin : ∀ r : Nat, 1 ≤ r → Double.fin (r : Int) * Double.inf false = .inf false := by
        intro r hr
        have h0 : ¬ (r : Int) = 0 := by omega
        have hneg : ¬ (r : Int) < 0 := by omega
        show Double.mul _ _ = _
        unfold Double.mul
        simp [h0, hneg]
      by_cases hlt : n < 2 ^ 53
      · rw [ofInt_natCast_of_lt n hlt]
        exact hfin n (by omega)
      · rcases ofInt_natCast_big n (by omega) with hinf | ⟨r, hr, hbig⟩
        · rw [hinf]
          rfl
        · rw [hr]
          exact hfin r (by omega)

theorem findSorted_skip_inf (filter : Option String) (limit : Double) (ds : List Detection)
    (hsize : ds.length < 2 ^ 53) : findSorted filter (.inf false) limit ds = some [] := by
  have hlen : (sortNewestFirst (ds.filter (matchesFilter filter))).length ≤ ds.length := by
    rw [sortNewestFirst, List.length_insertionSort]
    exact List.length_filter_le _ _
  have h64 : toInt64 (.inf false) = ((9223372036854775807 : Nat) : Int) := by
    simp only [toInt64, pow2_63]
    norm_num
  unfold findSorted
  simp only [h64]
  rw [if_neg (by omega), Int.toNat_ofNat, List.drop_eq_nil_of_le (by omega)]
  simp

theorem findSorted_first_all (filter : Option String) (ds : List Detection)
    (hsize : ds.length < 2 ^ 53) :
    findSorted filter (((1 : Double) - 1) * Double.inf false) (.inf false) ds =
      some (sortNewestFirst (ds.filter (matchesFilter filter))) := by
  have hlen : (sortNewestFirst (ds.filter (matchesFilter filter))).length ≤ ds.length := by
    rw [sortNewestFirst, List.length_insertionSort]
    exact List.length_filter_le _ _
  have hskip : ((1 : Double) - 1) * Double.inf false = .nan := by decide
  have h64 : toInt64 (.inf false) = ((9223372036854775807 : Nat) : Int) := by
    simp only [toInt64, pow2_63]
    norm_num
  rw [hskip]
  unfold findSorted
  simp only [Double.isNegative, Bool.false_eq_true, if_false, h64]
  have h0 : toInt64 .nan = 0 := rfl
  rw [h0, if_neg (by omega), if_neg (by omega), Int.toNat_ofNat, Int.toNat_zero, List.drop_zero,
    List.take_of_length_le (by omega)]

theorem toInt64_nonneg (d : Double) (h : atLeast 0 d) : 0 ≤ toInt64 d := by
  cases d with
  | nan => exact absurd h (by simp [atLeast])
  | inf s =>
    have hs : s = false := h
    subst hs
    simp only [toInt64, pow2_63]
    norm_num
  | fin v =>
    have hv : (0 : Int) ≤ v := h
    simp only [toInt64, pow2_63]
    split
    · omega
    · split <;> omega

theorem findSorted_isSome (filter : Option String) (skip limit : Double) (ds : List Detection)
    (h : 0 ≤ toInt64 skip) : ∃ xs, findSorted filter skip limit ds = some xs := by
  have h1 : ¬ toInt64 skip < 0 := not_lt.mpr h
  unfold findSorted
  simp only [h1, if_false]
  exact ⟨_, rfl⟩

theorem ofInt_natCast_nonneg (n : Nat) : atLeast 0 (Double.ofInt (n : Int)) := by
  by_cases h : n < 2 ^ 53
  · rw [ofInt_natCast_of_lt n h]
    show (0 : Int) ≤ n
    omega
  · rcases ofInt_natCast_big n (by omega) with hinf | ⟨r, hr, -⟩
    · rw [hinf]
      rfl
    · rw [hr]
      show (0 : Int) ≤ r
      omega

theorem sub_one_mul_fin (p l : Nat) (hp1 : 1 ≤ p) (hl1 : 1 ≤ l) :
    atLeast 0 ((Double.fin (p : Int) - 1) * Double.fin (l : Int)) ∧
      ((p - 1) * l < 2 ^ 53 →
        (Double.fin (p : Int) - 1) * Double.fin (l : Int) = .fin (((p - 1) * l : Nat) : Int)) := by
  rw [sub_one_eq p hp1]
  have hmul : ∀ x : Nat, Double.fin (x : Int) * Double.fin (l : Int) =
      Double.ofInt ((x * l : Nat) : Int) := by
    intro x
    show Double.mul _ _ = _
    unfold Double.mul
    simp only
    congr 1
  have hle : p - 1 ≤ (p - 1) * l := Nat.le_mul_of_pos_right _ (by omega)
  by_cases h : p - 1 < 2 ^ 53
  · rw [ofInt_natCast_of_lt _ h, hmul]
    exact ⟨ofInt_natCast_nonneg _, fun h2 => ofInt_natCast_of_lt _ h2⟩
  · refine ⟨?_, fun h2 => by omega⟩
    rcases ofInt_natCast_big (p - 1) (by omega) with hinf | ⟨r, hr, -⟩
    · rw [hinf]
      have hl0 : ¬ ((l : Int) = 0) := by omega
      have hneg : ¬ ((l : Int) < 0) := by omega
      have : Double.inf false * Double.fin (l : Int) = .inf false := by
        show Double.mul _ _ = _
        unfold Double.mul
        simp [hl0, hneg]
      rw [this]
      rfl
    · rw [hr, hmul]
      exact ofInt_natCast_nonneg _

theorem ceilDiv_nonneg (a b : Int) (ha : 0 ≤ a) (hb : 0 < b) : 0 ≤ ceilDiv a b := by
  by_contra hneg
  have h1 : ceilDiv a b ≤ -1 := by omega
  have h2 := (ceilDiv_le_iff a b (-1) hb).mp h1
  omega

theorem historyFilter_of_label (p : String) (h : p = "real" ∨ p = "fake") :
    historyFilter (some p) = some p := by
  rcases h with rfl | rfl <;> decide

theorem historyFilter_of_other (type : Option String) (hr : type ≠ some "real")
    (hf : type ≠ some "fake") : historyFilter type = none := by
  cases type with
  | none => rfl
  | some p =>
    have h1 : p ≠ "real" := fun h => hr (by rw [h])
    have h2 : p ≠ "fake" := fun h => hf (by rw [h])
    simp [historyFilter, h1, h2]

theorem filter_matchesFilter_none (ds : List Detection) :
    ds.filter (matchesFilter none) = ds := by
  simp [matchesFilter]

theorem newestFirst_perm (type : Option String) (w : Sys) :
    (newestFirst type w).Perm (w.detections.filter (matchesFilter (historyFilter type))) :=
  List.perm_insertionSort _ _

theorem newestFirst_sorted (type : Option String) (w : Sys) :
    (newestFirst type w).Sorted (fun a b => b.createdAt ≤ a.createdAt) :=
  List.sorted_insertionSort _ _

theorem mem_newestFirst (type : Option String) (w : Sys) (d : Detection) :
    d ∈ newestFirst type w ↔
      d ∈ w.detections ∧ matchesFilter (historyFilter type) d = true := by
  rw [(newestFirst_perm type w).mem_iff, List.mem_filter]

/-- Claim C22: for a page and a limit at least 1, getHistory answers 200 and lists the
records at positions (page-1)*limit + 1 through page*limit, or fewer at the end, of the
stored records passing the filter (prediction = type when type is "real" or "fake", all
records otherwise) in the order of descending createdAt; page 2 with limit 10 lists records
11 to 20 of that order when there are at least 20. This holds for every store when
(page-1)*limit is below 2^53 and the limit below 2^63, and for every page and limit when the
store has fewer than 2^53 records. With a limit so long that it is read as Infinity, page 1
lists the whole order and every other page nothing; a page read as Infinity lists nothing. -/
theorem getHistory_page_window (q : HistoryQuery) (w : Sys) (page limit : Double)
    (hp : parseInt q.page = page) (hl : parseInt q.limit = limit)
    (hp1 : atLeast 1 page) (hl1 : atLeast 1 limit) :
    (getHistory q w).res.status = 200 ∧
    (∀ p l : Nat, page = .fin (p : Int) → limit = .fin (l : Int) →
      w.detections.length < 2 ^ 53 ∨ ((p - 1) * l < 2 ^ 53 ∧ l < 2 ^ 63) →
      listingOf (getHistory q w) = ((newestFirst q.type w).drop ((p - 1) * l)).take l ∧
      (∀ i, i < l →
        (listingOf (getHistory q w))[i]? = (newestFirst q.type w)[(p - 1) * l + i]?) ∧
      (listingOf (getHistory q w)).length =
        min l ((newestFirst q.type w).length - (p - 1) * l)) ∧
    (w.detections.length < 2 ^ 53 → limit = .inf false → page = 1 →
      listingOf (getHistory q w) = newestFirst q.type w) ∧
    (w.detections.length < 2 ^ 53 → limit = .inf false → page ≠ 1 →
      listingOf (getHistory q w) = []) ∧
    (w.detections.length < 2 ^ 53 → page = .inf false → listingOf (getHistory q w) = []) ∧
    (newestFirst q.type w).Sorted (fun a b => b.createdAt ≤ a.createdAt) ∧
    (∀ p, p = "real" ∨ p = "fake" → q.type = some p →
      (newestFirst q.type w).Perm (w.detections.filter (fun d => d.prediction == p))) ∧
    (q.type ≠ some "real" → q.type ≠ some "fake" →
      (newestFirst q.type w).Perm w.detections) ∧
    (page = 2 → limit = 10 → 20 ≤ (newestFirst q.type w).length →
      listingOf (getHistory q w) = ((newestFirst q.type w).drop 10).take 10 ∧
      (listingOf (getHistory q w)).length = 10) := by
  have hof : ∀ xs, findSorted (historyFilter q.type) ((page - 1) * limit) limit w.detections =
        some xs →
      (getHistory q w).res.status = 200 ∧ listingOf (getHistory q w) = xs := by
    intro xs hfind
    rw [getHistory_of_find q w page limit xs hp hl hp1 hl1 hfind]
    exact ⟨rfl, rfl⟩
  have hfinite : ∀ p l : Nat, page = .fin (p : Int) → limit = .fin (l : Int) →
      w.detections.length < 2 ^ 53 ∨ ((p - 1) * l < 2 ^ 53 ∧ l < 2 ^ 63) →
      listingOf (getHistory q w) = ((newestFirst q.type w).drop ((p - 1) * l)).take l := by
    intro p l hpage hlimit hsize
    have hp2 : 1 ≤ p := by
      have : (1 : Int) ≤ p := by rw [hpage] at hp1; exact hp1
      omega
    have hl2 : 1 ≤ l := by
      have : (1 : Int) ≤ l := by rw [hlimit] at hl1; exact hl1
      omega
    have hfind := findSorted_of_pos (historyFilter q.type) p l w.detections hp2 hl2 hsize
    rw [← hpage, ← hlimit] at hfind
    exact (hof _ hfind).2
  have hinf : w.detections.length < 2 ^ 53 →
      page = .inf false ∨ (limit = .inf false ∧ page ≠ 1) → listingOf (getHistory q w) = [] := by
    intro hsize h
    have hfind := findSorted_skip_inf (historyFilter q.type) limit w.detections hsize
    rw [← sub_one_mul_inf page limit hp1 hl1 h] at hfind
    exact (hof _ hfind).2
  have hall : w.detections.length < 2 ^ 53 → limit = .inf false → page = 1 →
      listingOf (getHistory q w) = newestFirst q.type w := by
    intro hsize hlimit hpage
    subst hlimit hpage
    exact (hof _ (findSorted_first_all (historyFilter q.type) w.detections hsize)).2
  have hsome : ∃ xs, findSorted (historyFilter q.type) ((page - 1) * limit) limit
      w.detections = some xs := by
    apply findSorted_isSome
    by_cases h : page = .inf false ∨ (limit = .inf false ∧ page ≠ 1)
    · rw [sub_one_mul_inf page limit hp1 hl1 h]
      exact toInt64_nonneg _ rfl
    · cases hpage : page with
      | nan =>
        rw [hpage] at hp1
        exact absurd hp1 (by simp [atLeast])
      | inf s =>
        rw [hpage] at hp1
        have hs : s = false := hp1
        subst hs
        exact absurd (Or.inl hpage) h
      | fin p =>
        cases hlimit : limit with
        | nan =>
          rw [hlimit] at hl1
          exact absurd hl1 (by simp [atLeast])
        | inf t =>
          rw [hlimit] at hl1
          have ht : t = false := hl1
          subst ht
          have h1 : page = 1 := by
            by_contra hne
            exact h (Or.inr ⟨hlimit, hne⟩)
          rw [hpage] at h1
          rw [h1]
          decide
        | fin l =>
          rw [hpage] at hp1
          rw [hlimit] at hl1
          have hp2 : (1 : Int) ≤ p := hp1
          have hl2 : (1 : Int) ≤ l := hl1
          have hpn : p = ((p.toNat : Nat) : Int) := by omega
          have hln : l = ((l.toNat : Nat) : Int) := by omega
          rw [hpn, hln]
          exact toInt64_nonneg _ (sub_one_mul_fin p.toNat l.toNat (by omega) (by omega)).1
  obtain ⟨xs, hxs⟩ := hsome
  refine ⟨(hof xs hxs).1, ?_, hall, fun hs h1 h2 => hinf hs (Or.inr ⟨h1, h2⟩),
    fun hs h1 => hinf hs (Or.inl h1), newestFirst_sorted q.type w, ?_, ?_, ?_⟩
  · intro p l hpage hlimit hsize
    have hlist := hfinite p l hpage hlimit hsize
    refine ⟨hlist, ?_, ?_⟩
    · intro i hi
      rw [hlist, List.getElem?_take_of_lt hi, List.getElem?_drop]
    · rw [hlist, List.length_take, List.length_drop]
  · intro p hlabel htype
    have h := newestFirst_perm q.type w
    rw [htype, historyFilter_of_label p hlabel] at h
    rw [htype]
    exact h
  · intro hr hf
    have h := newestFirst_perm q.type w
    rw [historyFilter_of_other q.type hr hf, filter_matchesFilter_none] at h
    exact h
  · intro hpage hlimit hlen
    have hlist := hfinite 2 10 hpage hlimit (Or.inr ⟨by norm_num, by norm_num⟩)
    refine ⟨hlist, ?_⟩
    rw [hlist, List.length_take, List.length_drop]
    omega

/-- Witness for C22: page 2 with limit 2 of the four sample records. -/
theorem getHistory_page_window_witness :
    listingOf (getHistory (pageQuery "2" "2") historySys) =
        ((newestFirst none historySys).drop ((2 - 1) * 2)).take 2 ∧
      (listingOf (getHistory (pageQuery "2" "2") historySys)).map (fun d => d._id) = [3, 1] :=
  ⟨((getHistory_page_window (pageQuery "2" "2") historySys 2 2 (by decide) (by decide)
      (by decide) (by decide)).2.1 2 2 rfl rfl (Or.inl (by decide))).1,
    by decide⟩

/-- Reading a limit beyond the largest double: page 1 of the sample store lists all four
records and every other page none. -/
theorem getHistory_infinite_limit_listing :
    parseInt (some hugeNumber) = .inf false ∧
      (listingOf (getHistory (pageQuery "1" hugeNumber) historySys)).map (fun d => d._id) =
        [9, 2, 3, 1] ∧
      listingOf (getHistory (pageQuery "2" hugeNumber) historySys) = [] := by
  decide!

theorem flatMap_chunks {α : Type} (xs : List α) (l k : Nat) :
    (List.range k).flatMap (fun i => (xs.drop (i * l)).take l) = xs.take (k * l) := by
  induction k with
  | zero => simp
  | succ k ih =>
    rw [List.range_succ, List.flatMap_append, List.flatMap_singleton, ih, Nat.succ_mul,
      List.take_add]

theorem newestFirst_none (w : Sys) : newestFirst none w = sortNewestFirst w.detections := by
  have h : historyFilter none = none := rfl
  rw [newestFirst, h, filter_matchesFilter_none]

theorem countDocuments_none (ds : List Detection) : countDocuments none ds = ds.length := by
  simp [countDocuments, matchesFilter]

theorem pagesOf_mul_ge (total limit : Nat) (hl : 1 ≤ limit) :
    total ≤ pagesOf total limit * limit := by
  have hb : (0 : Int) < (limit : Int) := by omega
  have h1 := le_ceilDiv_mul (total : Int) (limit : Int) hb
  have h2 := ceilDiv_nonneg (total : Int) (limit : Int) (by omega) hb
  have h3 : ((pagesOf total limit : Nat) : Int) = ceilDiv total limit := by
    unfold pagesOf
    exact Int.toNat_of_nonneg h2
  have h4 : ((total : Nat) : Int) ≤ ((pagesOf total limit * limit : Nat) : Int) := by
    push_cast
    rw [h3]
    exact h1
  exact_mod_cast h4

theorem allPages_eq (w : Sys) (limit : Nat) (hl1 : 1 ≤ limit)
    (hsize : w.detections.length < 2 ^ 53) (qs : Nat → HistoryQuery)
    (hq : ∀ i, 1 ≤ i → i ≤ pagesOf w.detections.length limit →
      (qs i).type = none ∧ parseInt (qs i).page = .fin (i : Int) ∧
        parseInt (qs i).limit = .fin (limit : Int)) :
    allPages qs (pagesOf w.detections.length limit) w = sortNewestFirst w.detections := by
  have hpage : ∀ i ∈ List.range (pagesOf w.detections.length limit),
      listingOf (getHistory (qs (i + 1)) w) =
        ((sortNewestFirst w.detections).drop (i * limit)).take limit := by
    intro i hi
    have hi2 : i + 1 ≤ pagesOf w.detections.length limit := by
      have := List.mem_range.mp hi
      omega
    obtain ⟨htype, hp, hl⟩ := hq (i + 1) (by omega) hi2
    rw [getHistory_of_pos (qs (i + 1)) w (i + 1) limit hp hl (by omega) hl1 hsize, htype]
    simp [listingOf, newestFirst_none]
  unfold allPages
  rw [List.flatMap, List.map_congr_left hpage, ← List.flatMap, flatMap_chunks]
  apply List.take_of_length_le
  have hlen : (sortNewestFirst w.detections).length = w.detections.length :=
    (List.perm_insertionSort _ _).length_eq
  rw [hlen]
  exact pagesOf_mul_ge _ _ hl1

/-- Claim C23 as stated fails: the limit "1" followed by 309 zeros is read as Infinity, a
limit at least 1; page 1 of the sample store of four records is answered with
pagination.total = 4 and pagination.pages = 0, so the pages 1 to pagination.pages are none
and together list no record. -/
theorem getHistory_infinite_limit_zero_pages :
    parseInt (some hugeNumber) = .inf false ∧
    atLeast 1 (parseInt (some hugeNumber)) ∧
    (getHistory (pageQuery "1" hugeNumber) historySys).res.status = 200 ∧
    (getHistory (pageQuery "1" hugeNumber) historySys).res.history.map
      (fun h => h.pagination) =
        some { page := 1, limit := .inf false, total := 4, pages := 0 } ∧
    allPages (fun _ => pageQuery "1" hugeNumber) 0 historySys = [] ∧
    historySys.detections.length = 4 := by
  decide!

/-- Claim C23, amended: with no type filter, a finite limit at least 1 and a store of fewer
than 2^53 records, the listings of getHistory for the pages 1 to pagination.pages =
ceil(total/limit), one after the other, are the stored records newest first: every stored
record exactly once. Their number is pagination.total, the number of stored records, which
is also the total of getStats. -/
theorem getHistory_pages_cover_store (toFixed1 : JsNumber → String) (w : Sys) (limit : Nat)
    (hl1 : 1 ≤ limit) (hsize : w.detections.length < 2 ^ 53) (qs : Nat → HistoryQuery)
    (hq : ∀ i, 1 ≤ i → i ≤ pagesOf w.detections.length limit →
      (qs i).type = none ∧ parseInt (qs i).page = .fin (i : Int) ∧
        parseInt (qs i).limit = .fin (limit : Int)) :
    (∀ i, 1 ≤ i → i ≤ pagesOf w.detections.length limit →
      ∃ h, (getHistory (qs i) w).res.history = some h ∧
        h.pagination.total = w.detections.length ∧
        h.pagination.pages = .fin (ceilDiv w.detections.length limit) ∧
        h.pagination.pages = .fin (pagesOf w.detections.length limit : Nat)) ∧
    allPages qs (pagesOf w.detections.length limit) w = sortNewestFirst w.detections ∧
    (allPages qs (pagesOf w.detections.length limit) w).Perm w.detections ∧
    (allPages qs (pagesOf w.detections.length limit) w).length = w.detections.length ∧
    ∃ st, (getStats toFixed1 w).res.stats = some st ∧ st.total = w.detections.length := by
  have hall := allPages_eq w limit hl1 hsize qs hq
  refine ⟨?_, hall, ?_, ?_, ?_⟩
  · intro i hi1 hi2
    obtain ⟨htype, hp, hl⟩ := hq i hi1 hi2
    rw [getHistory_of_pos (qs i) w i limit hp hl hi1 hl1 hsize, htype]
    have hf : historyFilter none = none := rfl
    have hnn := ceilDiv_nonneg (w.detections.length : Int) (limit : Int) (by omega) (by omega)
    refine ⟨_, rfl, ?_, ?_, ?_⟩
    · simp only [hf, countDocuments_none]
    · simp only [hf, countDocuments_none]
    · simp only [hf, countDocuments_none, pagesOf]
      rw [Int.toNat_of_nonneg hnn]
  · rw [hall]
    exact List.perm_insertionSort _ _
  · rw [hall]
    exact (List.perm_insertionSort _ _).length_eq
  · exact ⟨_, rfl, countDocuments_none _⟩

/-- Witness for C23: the four sample records in two pages of two. -/
theorem getHistory_pages_cover_store_witness :
    (allPages (fun i => pageQuery (if i = 1 then "1" else "2") "2") 2 historySys).Perm
        historySys.detections ∧
      (allPages (fun i => pageQuery (if i = 1 then "1" else "2") "2") 2 historySys).map
        (fun d => d._id) = [9, 2, 3, 1] :=
  have h := getHistory_pages_cover_store (fun _ => "") historySys 2 (by decide) (by decide)
    (fun i => pageQuery (if i = 1 then "1" else "2") "2")
    (by
      intro i h1 h2
      have hpages : pagesOf historySys.detections.length 2 = 2 := by decide
      rw [hpages] at h2
      have hi : i = 1 ∨ i = 2 := by omega
      rcases hi with rfl | rfl
      · exact ⟨rfl, by decide, by decide⟩
      · exact ⟨rfl, by decide, by decide⟩)
  ⟨h.2.2.1, by decide⟩

theorem orDefault_fin_bound (x : Option String) (l : Int)
    (h : orDefault (parseInt x) 20 = .fin l) : l.natAbs < pow2 1024 := by
  by_cases hc : parseInt x = .nan ∨ parseInt x = 0
  · rw [(orDefault_cases _ _).1 hc] at h
    have : (20 : Int) = l := Double.fin.inj h
    rw [← this]
    decide
  · rw [(orDefault_cases _ _).2 (fun h1 => hc (Or.inl h1)) (fun h1 => hc (Or.inr h1))] at h
    exact parseInt_fin_bound x l h

/-- Claim C29 as stated fails: with the page "1" and the limit "1" followed by 309 zeros,
read as Infinity, page and limit are at least 1 and the skip given to the store is
(1 - 1) * Infinity = NaN, which is not non-negative; and pagination.pages is 0 for a total
of 4, not the least p with p * limit >= total. -/
theorem getHistory_infinite_limit_skip_nan :
    parseInt (some "1") = 1 ∧ parseInt (some hugeNumber) = .inf false ∧
    atLeast 1 (parseInt (some "1")) ∧ atLeast 1 (parseInt (some hugeNumber)) ∧
    (getHistory (pageQuery "1" hugeNumber) historySys).calls =
      [.find none .nan (.inf false), .countDocuments none, .respond 200] ∧
    ¬ atLeast 0 Double.nan ∧
    (getHistory (pageQuery "1" hugeNumber) historySys).res.history.map
      (fun h => (h.pagination.total, h.pagination.pages)) = some (4, 0) := by
  decide!

/-- Claim C29, amended: getHistory falls back to page 1 exactly when parseInt of the page
parameter is NaN or 0, and to limit 20 exactly when parseInt of the limit parameter is NaN or
0; every other parsed number, a negative or an infinite one included, is used as it is. So
the limit is never 0 and the skip given to the store is (page-1)*limit in the arithmetic of
doubles. When page and limit are finite and at least 1, that skip is not negative, it is the
exact product when this is below 2^53, the query is answered, and for a total below 2^53
pagination.pages = ceil(total/limit) is the least p with p*limit >= total. -/
theorem getHistory_page_limit_defaults (q : HistoryQuery) (w : Sys) :
    ∃ page limit : Double,
      (∃ status, (getHistory q w).calls =
        [.find (historyFilter q.type) ((page - 1) * limit) limit,
         .countDocuments (historyFilter q.type), .respond status]) ∧
      (parseInt q.page = .nan ∨ parseInt q.page = 0 → page = 1) ∧
      (parseInt q.page ≠ .nan → parseInt q.page ≠ 0 → page = parseInt q.page) ∧
      (parseInt q.limit = .nan ∨ parseInt q.limit = 0 → limit = 20) ∧
      (parseInt q.limit ≠ .nan → parseInt q.limit ≠ 0 → limit = parseInt q.limit) ∧
      limit ≠ 0 ∧
      (∀ h, (getHistory q w).res.history = some h →
        h.pagination.page = page ∧ h.pagination.limit = limit ∧
        h.pagination.pages = ceilQuotient h.pagination.total.toNat limit) ∧
      (∀ p l : Nat, page = .fin (p : Int) → limit = .fin (l : Int) → 1 ≤ p → 1 ≤ l →
        atLeast 0 ((page - 1) * limit) ∧
        ((p - 1) * l < 2 ^ 53 → (page - 1) * limit = .fin (((p - 1) * l : Nat) : Int)) ∧
        ∃ h, (getHistory q w).res.history = some h ∧
          (h.pagination.total < 2 ^ 53 →
            ∃ pages : Int, h.pagination.pages = .fin pages ∧
              pages = ceilDiv h.pagination.total l ∧
              h.pagination.total ≤ pages * l ∧
              ∀ p2 : Int, h.pagination.total ≤ p2 * l → pages ≤ p2)) := by
  refine ⟨orDefault (parseInt q.page) 1, orDefault (parseInt q.limit) 20, ?_,
    (orDefault_cases _ _).1, (orDefault_cases _ _).2, (orDefault_cases _ _).1,
    (orDefault_cases _ _).2, (orDefault_ne _ _ (by decide) (by decide)).1, ?_, ?_⟩
  · rcases getHistory_cases q w with ⟨-, h⟩ | ⟨ds, -, h⟩
    · exact ⟨500, by rw [h]⟩
    · exact ⟨200, by rw [h]⟩
  · intro h hh
    rcases getHistory_cases q w with ⟨-, he⟩ | ⟨ds, -, he⟩
    · rw [he] at hh
      simp [historyError] at hh
    · rw [he] at hh
      simp only [Option.some.injEq] at hh
      subst hh
      exact ⟨rfl, rfl, by simp only [Int.toNat_ofNat]⟩
  · intro p l hpage hlimit hp1 hl1
    have hbound : l < pow2 1024 := by
      have := orDefault_fin_bound q.limit (l : Int) hlimit
      rwa [Int.natAbs_ofNat] at this
    rw [hpage, hlimit]
    obtain ⟨hnonneg, hexact⟩ := sub_one_mul_fin p l hp1 hl1
    refine ⟨hnonneg, hexact, ?_⟩
    rcases getHistory_cases q w with ⟨hnone, -⟩ | ⟨ds, -, he⟩
    · rw [hpage, hlimit] at hnone
      obtain ⟨xs, hxs⟩ := findSorted_isSome (historyFilter q.type) _ (.fin (l : Int))
        w.detections (toInt64_nonneg _ hnonneg)
      rw [hxs] at hnone
      exact Option.noConfusion hnone
    · rw [he]
      refine ⟨_, rfl, ?_⟩
      intro htotal
      simp only at htotal
      have hcount : countDocuments (historyFilter q.type) w.detections < 2 ^ 53 := by
        exact_mod_cast htotal
      refine ⟨ceilDiv (countDocuments (historyFilter q.type) w.detections : Int) (l : Int),
        ?_, rfl, ?_, ?_⟩
      · simp only [hlimit]
        exact ceilQuotient_exact _ l hcount hl1 hbound
      · exact le_ceilDiv_mul _ _ (by omega)
      · intro p2 hp2
        exact (ceilDiv_le_iff _ _ p2 (by omega)).mpr hp2

/-- Witness for C29: page "-3" is used as -3, page "0" becomes 1, limit "abc" becomes 20. -/
theorem getHistory_page_limit_defaults_witness :
    (getHistory { page := some "-3", limit := some "abc", type := none } historySys).calls =
        [.find none (.fin (-80)) 20, .countDocuments none, .respond 500] ∧
      (getHistory { page := some "0", limit := some "2", type := none } historySys).calls =
        [.find none 0 2, .countDocuments none, .respond 200] ∧
      ∃ page limit : Double,
        (∃ status,
          (getHistory { page := some "-3", limit := some "abc", type := none } historySys).calls =
            [.find (historyFilter none) ((page - 1) * limit) limit,
             .countDocuments (historyFilter none), .respond status]) ∧
        limit ≠ 0 :=
  have ⟨page, limit, h1, _, _, _, _, h6, _⟩ := getHistory_page_limit_defaults
    { page := some "-3", limit := some "abc", type := none } historySys
  ⟨by decide, by decide, page, limit, h1, h6⟩

theorem historyFilter_eq_some_iff (type : Option String) (p : String) :
    historyFilter type = some p ↔ type = some p ∧ (p = "real" ∨ p = "fake") := by
  constructor
  · intro h
    by_cases hr : type = some "real"
    · rw [hr, historyFilter_of_label "real" (Or.inl rfl)] at h
      have hp : "real" = p := Option.some.inj h
      subst hp
      exact ⟨hr, Or.inl rfl⟩
    · by_cases hf : type = some "fake"
      · rw [hf, historyFilter_of_label "fake" (Or.inr rfl)] at h
        have hp : "fake" = p := Option.some.inj h
        subst hp
        exact ⟨hf, Or.inr rfl⟩
      · rw [historyFilter_of_other type hr hf] at h
        exact Option.noConfusion h
  · rintro ⟨rfl, hp⟩
    exact historyFilter_of_label p hp

theorem mem_of_findSorted (filter : Option String) (skip limit : Double)
    (ds xs : List Detection) (h : findSorted filter skip limit ds = some xs) (d : Detection)
    (hd : d ∈ xs) : d ∈ ds ∧ matchesFilter filter d = true := by
  unfold findSorted at h
  simp only at h
  by_cases hs : toInt64 skip < 0
  · simp [hs] at h
  · simp only [hs, if_false, Option.some.injEq] at h
    have hsorted : d ∈ sortNewestFirst (ds.filter (matchesFilter filter)) := by
      subst h
      split at hd <;> split at hd <;>
        first
        | exact List.mem_of_mem_drop hd
        | exact List.mem_of_mem_drop (List.mem_of_mem_take hd)
    have hperm : (sortNewestFirst (ds.filter (matchesFilter filter))).Perm
        (ds.filter (matchesFilter filter)) := List.perm_insertionSort _ _
    exact List.mem_filter.mp (hperm.mem_iff.mp hsorted)

/-- Claim C30: getHistory filters on prediction exactly when the type parameter is "real" or
"fake", and then on that value; for every other type (absent, empty, "Fake", unknown) its
whole outcome, listing and pagination.total included, is that of the same query without a
type; and pagination.total is the number of stored records passing the very filter the
listing is taken from. -/
theorem getHistory_type_filter (q : HistoryQuery) (w : Sys) :
    (∃ skip limit status, (getHistory q w).calls =
      [.find (historyFilter q.type) skip limit, .countDocuments (historyFilter q.type),
       .respond status]) ∧
    (∀ p, historyFilter q.type = some p ↔ q.type = some p ∧ (p = "real" ∨ p = "fake")) ∧
    (q.type ≠ some "real" → q.type ≠ some "fake" →
      historyFilter q.type = none ∧
      getHistory q w = getHistory { q with type := none } w) ∧
    (∀ h, (getHistory q w).res.history = some h →
      h.pagination.total =
        (w.detections.filter (matchesFilter (historyFilter q.type))).length ∧
      ∀ d ∈ h.detections, d ∈ w.detections ∧ matchesFilter (historyFilter q.type) d = true) := by
  refine ⟨?_, historyFilter_eq_some_iff q.type, ?_, ?_⟩
  · rcases getHistory_cases q w with ⟨-, h⟩ | ⟨ds, -, h⟩
    · exact ⟨_, _, 500, by rw [h]⟩
    · exact ⟨_, _, 200, by rw [h]⟩
  · intro hr hf
    have h0 := historyFilter_of_other q.type hr hf
    have h1 : historyFilter (none : Option String) = none := rfl
    refine ⟨h0, ?_⟩
    simp only [getHistory, h0, h1]
  · intro h hh
    rcases getHistory_cases q w with ⟨-, he⟩ | ⟨ds, hfind, he⟩
    · rw [he] at hh
      simp [historyError] at hh
    · rw [he] at hh
      simp only [Option.some.injEq] at hh
      subst hh
      exact ⟨rfl, fun d hd => mem_of_findSorted _ _ _ _ _ hfind d hd⟩

/-- Witness for C30: the type "Fake" lists like no type; the type "fake" lists the two fakes. -/
theorem getHistory_type_filter_witness :
    getHistory { page := none, limit := none, type := some "Fake" } historySys =
        getHistory { page := none, limit := none, type := none } historySys ∧
      (listingOf (getHistory { page := none, limit := none, type := some "fake" }
        historySys)).map (fun d => d._id) = [9, 2] :=
  ⟨((getHistory_type_filter { page := none, limit := none, type := some "Fake" }
      historySys).2.2.1 (by decide) (by decide)).2,
    by decide⟩

/-! ## Deleting a detection -/

theorem reclaimR2_facts (env : DetectEnv) (d : Detection) (w : Sys) :
    (reclaimR2 env d w).1.detections = w.detections ∧
    (reclaimR2 env d w).1.files = w.files ∧
    (reclaimR2 env d w).2.2 =
      (if d.storageType = "r2" ∧ truthy d.r2Key = true then
        [HistoryCall.deleteFromR2 (d.r2Key.getD "")] else []) := by
  unfold reclaimR2
  by_cases h : d.storageType = "r2" ∧ truthy d.r2Key = true
  · cases hs : env.r2SendFails <;> simp [h.1, h.2, deleteFromR2, hs]
  · have h2 : (d.storageType == "r2" && truthy d.r2Key) = false := by
      by_cases h3 : d.storageType = "r2"
      · have h4 : truthy d.r2Key = false := by
          cases ht : truthy d.r2Key with
          | false => rfl
          | true => exact absurd ⟨h3, ht⟩ h
        simp [h4]
      · simp [h3]
    simp [h2, h]

theorem expectedReclaim_r2 (d : Detection) (w : Sys) (h : d.storageType = "r2") :
    expectedReclaim d w =
      (if truthy d.r2Key = true then [HistoryCall.deleteFromR2 (d.r2Key.getD "")] else []) := by
  unfold expectedReclaim
  rw [if_pos h]
  cases hk : d.r2Key with
  | none => simp [truthy]
  | some key =>
    by_cases hk0 : key = ""
    · simp [truthy, hk0]
    · simp [truthy, hk0]

theorem deleteRecord_facts (rej : Bool) (id : Nat) (w : Sys) (log : List String)
    (calls : List HistoryCall) :
    (rej = false ∧
      (deleteRecord rej id w log calls).calls = calls ++ [.findByIdAndDelete id, .respond 200] ∧
      (deleteRecord rej id w log calls).res.status = 200 ∧
      (deleteRecord rej id w log calls).res.success = true ∧
      (deleteRecord rej id w log calls).sys.detections = findByIdAndDelete id w.detections ∧
      (deleteRecord rej id w log calls).sys.files = w.files) ∨
    (rej = true ∧
      (deleteRecord rej id w log calls).calls = calls ++ [.findByIdAndDelete id, .respond 500] ∧
      (deleteRecord rej id w log calls).res.status = 500 ∧
      (deleteRecord rej id w log calls).res.success = false ∧
      (deleteRecord rej id w log calls).sys.detections = w.detections ∧
      (deleteRecord rej id w log calls).sys.files = w.files) := by
  cases rej with
  | false => exact Or.inl ⟨rfl, rfl, rfl, rfl, rfl, rfl⟩
  | true => exact Or.inr ⟨rfl, rfl, rfl, rfl, rfl, rfl⟩

theorem expectedReclaim_local (d : Detection) (w : Sys) (h : d.storageType = "local") :
    expectedReclaim d w =
      (if hasLocalFile d w then [HistoryCall.unlink (localPathOf d.filename)] else []) := by
  have h2 : ¬ d.storageType = "r2" := by rw [h]; decide
  unfold expectedReclaim hasLocalFile
  rw [if_neg h2]

theorem expectedReclaim_other (d : Detection) (w : Sys) (h1 : ¬ d.storageType = "local")
    (h2 : ¬ d.storageType = "r2") : expectedReclaim d w = [] := by
  unfold expectedReclaim
  rw [if_neg h2, if_neg (fun h => h1 h.1)]

theorem deleteDetection_found (env : DetectEnv) (rej : Bool) (id : Nat) (w : Sys)
    (d : Detection) (hfind : findById id w.detections = some d) :
    (¬ (hasLocalFile d w ∧ env.unlinkFails = true) ∧ rej = false ∧
      (deleteDetection env rej id w).calls =
        [.findById id] ++ expectedReclaim d w ++ [.findByIdAndDelete id, .respond 200] ∧
      (deleteDetection env rej id w).res.status = 200 ∧
      (deleteDetection env rej id w).res.success = true ∧
      (deleteDetection env rej id w).sys.detections = findByIdAndDelete id w.detections) ∨
    (¬ (hasLocalFile d w ∧ env.unlinkFails = true) ∧ rej = true ∧
      (deleteDetection env rej id w).calls =
        [.findById id] ++ expectedReclaim d w ++ [.findByIdAndDelete id, .respond 500] ∧
      (deleteDetection env rej id w).res.status = 500 ∧
      (deleteDetection env rej id w).res.success = false ∧
      (deleteDetection env rej id w).sys.detections = w.detections) ∨
    (hasLocalFile d w ∧ env.unlinkFails = true ∧
      (deleteDetection env rej id w).calls =
        [.findById id] ++ expectedReclaim d w ++ [.respond 500] ∧
      (deleteDetection env rej id w).res.status = 500 ∧
      (deleteDetection env rej id w).res.success = false ∧
      (deleteDetection env rej id w).sys.detections = w.detections ∧
      (deleteDetection env rej id w).sys.files = w.files) := by
  obtain ⟨hdet, hfiles, hcalls⟩ := reclaimR2_facts env d w
  unfold deleteDetection
  simp only [hfind]
  rcases hrec : reclaimR2 env d w with ⟨w1, log1, calls0⟩
  rw [hrec] at hdet hfiles hcalls
  obtain ⟨files1, bucket1, dets1⟩ := w1
  simp only at hdet hfiles hcalls
  subst hdet hfiles
  by_cases hloc : d.storageType = "local"
  · have hr2 : ¬ (d.storageType = "r2" ∧ truthy d.r2Key = true) := by
      rintro ⟨h, -⟩
      rw [hloc] at h
      exact absurd h (by decide)
    rw [if_neg hr2] at hcalls
    subst hcalls
    rw [expectedReclaim_local d w hloc]
    by_cases hL : hasLocalFile d w
    · obtain ⟨-, hname, hmem⟩ := hL
      have hL : hasLocalFile d w := ⟨hloc, hname, hmem⟩
      have hmem1 : localPathOf d.filename ∈ w.files := hmem
      have hc : (d.storageType == "local" && d.filename != "") = true := by
        simp [hloc, hname]
      cases hul : env.unlinkFails with
      | true =>
        have hun : unlinkSync env (localPathOf d.filename) w.files = none := by
          simp [unlinkSync, hul]
        refine Or.inr (Or.inr ⟨hL, rfl, ?_⟩)
        rw [if_pos hc, if_pos hmem1, hun, if_pos hL]
        exact ⟨rfl, rfl, rfl, rfl, rfl⟩
      | false =>
        have hun : unlinkSync env (localPathOf d.filename) w.files =
            some (w.files.filter (fun q => q ≠ localPathOf d.filename)) := by
          simp [unlinkSync, hul, hmem1]
        have hnot : ¬ (hasLocalFile d w ∧ false = true) := by simp
        rcases deleteRecord_facts rej id
            { files := w.files.filter (fun q => q ≠ localPathOf d.filename),
              bucket := bucket1, detections := w.detections }
            (log1 ++ ["🗑️ Deleted local file: " ++ d.filename])
            ([HistoryCall.findById id] ++ [] ++ [.unlink (localPathOf d.filename)])
          with ⟨hr, h1, h2, h3, h4, -⟩ | ⟨hr, h1, h2, h3, h4, -⟩
        · refine Or.inl ⟨hnot, hr, ?_⟩
          rw [if_pos hc, if_pos hmem1, hun, if_pos hL]
          exact ⟨by rw [h1]; simp, h2, h3, h4⟩
        · refine Or.inr (Or.inl ⟨hnot, hr, ?_⟩)
          rw [if_pos hc, if_pos hmem1, hun, if_pos hL]
          exact ⟨by rw [h1]; simp, h2, h3, h4⟩
    · have hnot : ¬ (hasLocalFile d w ∧ env.unlinkFails = true) := fun h => hL h.1
      have hcond : (d.storageType == "local" && d.filename != "") = true →
          localPathOf d.filename ∉ w.files := by
        intro hc
        simp only [Bool.and_eq_true, beq_iff_eq, bne_iff_ne, ne_eq] at hc
        intro hm
        exact hL ⟨hc.1, hc.2, hm⟩
      rw [if_neg hL]
      rcases deleteRecord_facts rej id
          { files := w.files, bucket := bucket1, detections := w.detections } log1 ([HistoryCall.findById id] ++ [])
        with ⟨hr, h1, h2, h3, h4, -⟩ | ⟨hr, h1, h2, h3, h4, -⟩
      · refine Or.inl ⟨hnot, hr, ?_⟩
        by_cases hc : (d.storageType == "local" && d.filename != "") = true
        · rw [if_pos hc, if_neg (hcond hc)]
          exact ⟨by rw [h1], h2, h3, h4⟩
        · rw [if_neg hc]
          exact ⟨by rw [h1], h2, h3, h4⟩
      · refine Or.inr (Or.inl ⟨hnot, hr, ?_⟩)
        by_cases hc : (d.storageType == "local" && d.filename != "") = true
        · rw [if_pos hc, if_neg (hcond hc)]
          exact ⟨by rw [h1], h2, h3, h4⟩
        · rw [if_neg hc]
          exact ⟨by rw [h1], h2, h3, h4⟩
  · have hnot : ¬ (hasLocalFile d w ∧ env.unlinkFails = true) := fun h => hloc h.1.1
    have hc : ¬ (d.storageType == "local" && d.filename != "") = true := by simp [hloc]
    have hexp : expectedReclaim d w = calls0 := by
      by_cases hr2 : d.storageType = "r2"
      · rw [expectedReclaim_r2 d w hr2, hcalls]
        simp [hr2]
      · rw [expectedReclaim_other d w hloc hr2, hcalls]
        simp [hr2]
    rw [hexp]
    rcases deleteRecord_facts rej id
          { files := w.files, bucket := bucket1, detections := w.detections } log1 ([HistoryCall.findById id] ++ calls0)
      with ⟨hr, h1, h2, h3, h4, -⟩ | ⟨hr, h1, h2, h3, h4, -⟩
    · refine Or.inl ⟨hnot, hr, ?_⟩
      rw [if_neg hc]
      exact ⟨h1, h2, h3, h4⟩
    · refine Or.inr (Or.inl ⟨hnot, hr, ?_⟩)
      rw [if_neg hc]
      exact ⟨h1, h2, h3, h4⟩

theorem findByIdAndDelete_eq_filter (id : Nat) (ds : List Detection)
    (hnodup : (ds.map (fun x => x._id)).Nodup) (hex : ∃ d ∈ ds, d._id = id) :
    findByIdAndDelete id ds = ds.filter (fun x => x._id != id) := by
  induction ds with
  | nil => obtain ⟨d, hd, -⟩ := hex; simp at hd
  | cons v rest ih =>
    simp only [List.map_cons, List.nodup_cons, List.mem_map, not_exists, not_and] at hnodup
    obtain ⟨hv, hrest⟩ := hnodup
    unfold findByIdAndDelete at ih ⊢
    by_cases hvid : v._id = id
    · have hp : (fun d : Detection => d._id == id) v = true := by simp [hvid]
      rw [List.eraseP_cons_of_pos (p := fun d : Detection => d._id == id) (a := v) hp]
      have hall : ∀ x ∈ rest, (fun x : Detection => x._id != id) x = true := by
        intro x hx
        have := hv x hx
        simp only [bne_iff_ne, ne_eq]
        rw [← hvid]
        exact this
      rw [List.filter_cons_of_neg (by simp [hvid]), List.filter_eq_self.mpr hall]
    · have hp : ¬ (fun d : Detection => d._id == id) v = true := by simp [hvid]
      have hex2 : ∃ d ∈ rest, d._id = id := by
        obtain ⟨d, hd, hdid⟩ := hex
        rcases List.mem_cons.mp hd with rfl | hd2
        · exact absurd hdid hvid
        · exact ⟨d, hd2, hdid⟩
      rw [List.eraseP_cons_of_neg (p := fun d : Detection => d._id == id) (a := v) hp,
        List.filter_cons_of_pos (by simp [hvid]), ih hrest hex2]

theorem findById_some (id : Nat) (ds : List Detection) (d : Detection)
    (h : findById id ds = some d) : d ∈ ds ∧ d._id = id := by
  refine ⟨List.mem_of_find?_eq_some h, ?_⟩
  have := List.find?_some h
  simpa using this

theorem findById_filter_ne (id : Nat) (ds : List Detection) :
    findById id (ds.filter (fun x => x._id != id)) = none := by
  unfold findById
  rw [List.find?_eq_none]
  intro x hx
  have := (List.mem_filter.mp hx).2
  simpa using this

theorem mem_listingOf (q : HistoryQuery) (w : Sys) (d : Detection)
    (h : d ∈ listingOf (getHistory q w)) : d ∈ w.detections := by
  rcases getHistory_cases q w with ⟨-, he⟩ | ⟨ds, hfind, he⟩
  · rw [he] at h
    simp [listingOf, historyError] at h
  · rw [he] at h
    exact (mem_of_findSorted _ _ _ _ _ hfind d (by simpa [listingOf] using h)).1

theorem deleteDetection_not_found (env : DetectEnv) (rej : Bool) (id : Nat) (w : Sys)
    (h : findById id w.detections = none) :
    deleteDetection env rej id w =
      { sys := w, res := historyError 404 "Detection not found", log := [],
        calls := [.findById id, .respond 404] } := by
  simp only [deleteDetection, h]

/-- Claim C24: on a collection with distinct ids, after a deleteDetection of an existing
record that answered 200, the collection is the old one without that record, every other
record in place; getDetectionById of the id answers 404 "Detection not found", no getHistory
listing contains the record, and another deleteDetection of the id answers 404 "Detection
not found". -/
theorem deleteDetection_removes_record (env : DetectEnv) (rej : Bool) (id : Nat) (w : Sys)
    (d : Detection) (hnodup : (w.detections.map (fun x => x._id)).Nodup)
    (hfind : findById id w.detections = some d)
    (hok : (deleteDetection env rej id w).res.status = 200) :
    (deleteDetection env rej id w).sys.detections =
      w.detections.filter (fun x => x._id != id) ∧
    d ∉ (deleteDetection env rej id w).sys.detections ∧
    (∀ x ∈ w.detections, x ≠ d → x ∈ (deleteDetection env rej id w).sys.detections) ∧
    (getDetectionById id (deleteDetection env rej id w).sys).res =
      historyError 404 "Detection not found" ∧
    (∀ q : HistoryQuery,
      d ∉ listingOf (getHistory q (deleteDetection env rej id w).sys)) ∧
    (∀ (env2 : DetectEnv) (rej2 : Bool),
      (deleteDetection env2 rej2 id (deleteDetection env rej id w).sys).res =
        historyError 404 "Detection not found") := by
  obtain ⟨hmem, hid⟩ := findById_some id w.detections d hfind
  have hinj := List.inj_on_of_nodup_map hnodup
  have hstore : (deleteDetection env rej id w).sys.detections =
      w.detections.filter (fun x => x._id != id) := by
    rcases deleteDetection_found env rej id w d hfind with
      ⟨-, -, -, -, -, h⟩ | ⟨-, -, -, h, -, -⟩ | ⟨-, -, -, h, -, -, -⟩
    · rw [h, findByIdAndDelete_eq_filter id w.detections hnodup ⟨d, hmem, hid⟩]
    · rw [h] at hok
      exact absurd hok (by decide)
    · rw [h] at hok
      exact absurd hok (by decide)
  have hnotin : d ∉ (deleteDetection env rej id w).sys.detections := by
    rw [hstore]
    intro h
    have := (List.mem_filter.mp h).2
    simp [hid] at this
  have hnone : findById id (deleteDetection env rej id w).sys.detections = none := by
    rw [hstore]
    exact findById_filter_ne id w.detections
  refine ⟨hstore, hnotin, ?_, ?_, ?_, ?_⟩
  · intro x hx hne
    rw [hstore]
    refine List.mem_filter.mpr ⟨hx, ?_⟩
    have hxid : x._id ≠ id := by
      intro h
      exact hne (hinj hx hmem (h.trans hid.symm))
    simpa using hxid
  · simp only [getDetectionById, hnone]
  · intro q h
    exact hnotin (mem_listingOf q _ d h)
  · intro env2 rej2
    rw [deleteDetection_not_found env2 rej2 id _ hnone]

/-- Witness for C24: the sample record 2 is deleted. -/
theorem deleteDetection_removes_record_witness :
    (deleteDetection localEnv false 2 historySys).sys.detections.map (fun x => x._id) =
        [1, 3, 9] ∧
      (getDetectionById 2 (deleteDetection localEnv false 2 historySys).sys).res =
        historyError 404 "Detection not found" ∧
      (deleteDetection localEnv false 2 (deleteDetection localEnv false 2 historySys).sys).res =
        historyError 404 "Detection not found" :=
  have h := deleteDetection_removes_record localEnv false 2 historySys
    (sampleDetection 2 "fake" 300) (by decide) (by rfl) (by decide)
  ⟨by decide, h.2.2.2.1, h.2.2.2.2.2 localEnv false⟩

/-- Claim C25, evaluated where the code departs from it: when the remote delete of the
sample R2 record fails, deleteDetection still removes the record and answers 200; when the
unlink of the existing file of the sample local record 2 throws, deleteDetection answers 500
"Failed to delete detection", never calls findByIdAndDelete, and the record stays. -/
theorem deleteDetection_local_unlink_failure_blocks :
    (deleteDetection { localEnv with r2SendFails := true } false 9 historySys).res.status
      = 200 ∧
    (deleteDetection { localEnv with r2SendFails := true } false 9
        historySys).sys.detections.map (fun x => x._id) = [1, 2, 3] ∧
    hasLocalFile (sampleDetection 2 "fake" 300) historySys ∧
    (deleteDetection { localEnv with unlinkFails := true } false 2 historySys).res =
      historyError 500 "Failed to delete detection" ∧
    (deleteDetection { localEnv with unlinkFails := true } false 2 historySys).calls =
      [.findById 2, .unlink "uploads/2.png", .respond 500] ∧
    (deleteDetection { localEnv with unlinkFails := true } false 2
        historySys).sys.detections.map (fun x => x._id) = [1, 2, 3, 9] := by
  decide

theorem mem_expectedReclaim_deleteFromR2 (d : Detection) (w : Sys) (key : String) :
    HistoryCall.deleteFromR2 key ∈ expectedReclaim d w ↔
      d.storageType = "r2" ∧ d.r2Key = some key ∧ key ≠ "" := by
  unfold expectedReclaim
  by_cases hr : d.storageType = "r2"
  · rw [if_pos hr]
    cases hk : d.r2Key with
    | none => simp
    | some k =>
      by_cases hk0 : k = ""
      · subst hk0
        simp only [ne_eq, not_true_eq_false, if_false, List.not_mem_nil, false_iff, not_and,
          Option.some.injEq]
        intro _ h hne
        exact hne h.symm
      · simp only [ne_eq, hk0, not_false_eq_true, if_true, List.mem_singleton,
          HistoryCall.deleteFromR2.injEq, Option.some.injEq]
        constructor
        · rintro rfl
          exact ⟨hr, rfl, hk0⟩
        · rintro ⟨-, h, -⟩
          exact h.symm
  · rw [if_neg hr]
    constructor
    · intro h
      split at h <;> simp at h
    · rintro ⟨h, -⟩
      exact absurd h hr

theorem mem_expectedReclaim_unlink (d : Detection) (w : Sys) (path : String) :
    HistoryCall.unlink path ∈ expectedReclaim d w ↔
      hasLocalFile d w ∧ path = localPathOf d.filename := by
  by_cases hl : d.storageType = "local"
  · rw [expectedReclaim_local d w hl]
    by_cases hL : hasLocalFile d w
    · simp [hL]
    · simp [hL]
  · have hL : ¬ hasLocalFile d w := fun h => hl h.1
    by_cases hr : d.storageType = "r2"
    · rw [expectedReclaim_r2 d w hr]
      constructor
      · intro h
        split at h <;> simp at h
      · rintro ⟨h, -⟩
        exact absurd h hL
    · rw [expectedReclaim_other d w hl hr]
      simp [hL]

theorem expectedReclaim_length (d : Detection) (w : Sys) : (expectedReclaim d w).length ≤ 1 := by
  unfold expectedReclaim
  repeat' split
  all_goals simp

theorem deleteDetection_images (env : DetectEnv) (rej : Bool) (id : Nat) (w : Sys)
    (d : Detection) (hfind : findById id w.detections = some d) :
    (deleteDetection env rej id w).sys.bucket =
      (if d.storageType = "r2" ∧ truthy d.r2Key = true ∧ env.r2SendFails = false then
        w.bucket.filter (fun k => k ≠ d.r2Key.getD "") else w.bucket) ∧
    (deleteDetection env rej id w).sys.files =
      (if hasLocalFile d w ∧ env.unlinkFails = false then
        w.files.filter (fun p => p ≠ localPathOf d.filename) else w.files) := by
  have hne : ("r2" : String) ≠ "local" := by decide
  unfold deleteDetection
  simp only [hfind]
  by_cases hr2 : d.storageType = "r2"
  · have hloc : ¬ d.storageType = "local" := by rw [hr2]; exact hne
    have hL : ¬ hasLocalFile d w := fun h => hloc h.1
    cases hk : truthy d.r2Key <;> cases hs : env.r2SendFails <;> cases rej <;>
      simp [reclaimR2, deleteFromR2, deleteRecord, hr2, hk, hs, hL, hne]
  · by_cases hloc : d.storageType = "local"
    · by_cases hname : d.filename = ""
      · have hL : ¬ hasLocalFile d w := fun h => h.2.1 hname
        cases rej <;> simp [reclaimR2, deleteRecord, hr2, hloc, hname, hL]
      · by_cases hmem : localPathOf d.filename ∈ w.files
        · have hL : hasLocalFile d w := ⟨hloc, hname, hmem⟩
          cases hu : env.unlinkFails <;> cases rej <;>
            simp [reclaimR2, deleteRecord, unlinkSync, hr2, hloc, hname, hmem, hL, hu]
        · have hL : ¬ hasLocalFile d w := fun h => hmem h.2.2
          cases rej <;> simp [reclaimR2, deleteRecord, hr2, hloc, hname, hmem, hL]
    · have hL : ¬ hasLocalFile d w := fun h => hloc h.1
      cases rej <;> simp [reclaimR2, deleteRecord, hr2, hloc, hL]


/-- Claim C26: for an existing record, deleteDetection looks the record up, then makes the
reclaiming call that matches the storage descriptor (deleteFromR2 of the key for an "r2"
record with a key, the unlink of uploads/<filename> for a "local" record whose file exists,
at most one of the two), and only after it findByIdAndDelete. The call acts on the stored
images, whether or not the record is removed afterwards: when the R2 request goes through,
the object of the key is gone from the bucket; when the unlink goes through, the file is gone
from the upload directory; every other object and file stays, and a failed attempt or a
record without a matching image changes neither. When the id matches no record the answer is
404 and nothing is touched. -/
theorem deleteDetection_reclaims_matching_image (env : DetectEnv) (rej : Bool) (id : Nat)
    (w : Sys) :
    (∀ d, findById id w.detections = some d →
      (∃ rest, (deleteDetection env rej id w).calls =
          [.findById id] ++ expectedReclaim d w ++ rest ∧
        (rest = [.findByIdAndDelete id, .respond 200] ∨
          rest = [.findByIdAndDelete id, .respond 500] ∨ rest = [.respond 500])) ∧
      (expectedReclaim d w).length ≤ 1 ∧
      (∀ key, HistoryCall.deleteFromR2 key ∈ (deleteDetection env rej id w).calls ↔
        d.storageType = "r2" ∧ d.r2Key = some key ∧ key ≠ "") ∧
      (∀ path, HistoryCall.unlink path ∈ (deleteDetection env rej id w).calls ↔
        hasLocalFile d w ∧ path = localPathOf d.filename) ∧
      ¬ (∃ key path, HistoryCall.deleteFromR2 key ∈ (deleteDetection env rej id w).calls ∧
        HistoryCall.unlink path ∈ (deleteDetection env rej id w).calls) ∧
      (∀ key, d.storageType = "r2" → d.r2Key = some key → key ≠ "" →
        (env.r2SendFails = false →
          (deleteDetection env rej id w).sys.bucket = w.bucket.filter (fun k => k ≠ key) ∧
          key ∉ (deleteDetection env rej id w).sys.bucket ∧
          ∀ k, k ≠ key → (k ∈ (deleteDetection env rej id w).sys.bucket ↔ k ∈ w.bucket)) ∧
        (env.r2SendFails = true → (deleteDetection env rej id w).sys.bucket = w.bucket) ∧
        (deleteDetection env rej id w).sys.files = w.files) ∧
      (hasLocalFile d w →
        (env.unlinkFails = false →
          (deleteDetection env rej id w).sys.files =
            w.files.filter (fun p => p ≠ localPathOf d.filename) ∧
          localPathOf d.filename ∉ (deleteDetection env rej id w).sys.files ∧
          ∀ p, p ≠ localPathOf d.filename →
            (p ∈ (deleteDetection env rej id w).sys.files ↔ p ∈ w.files)) ∧
        (env.unlinkFails = true → (deleteDetection env rej id w).sys.files = w.files) ∧
        (deleteDetection env rej id w).sys.bucket = w.bucket) ∧
      (expectedReclaim d w = [] →
        (deleteDetection env rej id w).sys.files = w.files ∧
        (deleteDetection env rej id w).sys.bucket = w.bucket) ∧
      (deleteDetection env rej id w).sys.files = (deleteDetection env (!rej) id w).sys.files ∧
      (deleteDetection env rej id w).sys.bucket =
        (deleteDetection env (!rej) id w).sys.bucket) ∧
    (findById id w.detections = none →
      (deleteDetection env rej id w).res = historyError 404 "Detection not found" ∧
      (deleteDetection env rej id w).sys = w ∧
      (deleteDetection env rej id w).calls = [.findById id, .respond 404]) := by
  refine ⟨?_, ?_⟩
  · intro d hfind
    have hcalls : ∃ rest, (deleteDetection env rej id w).calls =
          [.findById id] ++ expectedReclaim d w ++ rest ∧
        (rest = [.findByIdAndDelete id, .respond 200] ∨
          rest = [.findByIdAndDelete id, .respond 500] ∨ rest = [.respond 500]) := by
      rcases deleteDetection_found env rej id w d hfind with
        ⟨-, -, h, -⟩ | ⟨-, -, h, -⟩ | ⟨-, -, h, -⟩
      · exact ⟨_, h, Or.inl rfl⟩
      · exact ⟨_, h, Or.inr (Or.inl rfl)⟩
      · exact ⟨_, h, Or.inr (Or.inr rfl)⟩
    have hr2 : ∀ key, HistoryCall.deleteFromR2 key ∈ (deleteDetection env rej id w).calls ↔
        d.storageType = "r2" ∧ d.r2Key = some key ∧ key ≠ "" := by
      intro key
      obtain ⟨rest, hc, hrest⟩ := hcalls
      rw [hc, ← mem_expectedReclaim_deleteFromR2 d w key]
      rcases hrest with rfl | rfl | rfl <;> simp
    have hun : ∀ path, HistoryCall.unlink path ∈ (deleteDetection env rej id w).calls ↔
        hasLocalFile d w ∧ path = localPathOf d.filename := by
      intro path
      obtain ⟨rest, hc, hrest⟩ := hcalls
      rw [hc, ← mem_expectedReclaim_unlink d w path]
      rcases hrest with rfl | rfl | rfl <;> simp
    obtain ⟨hbucket, hfiles⟩ := deleteDetection_images env rej id w d hfind
    obtain ⟨hbucket2, hfiles2⟩ := deleteDetection_images env (!rej) id w d hfind
    have hne : ("r2" : String) ≠ "local" := by decide
    refine ⟨hcalls, expectedReclaim_length d w, hr2, hun, ?_, ?_, ?_, ?_,
      by rw [hfiles, hfiles2], by rw [hbucket, hbucket2]⟩
    · rintro ⟨key, path, hk, hp⟩
      have h1 := ((hr2 key).mp hk).1
      have h2 := ((hun path).mp hp).1.1
      rw [h1] at h2
      exact absurd h2 hne
    · intro key hst hkey hkne
      have htr : truthy d.r2Key = true := (truthy_eq_true_iff _).mpr ⟨key, hkey, hkne⟩
      have hget : d.r2Key.getD "" = key := by rw [hkey]; rfl
      have hL : ¬ hasLocalFile d w := fun h => hne (hst.symm.trans h.1)
      refine ⟨fun hs => ?_, fun hs => ?_, ?_⟩
      · have hb : (deleteDetection env rej id w).sys.bucket =
            w.bucket.filter (fun k => k ≠ key) := by
          rw [hbucket, if_pos ⟨hst, htr, hs⟩, hget]
        refine ⟨hb, ?_, ?_⟩
        · rw [hb]
          simp
        · intro k hk
          rw [hb]
          simp [hk]
      · rw [hbucket, if_neg (fun h => by rw [hs] at h; exact absurd h.2.2 (by decide))]
      · rw [hfiles, if_neg (fun h => hL h.1)]
    · intro hL
      have hr : ¬ d.storageType = "r2" := fun h => hne (h.symm.trans hL.1)
      refine ⟨fun hu => ?_, fun hu => ?_, ?_⟩
      · have hf : (deleteDetection env rej id w).sys.files =
            w.files.filter (fun p => p ≠ localPathOf d.filename) := by
          rw [hfiles, if_pos ⟨hL, hu⟩]
        refine ⟨hf, ?_, ?_⟩
        · rw [hf]
          simp
        · intro p hp
          rw [hf]
          simp [hp]
      · rw [hfiles, if_neg (fun h => by rw [hu] at h; exact absurd h.2 (by decide))]
      · rw [hbucket, if_neg (fun h => hr h.1)]
    · intro hempty
      have hL : ¬ hasLocalFile d w := by
        intro h
        have := (mem_expectedReclaim_unlink d w (localPathOf d.filename)).mpr ⟨h, rfl⟩
        rw [hempty] at this
        exact absurd this (List.not_mem_nil _)
      have hR : ¬ (d.storageType = "r2" ∧ truthy d.r2Key = true ∧ env.r2SendFails = false) := by
        rintro ⟨h1, h2, -⟩
        obtain ⟨key, hkey, hkne⟩ := (truthy_eq_true_iff _).mp h2
        have := (mem_expectedReclaim_deleteFromR2 d w key).mpr ⟨h1, hkey, hkne⟩
        rw [hempty] at this
        exact absurd this (List.not_mem_nil _)
      exact ⟨by rw [hfiles, if_neg (fun h => hL h.1)], by rw [hbucket, if_neg hR]⟩
  · intro hnone
    rw [deleteDetection_not_found env rej id w hnone]
    exact ⟨rfl, rfl, rfl⟩

/-- Witness for C26: the R2 record is reclaimed from R2 and its object is gone, the local
record 2 is reclaimed by an unlink and its file is gone, each before findByIdAndDelete; an
unknown id touches nothing. -/
theorem deleteDetection_reclaims_matching_image_witness :
    (deleteDetection localEnv false 9 historySys).calls =
        [.findById 9, .deleteFromR2 "uploads/900-9.png", .findByIdAndDelete 9, .respond 200] ∧
      "uploads/900-9.png" ∈ historySys.bucket ∧
      "uploads/900-9.png" ∉ (deleteDetection localEnv false 9 historySys).sys.bucket ∧
      (deleteDetection localEnv false 2 historySys).calls =
        [.findById 2, .unlink "uploads/2.png", .findByIdAndDelete 2, .respond 200] ∧
      (deleteDetection localEnv false 2 historySys).sys.files =
        ["uploads/1.png", "uploads/3.png"] ∧
      (deleteDetection localEnv false 5 historySys).sys = historySys ∧
      (deleteDetection localEnv false 5 historySys).calls = [.findById 5, .respond 404] :=
  have h9 := ((deleteDetection_reclaims_matching_image localEnv false 9 historySys).1
    remoteDetection (by rfl)).2.2.2.2.2.1 "uploads/900-9.png" (by rfl) (by rfl) (by decide)
  have h := (deleteDetection_reclaims_matching_image localEnv false 5 historySys).2 (by rfl)
  ⟨by decide, by decide, (h9.1 (by rfl)).2.1, by decide, by decide, h.2.1, h.2.2⟩

/-! ## Statistics and CORS -/

theorem length_eq_fake_add_real (ds : List Detection)
    (h : ∀ d ∈ ds, d.prediction = "real" ∨ d.prediction = "fake") :
    ds.length = (ds.filter (fun d => d.prediction == "fake")).length +
      (ds.filter (fun d => d.prediction == "real")).length := by
  induction ds with
  | nil => rfl
  | cons v rest ih =>
    have ih2 := ih (fun d hd => h d (List.mem_cons_of_mem _ hd))
    have hne : ("real" : String) ≠ "fake" := by decide
    rcases h v (List.mem_cons_self _ _) with hv | hv
    · simp only [List.filter_cons, hv, List.length_cons]
      simp only [beq_self_eq_true, if_true, List.length_cons]
      have hb : (("real" : String) == "fake") = false := by decide
      simp only [hb, Bool.false_eq_true, if_false]
      omega
    · simp only [List.filter_cons, hv, List.length_cons]
      simp only [beq_self_eq_true, if_true, List.length_cons]
      have hb : (("fake" : String) == "real") = false := by decide
      simp only [hb, Bool.false_eq_true, if_false]
      omega

theorem take_five_eq (xs : List Detection) : xs.take 5 = xs.take (min 5 xs.length) := by
  by_cases h : 5 ≤ xs.length
  · rw [Nat.min_eq_left h]
  · have h2 : xs.length ≤ 5 := by omega
    rw [Nat.min_eq_right h2, List.take_length, List.take_of_length_le h2]

/-- Claim C27: getStats writes nothing (its calls are three counts, one sorted query and one
aggregate, and the state is returned as it was) and returns total = the number of records,
fake and real = the numbers of records with prediction "fake" and "real", and
recentDetections = the first min(5, total) records newest first; when every prediction is
"real" or "fake", total = fake + real. -/
theorem getStats_counts (toFixed1 : JsNumber → String) (w : Sys) :
    (getStats toFixed1 w).sys = w ∧
    (getStats toFixed1 w).calls =
      [.countDocuments none, .countDocuments (some "fake"), .countDocuments (some "real"),
       .find none 0 5, .aggregate, .respond 200] ∧
    (getStats toFixed1 w).res.status = 200 ∧
    ∃ st, (getStats toFixed1 w).res.stats = some st ∧
      st.total = w.detections.length ∧
      st.fake = (w.detections.filter (fun d => d.prediction == "fake")).length ∧
      st.real = (w.detections.filter (fun d => d.prediction == "real")).length ∧
      st.recentDetections = (sortNewestFirst w.detections).take (min 5 st.total) ∧
      (sortNewestFirst w.detections).Sorted (fun a b => b.createdAt ≤ a.createdAt) ∧
      (sortNewestFirst w.detections).Perm w.detections ∧
      ((∀ d ∈ w.detections, d.prediction = "real" ∨ d.prediction = "fake") →
        st.total = st.fake + st.real) := by
  have hlen : (sortNewestFirst w.detections).length = w.detections.length :=
    (List.perm_insertionSort _ _).length_eq
  refine ⟨rfl, rfl, rfl, _, rfl, countDocuments_none _, rfl, rfl, ?_,
    List.sorted_insertionSort _ _, List.perm_insertionSort _ _, ?_⟩
  · simp only [countDocuments_none]
    rw [take_five_eq, hlen]
  · intro h
    simp only [countDocuments_none]
    exact length_eq_fake_add_real w.detections h

/-- Witness for C27: the statistics of the four sample records. -/
theorem getStats_counts_witness :
    ∃ st, (getStats (fun _ => "") historySys).res.stats = some st ∧
      st.total = 4 ∧ st.fake = 2 ∧ st.real = 2 ∧ st.total = st.fake + st.real ∧
      st.recentDetections.map (fun d => d._id) = [9, 2, 3, 1] :=
  have ⟨st, hst, ht, hf, hr, _, _, _, hsum⟩ :=
    (getStats_counts (fun _ => "") historySys).2.2.2
  ⟨st, hst, ht, by rw [hf]; decide, by rw [hr]; decide, hsum (by decide),
    by
      have h2 : (getStats (fun _ => "") historySys).res.stats.map
          (fun s => s.recentDetections.map (fun d => d._id)) = some [9, 2, 3, 1] := by decide
      rw [hst] at h2
      exact Option.some.inj h2⟩

/-- Claim C28: whatever the origin of the request and whatever FRONTEND_URL and NODE_ENV
are, the origin callback of the CORS middleware is called back with no error and `true`:
being in allowedOrigins or not gives the same decision, and no origin is refused. -/
theorem corsOrigin_allows_every_origin (env : Env) (origin : Option String) :
    corsOrigin env origin = { error := none, allow := true } ∧
    (∀ (env2 : Env) (origin2 : Option String), corsOrigin env2 origin2 = corsOrigin env origin) ∧
    (∀ o : String, o ∉ allowedOrigins env → (corsOrigin env (some o)).allow = true) := by
  have h : ∀ (e : Env) (o : Option String), corsOrigin e o = { error := none, allow := true } := by
    intro e o
    unfold corsOrigin
    split
    · rfl
    · split <;> rfl
  exact ⟨h env origin, fun e o => by rw [h e o, h env origin], fun o _ => by rw [h env (some o)]⟩

/-- An origin outside allowedOrigins is allowed: evaluation of the CORS callback. -/
theorem corsOrigin_allows_unlisted_origin :
    "https://evil.example" ∉ allowedOrigins sampleEnv ∧
      corsOrigin sampleEnv (some "https://evil.example") = { error := none, allow := true } := by
  decide

end DefakeIt
